import Mathlib

/-!
# Material shader parameters (Atom RPI)

A shallow embedding of `MaterialShaderParameter` (MaterialShaderParameter.h / .cpp), of the
part of `MaterialShaderParameterLayout` it reads, and of the index allocator that `MaterialSystem`
uses for material types and instances.

Conventions of the embedding.

* A byte (`uint8_t`) is a `Nat`; a byte buffer (`AZStd::vector<uint8_t>`) is a `List Nat`.
* `size_t` sizes and offsets are `Nat`: they index a buffer that is held in memory, so the sums
  `m_offset + m_elementSize * m_elementCount` formed by the code are far below `2 ^ 64`.
* A `float`, `int32_t` or `uint32_t` is the `Nat` below `2 ^ 32` of its 32-bit pattern; its four
  bytes in memory are taken in little-endian order (the engine's platforms).
* `m_structuredBufferData` (`unordered_map<int, vector<uint8_t>>`) is an association list.
* The device count of `RHISystemInterface` is the explicit argument `deviceCount`.
* `AZ_Assert` has no effect on the state; where a property speaks of an assertion, the asserted
  condition is a definition of its own.
-/

namespace AZ.RPI

/-! ## Handles and descriptors -/

/-- Modelled from the spec: `RHI::Handle<uint32_t, ...>` (Handle.h is not part of the sources at
hand). A handle is an index, and one value of the index marks the invalid handle. -/
structure Handle where
  m_index : Nat
deriving DecidableEq, Repr

/-- Modelled from the spec: the index of the invalid handle, `uint32_t(-1)`. -/
def Handle.NullIndex : Nat := 4294967295

/-- Modelled from the spec: `Handle::IsValid`. -/
def Handle.IsValid (h : Handle) : Bool := h.m_index != Handle.NullIndex

/-- Modelled from the spec: the default-constructed (invalid) handle. -/
def Handle.Null : Handle := ⟨Handle.NullIndex⟩

/-- The variant `m_srgInputIndex` of a descriptor:
`variant<monostate, ShaderInputConstantIndex, ShaderInputImageIndex>`. -/
inductive SrgInputIndex where
  | monostate
  | constantIndex (index : Handle)
  | imageIndex (index : Handle)
deriving DecidableEq, Repr

/-- The struct `MaterialShaderParameterDescriptor::BufferBinding`. -/
structure BufferBinding where
  m_elementSize : Nat
  m_elementCount : Nat
  m_offset : Nat
deriving DecidableEq, Repr

/-- The struct `MaterialShaderParameterDescriptor`. -/
structure MaterialShaderParameterDescriptor where
  m_name : String
  m_typeName : String
  m_structuredBufferBinding : BufferBinding
  m_srgInputIndex : SrgInputIndex
  m_isBindlessReadIndex : Bool
  m_isPseudoParam : Bool
deriving DecidableEq, Repr

/-- The data members of `MaterialShaderParameterLayout`; `m_names`
(`NameIdReflectionMap<Index>`) is the list of its (name, index) entries. -/
structure MaterialShaderParameterLayout where
  m_names : List (String × Handle)
  m_descriptors : List MaterialShaderParameterDescriptor
  m_matrixPaddingIndex : Int
deriving DecidableEq, Repr

/-- Modelled from the spec: `MaterialShaderParameterLayout::GetParameterIndex` (its definition is
not part of the sources at hand): the name lookup, which returns an invalid handle if the name is
absent. -/
def MaterialShaderParameterLayout.GetParameterIndex (layout : MaterialShaderParameterLayout)
    (name : String) : Handle :=
  match layout.m_names.find? (fun entry => entry.1 == name) with
  | some entry => entry.2
  | none => Handle.Null

/-- Modelled from the spec: `MaterialShaderParameterLayout::GetDescriptor` (its definition is not
part of the sources at hand): bounds-checked by handle validity, null (`none`) for an invalid or
out-of-range handle. -/
def MaterialShaderParameterLayout.GetDescriptor (layout : MaterialShaderParameterLayout)
    (parameterIndex : Handle) : Option MaterialShaderParameterDescriptor :=
  if parameterIndex.IsValid then layout.m_descriptors.get? parameterIndex.m_index else none

/-- The byte size a descriptor declares: `m_elementSize * m_elementCount`. -/
def MaterialShaderParameterDescriptor.declaredSize (desc : MaterialShaderParameterDescriptor) :
    Nat :=
  desc.m_structuredBufferBinding.m_elementSize * desc.m_structuredBufferBinding.m_elementCount

/-! ## Values and their bytes -/

/-- The four bytes in memory of a 32-bit pattern (`reinterpret_cast<const uint8_t*>` of a
`uint32_t`, `int32_t` or `float`). -/
def uint32Bytes (v : Nat) : List Nat :=
  [v % 256, v / 256 % 256, v / 65536 % 256, v / 16777216 % 256]

/-- The 32-bit pattern read from the four bytes starting at position `at4` of `bytes`
(`*reinterpret_cast<const uint32_t*>`). -/
def bytesUInt32 (bytes : List Nat) (at4 : Nat) : Nat :=
  bytes.getD at4 0 + 256 * bytes.getD (at4 + 1) 0 + 65536 * bytes.getD (at4 + 2) 0
    + 16777216 * bytes.getD (at4 + 3) 0

/-- The bytes in memory of an array of floats (`reinterpret_cast<const uint8_t*>(&values[0])`). -/
def floatArrayBytes (values : List Nat) : List Nat :=
  values.flatMap uint32Bytes

/-- The `AZStd::array<float, N>` that `N * 4` bytes are reinterpreted as. -/
def bytesFloatArray (N : Nat) (bytes : List Nat) : List Nat :=
  (List.range N).map (fun k => bytesUInt32 bytes (4 * k))

/-- The argument type `T` of `SetVectorParameter<T, N>`: a `Vector2`, `Vector3` or `Vector4`, by
the bit patterns of its float components. A type with fewer than four components leaves the other
fields unused: the code never reads them. -/
structure SimdVector where
  x : Nat
  y : Nat
  z : Nat
  w : Nat
deriving DecidableEq, Repr

/-- The accessor `GetElement` of a vector. -/
def SimdVector.GetElement (v : SimdVector) (index : Nat) : Nat :=
  match index with
  | 0 => v.x
  | 1 => v.y
  | 2 => v.z
  | _ => v.w

/-- The mutator `SetElement` of a vector. -/
def SimdVector.SetElement (v : SimdVector) (index : Nat) (value : Nat) : SimdVector :=
  match index with
  | 0 => { v with x := value }
  | 1 => { v with y := value }
  | 2 => { v with z := value }
  | _ => { v with w := value }

/-- A `Matrix3x3`, by the bit patterns of its nine float elements, row by row. -/
structure Matrix3x3 where
  m_rows : Fin 3 → Fin 3 → Nat

/-- The accessor `GetElement (row, col)` of a matrix. -/
def Matrix3x3.GetElement (m : Matrix3x3) (row col : Fin 3) : Nat := m.m_rows row col

/-- Modelled from the spec: `Matrix3x3::StoreToRowMajorFloat9` (AzCore, not part of the sources at
hand): the nine floats in row-major order. -/
def Matrix3x3.StoreToRowMajorFloat9 (m : Matrix3x3) : List Nat :=
  [m.m_rows 0 0, m.m_rows 0 1, m.m_rows 0 2,
   m.m_rows 1 0, m.m_rows 1 1, m.m_rows 1 2,
   m.m_rows 2 0, m.m_rows 2 1, m.m_rows 2 2]

/-- Modelled from the spec: `Matrix3x3::CreateFromRowMajorFloat9` (AzCore, not part of the sources
at hand): the inverse row-major reconstruction. -/
def Matrix3x3.CreateFromRowMajorFloat9 (values : List Nat) : Matrix3x3 :=
  ⟨fun row col => values.getD (3 * row.val + col.val) 0⟩

/-- A `Color`, by the bit patterns of its four float components. -/
structure Color where
  r : Nat
  g : Nat
  b : Nat
  a : Nat
deriving DecidableEq, Repr

/-- Modelled from the spec: `Color::GetAsVector3` (AzCore): the RGB components. -/
def Color.GetAsVector3 (c : Color) : SimdVector := ⟨c.r, c.g, c.b, 0⟩

/-- Modelled from the spec: the bytes in memory of a `Color`, a 4-float vector. -/
def Color.objectBytes (c : Color) : List Nat :=
  floatArrayBytes [c.r, c.g, c.b, c.a]

/-- A typed value handed to `SetParameter<T>` or to `ShaderResourceGroup::SetConstant<T>`.
`plain` is any `T` that the primary templates copy byte by byte (`int32_t`, `uint32_t`, `float`,
...), given by its `sizeof(T)` bytes in memory. -/
inductive ShaderValue where
  | plain (objectBytes : List Nat)
  | boolean (b : Bool)
  | vector2 (v : SimdVector)
  | vector3 (v : SimdVector)
  | vector4 (v : SimdVector)
  | matrix3x3 (m : Matrix3x3)
  | color (c : Color)

/-- Modelled from the spec: an `Image` (not part of the sources at hand), known here by one
query: `GetImageView()->GetDeviceImageView(deviceIndex)->GetBindlessReadIndex()`, the bindless
descriptor index of the image on a device. -/
structure Image where
  m_bindlessReadIndex : Nat → Nat

/-- The pattern of the `int` `deviceReadIndex` of the image setter: that of -1 for a null image,
else that of `static_cast<int32_t>(... ->GetBindlessReadIndex())`. -/
def deviceReadIndex (image : Option Image) (deviceIndex : Nat) : Nat :=
  match image with
  | some img => img.m_bindlessReadIndex deviceIndex % 4294967296
  | none => 4294967295

/-! ## The binding table -/

/-- A call received by the binding table. -/
inductive SrgCall where
  | SetConstant (inputIndex : Handle) (value : ShaderValue)
  | SetImage (inputIndex : Handle) (image : Option Image)

/-- Modelled from the spec: the GPU binding table `RPI::ShaderResourceGroup` (not part of the
sources at hand), an external collaborator known by its interface: `SetConstant(bindingHandle,
value) -> bool`, `SetImage(bindingHandle, image) -> bool` and the layout introspection
`GetShaderInput(bindingHandle) -> {byteSize}`. The model keeps the calls it received, oldest
first; what `SetConstant` and `SetImage` answer are fields. -/
structure ShaderResourceGroup where
  m_constantByteCount : Handle → Nat
  m_setConstantResult : Handle → ShaderValue → Bool
  m_setImageResult : Handle → Option Image → Bool
  m_calls : List SrgCall

/-- Modelled from the spec: `ShaderResourceGroup::SetConstant`. -/
def ShaderResourceGroup.SetConstant (srg : ShaderResourceGroup) (inputIndex : Handle)
    (value : ShaderValue) : Bool × ShaderResourceGroup :=
  (srg.m_setConstantResult inputIndex value,
    { srg with m_calls := srg.m_calls ++ [SrgCall.SetConstant inputIndex value] })

/-- Modelled from the spec: `ShaderResourceGroup::SetImage`. -/
def ShaderResourceGroup.SetImage (srg : ShaderResourceGroup) (inputIndex : Handle)
    (image : Option Image) : Bool × ShaderResourceGroup :=
  (srg.m_setImageResult inputIndex image,
    { srg with m_calls := srg.m_calls ++ [SrgCall.SetImage inputIndex image] })

/-! ## The parameter store -/

/-- The map `m_structuredBufferData` from device index to packed byte buffer. -/
abbrev DeviceBuffers := List (Nat × List Nat)

/-- The lookup of a device in `m_structuredBufferData` (the loop of
`GetRawBufferParameterData`, the `find` behind `operator[]`). -/
def DeviceBuffers.lookup : DeviceBuffers → Nat → Option (List Nat)
  | [], _ => none
  | (device, buffer) :: rest, deviceIndex =>
    if device = deviceIndex then some buffer else DeviceBuffers.lookup rest deviceIndex

/-- The assignment `m_structuredBufferData[deviceIndex] = buffer`. -/
def DeviceBuffers.assign : DeviceBuffers → Nat → List Nat → DeviceBuffers
  | [], deviceIndex, buffer => [(deviceIndex, buffer)]
  | (device, old) :: rest, deviceIndex, buffer =>
    if device = deviceIndex then (device, buffer) :: rest
    else (device, old) :: DeviceBuffers.assign rest deviceIndex buffer

/-- The data members of `MaterialShaderParameter`. -/
structure MaterialShaderParameter where
  m_layout : MaterialShaderParameterLayout
  m_structuredBufferData : DeviceBuffers
  m_shaderResourceGroup : Option ShaderResourceGroup
  m_materialTypeIndex : Int
  m_materialInstanceIndex : Int

/-- The call `vector::resize(newSize, 0)` on a buffer shorter than `newSize`. -/
def resizeZero (buffer : List Nat) (newSize : Nat) : List Nat :=
  buffer ++ List.replicate (newSize - buffer.length) 0

/-- The copy loop of `SetStructuredBufferData`:
`for (byteIndex = 0; byteIndex < deviceData.size(); ++byteIndex)
buffer[m_offset + byteIndex] = deviceData[byteIndex]`. A store past the end of the buffer, which
the C++ leaves undefined, stores nothing. -/
def copyBytes (buffer : List Nat) (offset : Nat) (deviceData : List Nat) : List Nat :=
  (List.range deviceData.length).foldl
    (fun buf byteIndex => buf.set (offset + byteIndex) (deviceData.getD byteIndex 0)) buffer

/-- The condition asserted by `SetStructuredBufferData`:
`m_elementSize * m_elementCount == deviceData.size_bytes()`. -/
def SetStructuredBufferDataSizeAssert (desc : MaterialShaderParameterDescriptor)
    (deviceData : List Nat) : Bool :=
  desc.declaredSize == deviceData.length

/-- What `SetStructuredBufferData(desc, deviceData, deviceIndex)` makes of the buffer of one
device: grown with zeros to `minBufferSize` when shorter, then overwritten from `m_offset`. -/
def writeDeviceBuffer (desc : MaterialShaderParameterDescriptor) (deviceData : List Nat)
    (buffer : List Nat) : List Nat :=
  let binding := desc.m_structuredBufferBinding
  let minBufferSize := binding.m_offset + binding.m_elementSize * binding.m_elementCount
  let grown := if buffer.length < minBufferSize then resizeZero buffer minBufferSize else buffer
  copyBytes grown binding.m_offset deviceData

/-- The per-device `SetStructuredBufferData(desc, deviceData, deviceIndex)`.
`m_structuredBufferData[deviceIndex]` creates an empty buffer for a device that has none. -/
def MaterialShaderParameter.SetStructuredBufferDataDevice (self : MaterialShaderParameter)
    (desc : MaterialShaderParameterDescriptor) (deviceData : List Nat) (deviceIndex : Nat) :
    MaterialShaderParameter :=
  let buffer := (self.m_structuredBufferData.lookup deviceIndex).getD []
  { self with
    m_structuredBufferData :=
      self.m_structuredBufferData.assign deviceIndex (writeDeviceBuffer desc deviceData buffer) }

/-- The all-device `SetStructuredBufferData(desc, data)`:
`for (deviceIndex = 0; deviceIndex < deviceCount; ++deviceIndex)`. -/
def MaterialShaderParameter.SetStructuredBufferData (deviceCount : Nat)
    (self : MaterialShaderParameter) (desc : MaterialShaderParameterDescriptor)
    (data : List Nat) : MaterialShaderParameter :=
  (List.range deviceCount).foldl
    (fun store deviceIndex => store.SetStructuredBufferDataDevice desc data deviceIndex) self

/-- The primary template `SetMaterialSrgData<T>(desc, value)`: the result and the store after the
call. -/
def MaterialShaderParameter.SetMaterialSrgData (self : MaterialShaderParameter)
    (desc : MaterialShaderParameterDescriptor) (value : ShaderValue) :
    Bool × MaterialShaderParameter :=
  match self.m_shaderResourceGroup with
  | none => (false, self)
  | some srg =>
    match desc.m_srgInputIndex with
    | SrgInputIndex.constantIndex index =>
      if index.IsValid then
        let answer := srg.SetConstant index value
        (answer.1, { self with m_shaderResourceGroup := some answer.2 })
      else (false, self)
    | _ => (false, self)

/-- The specialisation `SetMaterialSrgData<Color>(desc, value)`. -/
def MaterialShaderParameter.SetMaterialSrgDataColor (self : MaterialShaderParameter)
    (desc : MaterialShaderParameterDescriptor) (value : Color) :
    Bool × MaterialShaderParameter :=
  match self.m_shaderResourceGroup with
  | none => (false, self)
  | some srg =>
    match desc.m_srgInputIndex with
    | SrgInputIndex.constantIndex index =>
      if index.IsValid then
        let answer :=
          if srg.m_constantByteCount index == 3 * 4 then
            srg.SetConstant index (ShaderValue.vector3 value.GetAsVector3)
          else srg.SetConstant index (ShaderValue.color value)
        (answer.1, { self with m_shaderResourceGroup := some answer.2 })
      else (false, self)
    | _ => (false, self)

/-- The specialisation `SetMaterialSrgData<Data::Instance<Image>>(desc, value)`. -/
def MaterialShaderParameter.SetMaterialSrgDataImage (self : MaterialShaderParameter)
    (desc : MaterialShaderParameterDescriptor) (value : Option Image) :
    Bool × MaterialShaderParameter :=
  match self.m_shaderResourceGroup with
  | none => (false, self)
  | some srg =>
    match desc.m_srgInputIndex with
    | SrgInputIndex.imageIndex index =>
      if index.IsValid then
        let answer := srg.SetImage index value
        (answer.1, { self with m_shaderResourceGroup := some answer.2 })
      else (false, self)
    | _ => (false, self)

/-- The function `SetMaterialSrgDeviceReadIndex(desc, deviceIndex, readIndex)`; `readIndex` is
the 32-bit pattern of the `int32_t`. -/
def MaterialShaderParameter.SetMaterialSrgDeviceReadIndex (self : MaterialShaderParameter)
    (desc : MaterialShaderParameterDescriptor) (_deviceIndex : Nat) (readIndex : Nat) :
    Bool × MaterialShaderParameter :=
  match self.m_shaderResourceGroup with
  | none => (false, self)
  | some srg =>
    match desc.m_srgInputIndex with
    | SrgInputIndex.constantIndex index =>
      if index.IsValid then
        let answer := srg.SetConstant index (ShaderValue.plain (uint32Bytes readIndex))
        (answer.1, { self with m_shaderResourceGroup := some answer.2 })
      else (false, self)
    | _ => (false, self)

/-- The array `values` that `SetVectorParameter<T, N>` fills from the components of `value`. -/
def vectorValues (N : Nat) (value : SimdVector) : List Nat :=
  let values0 := (List.replicate N 0).set 0 value.x
  let values1 := if N ≥ 2 then values0.set 1 value.y else values0
  let values2 := if N ≥ 3 then values1.set 2 value.z else values1
  if N = 4 then values2.set 3 value.w else values2

/-- The primary template `SetParameter<T>(index, value)` for a `T` it copies byte by byte,
`value` given by its `sizeof(T)` bytes in memory. -/
def MaterialShaderParameter.SetParameterPlain (deviceCount : Nat)
    (self : MaterialShaderParameter) (index : Handle) (objectBytes : List Nat) :
    Bool × MaterialShaderParameter :=
  match self.m_layout.GetDescriptor index with
  | some desc =>
    let data := objectBytes
    let written := MaterialShaderParameter.SetStructuredBufferData deviceCount self desc data
    (true, (written.SetMaterialSrgData desc (ShaderValue.plain objectBytes)).2)
  | none => (false, self)

/-- The primary template `SetParameter<T>(index, value)` at `T = Color`, where the call of
`SetMaterialSrgData` is the one of the `Color` specialisation. -/
def MaterialShaderParameter.SetParameterColor (deviceCount : Nat)
    (self : MaterialShaderParameter) (index : Handle) (value : Color) :
    Bool × MaterialShaderParameter :=
  match self.m_layout.GetDescriptor index with
  | some desc =>
    let data := value.objectBytes
    let written := MaterialShaderParameter.SetStructuredBufferData deviceCount self desc data
    (true, (written.SetMaterialSrgDataColor desc value).2)
  | none => (false, self)

/-- The specialisation `SetParameter<bool>(index, boolean)`. -/
def MaterialShaderParameter.SetParameterBool (deviceCount : Nat)
    (self : MaterialShaderParameter) (index : Handle) (boolean : Bool) :
    Bool × MaterialShaderParameter :=
  match self.m_layout.GetDescriptor index with
  | some desc =>
    let value : Nat := if boolean then 1 else 0
    let data := uint32Bytes value
    let written := MaterialShaderParameter.SetStructuredBufferData deviceCount self desc data
    (true, (written.SetMaterialSrgData desc (ShaderValue.plain (uint32Bytes value))).2)
  | none => (false, self)

/-- The value `value` of type `T` that `SetVectorParameter<T, N>` hands on, as a `ShaderValue`. -/
def vectorShaderValue (N : Nat) (value : SimdVector) : ShaderValue :=
  if N = 2 then ShaderValue.vector2 value
  else if N = 3 then ShaderValue.vector3 value
  else ShaderValue.vector4 value

/-- The template `SetVectorParameter<T, N>(index, value)`. -/
def MaterialShaderParameter.SetVectorParameter (N : Nat) (deviceCount : Nat)
    (self : MaterialShaderParameter) (index : Handle) (value : SimdVector) :
    Bool × MaterialShaderParameter :=
  match self.m_layout.GetDescriptor index with
  | some desc =>
    let values := vectorValues N value
    let data := floatArrayBytes values
    let written := MaterialShaderParameter.SetStructuredBufferData deviceCount self desc data
    (true, (written.SetMaterialSrgData desc (vectorShaderValue N value)).2)
  | none => (false, self)

/-- The specialisation `SetParameter<Matrix3x3>(index, matrix)`. -/
def MaterialShaderParameter.SetParameterMatrix3x3 (deviceCount : Nat)
    (self : MaterialShaderParameter) (index : Handle) (matrix : Matrix3x3) :
    Bool × MaterialShaderParameter :=
  match self.m_layout.GetDescriptor index with
  | some desc =>
    let values := matrix.StoreToRowMajorFloat9
    let data := floatArrayBytes values
    let written := MaterialShaderParameter.SetStructuredBufferData deviceCount self desc data
    (true, (written.SetMaterialSrgData desc (ShaderValue.matrix3x3 matrix)).2)
  | none => (false, self)

/-- The overload set `SetParameter<T>(index, value)` for a value that is not an image: the
overload the compiler selects for each type of value. -/
def MaterialShaderParameter.SetParameter (deviceCount : Nat) (self : MaterialShaderParameter)
    (index : Handle) (value : ShaderValue) : Bool × MaterialShaderParameter :=
  match value with
  | ShaderValue.plain objectBytes =>
    MaterialShaderParameter.SetParameterPlain deviceCount self index objectBytes
  | ShaderValue.boolean b => MaterialShaderParameter.SetParameterBool deviceCount self index b
  | ShaderValue.vector2 v => MaterialShaderParameter.SetVectorParameter 2 deviceCount self index v
  | ShaderValue.vector3 v => MaterialShaderParameter.SetVectorParameter 3 deviceCount self index v
  | ShaderValue.vector4 v => MaterialShaderParameter.SetVectorParameter 4 deviceCount self index v
  | ShaderValue.matrix3x3 m =>
    MaterialShaderParameter.SetParameterMatrix3x3 deviceCount self index m
  | ShaderValue.color c => MaterialShaderParameter.SetParameterColor deviceCount self index c

/-- One turn of the device loop of `SetParameter<Data::Instance<Image>>`. -/
def MaterialShaderParameter.SetParameterImageDevice (self : MaterialShaderParameter)
    (desc : MaterialShaderParameterDescriptor) (image : Option Image) (deviceIndex : Nat) :
    MaterialShaderParameter :=
  let readIndex := deviceReadIndex image deviceIndex
  let data := uint32Bytes readIndex
  let written := self.SetStructuredBufferDataDevice desc data deviceIndex
  let tried := written.SetMaterialSrgDeviceReadIndex desc deviceIndex readIndex
  if !tried.1 then (tried.2.SetMaterialSrgDataImage desc image).2 else tried.2

/-- The specialisation `SetParameter<Data::Instance<Image>>(index, image)`, in the branch of
`USE_BINDLESS_SRG`, which MaterialInstanceHandler.h defines. -/
def MaterialShaderParameter.SetParameterImage (deviceCount : Nat)
    (self : MaterialShaderParameter) (index : Handle) (image : Option Image) :
    Bool × MaterialShaderParameter :=
  match self.m_layout.GetDescriptor index with
  | some desc =>
    (true, (List.range deviceCount).foldl
      (fun store deviceIndex => store.SetParameterImageDevice desc image deviceIndex) self)
  | none => (false, self)

/-- The span `data` that `SetParameter<T>(index, value)` hands to `SetStructuredBufferData`, for
each kind of value (read off the overloads). -/
def ShaderValue.data : ShaderValue → List Nat
  | ShaderValue.plain objectBytes => objectBytes
  | ShaderValue.boolean b => uint32Bytes (if b then 1 else 0)
  | ShaderValue.vector2 v => floatArrayBytes (vectorValues 2 v)
  | ShaderValue.vector3 v => floatArrayBytes (vectorValues 3 v)
  | ShaderValue.vector4 v => floatArrayBytes (vectorValues 4 v)
  | ShaderValue.matrix3x3 m => floatArrayBytes m.StoreToRowMajorFloat9
  | ShaderValue.color c => c.objectBytes

/-- The overload `SetParameter<T>(name, value)`. -/
def MaterialShaderParameter.SetParameterByName (deviceCount : Nat)
    (self : MaterialShaderParameter) (name : String) (value : ShaderValue) :
    Bool × MaterialShaderParameter :=
  let index := self.m_layout.GetParameterIndex name
  if index.IsValid then MaterialShaderParameter.SetParameter deviceCount self index value
  else (false, self)

/-- The overload `SetParameter<T>(name, value)` at `T = Data::Instance<Image>`. -/
def MaterialShaderParameter.SetParameterImageByName (deviceCount : Nat)
    (self : MaterialShaderParameter) (name : String) (image : Option Image) :
    Bool × MaterialShaderParameter :=
  let index := self.m_layout.GetParameterIndex name
  if index.IsValid then MaterialShaderParameter.SetParameterImage deviceCount self index image
  else (false, self)

/-- The function `SetParameterRaw(index, data)`. -/
def MaterialShaderParameter.SetParameterRaw (deviceCount : Nat) (self : MaterialShaderParameter)
    (index : Handle) (data : List Nat) : Bool × MaterialShaderParameter :=
  match self.m_layout.GetDescriptor index with
  | some desc => (true, MaterialShaderParameter.SetStructuredBufferData deviceCount self desc data)
  | none => (false, self)

/-- The function `GetRawBufferParameterData(desc, deviceIndex)`: the span of
`m_elementSize * m_elementCount` bytes at `m_offset` of the buffer of the device, the empty span
when the device has no buffer or `desc` is null. A byte of the span past the end of the buffer,
which the C++ leaves undefined, reads 0. -/
def MaterialShaderParameter.GetRawBufferParameterData (self : MaterialShaderParameter)
    (desc : Option MaterialShaderParameterDescriptor) (deviceIndex : Nat) : List Nat :=
  match desc with
  | some d =>
    let offset := d.m_structuredBufferBinding.m_offset
    let size := d.m_structuredBufferBinding.m_elementSize * d.m_structuredBufferBinding.m_elementCount
    match self.m_structuredBufferData.lookup deviceIndex with
    | some structuredBufferData =>
      (List.range size).map (fun i => structuredBufferData.getD (offset + i) 0)
    | none => []
  | none => []

/-- The primary template `GetShaderParameterData<T>(index, deviceIndex)`, for a `T` of `sizeofT`
bytes; the result is given by its bytes in memory (`T result{}` is all zero). -/
def MaterialShaderParameter.GetShaderParameterData (sizeofT : Nat)
    (self : MaterialShaderParameter) (index : Handle) (deviceIndex : Nat) : List Nat :=
  let result := List.replicate sizeofT 0
  match self.m_layout.GetDescriptor index with
  | some desc =>
    let rawData := self.GetRawBufferParameterData (some desc) deviceIndex
    if sizeofT != rawData.length then result else rawData
  | none => result

/-- The instance `GetShaderParameterData<uint32_t>` (also `int32_t` and `float`, by bit
pattern). -/
def MaterialShaderParameter.GetShaderParameterDataUInt32 (self : MaterialShaderParameter)
    (index : Handle) (deviceIndex : Nat) : Nat :=
  bytesUInt32 (self.GetShaderParameterData 4 index deviceIndex) 0

/-- The specialisation `GetShaderParameterData<bool>`. -/
def MaterialShaderParameter.GetShaderParameterDataBool (self : MaterialShaderParameter)
    (index : Handle) (deviceIndex : Nat) : Bool :=
  let result := self.GetShaderParameterDataUInt32 index deviceIndex
  if result == 0 then false else true

/-- The condition asserted by `GetShaderParameterData<bool>`: `result == 0 || result == 1`. -/
def MaterialShaderParameter.GetShaderParameterDataBoolAssert (self : MaterialShaderParameter)
    (index : Handle) (deviceIndex : Nat) : Bool :=
  let result := self.GetShaderParameterDataUInt32 index deviceIndex
  result == 0 || result == 1

/-- The specialisation `GetShaderParameterData<Matrix3x3>`. -/
def MaterialShaderParameter.GetShaderParameterDataMatrix3x3 (self : MaterialShaderParameter)
    (index : Handle) (deviceIndex : Nat) : Matrix3x3 :=
  let result := bytesFloatArray 9 (self.GetShaderParameterData (4 * 9) index deviceIndex)
  Matrix3x3.CreateFromRowMajorFloat9 result

/-- The template `GetVectorShaderParameterData<T, N>`; `vectorResult` is the value of the
uninitialised `T vectorResult` the loop starts from. -/
def MaterialShaderParameter.GetVectorShaderParameterData (N : Nat)
    (self : MaterialShaderParameter) (index : Handle) (deviceIndex : Nat)
    (vectorResult : SimdVector) : SimdVector :=
  let result := bytesFloatArray N (self.GetShaderParameterData (4 * N) index deviceIndex)
  (List.range N).foldl (fun vec ele => vec.SetElement ele (result.getD ele 0)) vectorResult

/-- The argument that a non-image `SetParameter<T>(index, value)` hands to `SetConstant` on the
binding table `srg` for a descriptor bound to the constant slot `inputIndex`, read off the
overloads: `value` itself, but the `uint32_t` 0 or 1 for a `bool`, and for a `Color` its RGB part
as a `Vector3` when the slot declares exactly 12 bytes. -/
def constantArgument (srg : ShaderResourceGroup) (inputIndex : Handle) :
    ShaderValue → ShaderValue
  | ShaderValue.boolean b => ShaderValue.plain (uint32Bytes (if b then 1 else 0))
  | ShaderValue.color c =>
    if srg.m_constantByteCount inputIndex == 3 * 4 then ShaderValue.vector3 c.GetAsVector3
    else ShaderValue.color c
  | other => other

/-! ## A small layout and store -/

/-- The descriptor of a `float` parameter "a": offset 0, 4 bytes, no binding. -/
def scenarioDescA : MaterialShaderParameterDescriptor :=
  { m_name := "a", m_typeName := "float",
    m_structuredBufferBinding := { m_elementSize := 4, m_elementCount := 1, m_offset := 0 },
    m_srgInputIndex := SrgInputIndex.monostate,
    m_isBindlessReadIndex := false, m_isPseudoParam := false }

/-- The descriptor of a `float3` parameter "b": offset 16, 12 bytes, no binding. -/
def scenarioDescB : MaterialShaderParameterDescriptor :=
  { m_name := "b", m_typeName := "float3",
    m_structuredBufferBinding := { m_elementSize := 12, m_elementCount := 1, m_offset := 16 },
    m_srgInputIndex := SrgInputIndex.monostate,
    m_isBindlessReadIndex := false, m_isPseudoParam := false }

/-- The layout of the two parameters "a" and "b". -/
def scenarioLayout : MaterialShaderParameterLayout :=
  { m_names := [("a", ⟨0⟩), ("b", ⟨1⟩)],
    m_descriptors := [scenarioDescA, scenarioDescB],
    m_matrixPaddingIndex := 0 }

/-- A store over `scenarioLayout` with no buffer yet and no binding table. -/
def scenarioStore : MaterialShaderParameter :=
  { m_layout := scenarioLayout, m_structuredBufferData := [],
    m_shaderResourceGroup := none, m_materialTypeIndex := 0, m_materialInstanceIndex := 0 }

/-- The descriptor of a `float3x3` parameter "m": offset 0, 36 bytes, no binding. -/
def sampleDescMatrix : MaterialShaderParameterDescriptor :=
  { m_name := "m", m_typeName := "float3x3",
    m_structuredBufferBinding := { m_elementSize := 36, m_elementCount := 1, m_offset := 0 },
    m_srgInputIndex := SrgInputIndex.monostate,
    m_isBindlessReadIndex := false, m_isPseudoParam := false }

/-- The descriptor of a `bool` parameter "flag": offset 48, 4 bytes, bound to an image slot. -/
def sampleDescFlag : MaterialShaderParameterDescriptor :=
  { m_name := "flag", m_typeName := "bool",
    m_structuredBufferBinding := { m_elementSize := 4, m_elementCount := 1, m_offset := 48 },
    m_srgInputIndex := SrgInputIndex.imageIndex ⟨0⟩,
    m_isBindlessReadIndex := false, m_isPseudoParam := false }

/-- The descriptor of a `float4` parameter "tint": offset 64, 16 bytes, bound to the constant slot
of index 0. -/
def sampleDescTint : MaterialShaderParameterDescriptor :=
  { m_name := "tint", m_typeName := "float4",
    m_structuredBufferBinding := { m_elementSize := 16, m_elementCount := 1, m_offset := 64 },
    m_srgInputIndex := SrgInputIndex.constantIndex ⟨0⟩,
    m_isBindlessReadIndex := false, m_isPseudoParam := false }

/-- A layout of three parameters "m", "flag" and "tint". -/
def sampleLayout : MaterialShaderParameterLayout :=
  { m_names := [("m", ⟨0⟩), ("flag", ⟨1⟩), ("tint", ⟨2⟩)],
    m_descriptors := [sampleDescMatrix, sampleDescFlag, sampleDescTint],
    m_matrixPaddingIndex := 0 }

/-- A binding table whose constant slots declare 12 bytes (a `float3`), which accepts every
constant and has received no call. -/
def sampleSrg : ShaderResourceGroup :=
  { m_constantByteCount := fun _ => 12, m_setConstantResult := fun _ _ => true,
    m_setImageResult := fun _ _ => true, m_calls := [] }

/-- A store over `sampleLayout` with the binding table `sampleSrg` and no buffer yet. -/
def sampleStore : MaterialShaderParameter :=
  { m_layout := sampleLayout, m_structuredBufferData := [],
    m_shaderResourceGroup := some sampleSrg, m_materialTypeIndex := 0,
    m_materialInstanceIndex := 0 }

/-- A matrix whose element `(row, col)` is the pattern `3 * row + col`. -/
def sampleMatrix : Matrix3x3 := ⟨fun row col => 3 * row.val + col.val⟩

/-- The 32-bit pattern of the float 1.5 (0x3FC00000). -/
def floatBits_1_5 : Nat := 1069547520

/-- The 32-bit pattern of the float 1.0 (0x3F800000). -/
def floatBits_1 : Nat := 1065353216

/-- The 32-bit pattern of the float 2.0 (0x40000000). -/
def floatBits_2 : Nat := 1073741824

/-- The 32-bit pattern of the float 3.0 (0x40400000). -/
def floatBits_3 : Nat := 1077936128

/-! ## Construction, the non-bindless image branch, sequences of writes -/

/-- The 32-bit pattern of an `int` (two's complement). -/
def int32Bits (value : Int) : Nat := (value % 4294967296).toNat

/-- The `int` that a 32-bit pattern stands for (two's complement). -/
def bitsInt32 (bits : Nat) : Int :=
  if bits < 2147483648 then (bits : Int) else (bits : Int) - 4294967296

/-- The call `vector::resize(newSize, 0)`: cut to `newSize`, or filled with zeros up to it. -/
def resizeVector (buffer : List Nat) (newSize : Nat) : List Nat :=
  (buffer ++ List.replicate (newSize - buffer.length) 0).take newSize

/-- The first part of the constructor `MaterialShaderParameter(materialTypeIndex,
materialInstanceIndex, layout, srg)`: the members are initialised (`m_structuredBufferData`
empty) and, when the layout has descriptors, the buffer of every device is resized to the end of
the last descriptor. -/
def MaterialShaderParameter.constructSized (deviceCount : Nat) (materialTypeIndex : Int)
    (materialInstanceIndex : Int) (layout : MaterialShaderParameterLayout)
    (srg : Option ShaderResourceGroup) : MaterialShaderParameter :=
  let initial : MaterialShaderParameter :=
    { m_layout := layout, m_structuredBufferData := [], m_shaderResourceGroup := srg,
      m_materialTypeIndex := materialTypeIndex, m_materialInstanceIndex := materialInstanceIndex }
  match layout.m_descriptors.getLast? with
  | some desc =>
    let last := desc.m_structuredBufferBinding
    (List.range deviceCount).foldl
      (fun store deviceIndex =>
        { store with
          m_structuredBufferData :=
            store.m_structuredBufferData.assign deviceIndex
              (resizeVector ((store.m_structuredBufferData.lookup deviceIndex).getD [])
                (last.m_offset + last.m_elementSize * last.m_elementCount)) })
      initial
  | none => initial

/-- The constructor `MaterialShaderParameter(materialTypeIndex, materialInstanceIndex, layout,
srg)`: after `constructSized`, the two bookkeeping fields are set by name from the members
`m_materialTypeIndex` and `m_materialInstanceIndex`. -/
def MaterialShaderParameter.construct (deviceCount : Nat) (materialTypeIndex : Int)
    (materialInstanceIndex : Int) (layout : MaterialShaderParameterLayout)
    (srg : Option ShaderResourceGroup) : MaterialShaderParameter :=
  let sized := MaterialShaderParameter.constructSized deviceCount materialTypeIndex
    materialInstanceIndex layout srg
  let typed := (MaterialShaderParameter.SetParameterByName deviceCount sized "m_materialType"
    (ShaderValue.plain (uint32Bytes (int32Bits sized.m_materialTypeIndex)))).2
  (MaterialShaderParameter.SetParameterByName deviceCount typed "m_materialInstance"
    (ShaderValue.plain (uint32Bytes (int32Bits typed.m_materialInstanceIndex)))).2

/-- The interface `IMaterialInstanceHandler`, by the one function the image setter calls:
`RegisterMaterialTexture(materialTypeIndex, materialInstanceIndex, image)`, which returns an
`int32_t` (here its 32-bit pattern). -/
structure MaterialInstanceHandler where
  RegisterMaterialTexture : Int → Int → Option Image → Nat

/-- The specialisation `SetParameter<Data::Instance<Image>>(index, image)` in the branch taken
when `USE_BINDLESS_SRG` is not defined; `instanceHandler` is what
`MaterialInstanceHandlerInterface::Get()` returns. The index that `RegisterMaterialTexture`
returns goes to the local `imageIndex`, which nothing reads; `imageReadIndex` is still -1 when it
is handed to `SetMaterialSrgData`. -/
def MaterialShaderParameter.SetParameterImageNonBindless
    (instanceHandler : Option MaterialInstanceHandler) (self : MaterialShaderParameter)
    (index : Handle) (image : Option Image) : Bool × MaterialShaderParameter :=
  match self.m_layout.GetDescriptor index with
  | some desc =>
    let direct := self.SetMaterialSrgDataImage desc image
    if !direct.1 then
      let imageReadIndex : Nat := 4294967295
      let _imageIndex : Option Nat :=
        match instanceHandler with
        | some handler =>
          some (handler.RegisterMaterialTexture self.m_materialTypeIndex
            self.m_materialInstanceIndex image)
        | none => none
      direct.2.SetMaterialSrgData desc (ShaderValue.plain (uint32Bytes imageReadIndex))
    else (true, direct.2)
  | none => (false, self)

/-- A write to the store through its public setters. -/
inductive WriteCall where
  | setParameter (index : Handle) (value : ShaderValue)
  | setParameterByName (name : String) (value : ShaderValue)
  | setParameterRaw (index : Handle) (data : List Nat)
  | setParameterImage (index : Handle) (image : Option Image)
  | setParameterImageByName (name : String) (image : Option Image)

/-- The store after one write. -/
def MaterialShaderParameter.applyWrite (deviceCount : Nat) (self : MaterialShaderParameter) :
    WriteCall → MaterialShaderParameter
  | WriteCall.setParameter index value =>
    (MaterialShaderParameter.SetParameter deviceCount self index value).2
  | WriteCall.setParameterByName name value =>
    (MaterialShaderParameter.SetParameterByName deviceCount self name value).2
  | WriteCall.setParameterRaw index data =>
    (MaterialShaderParameter.SetParameterRaw deviceCount self index data).2
  | WriteCall.setParameterImage index image =>
    (MaterialShaderParameter.SetParameterImage deviceCount self index image).2
  | WriteCall.setParameterImageByName name image =>
    (MaterialShaderParameter.SetParameterImageByName deviceCount self name image).2

/-- The store after a sequence of writes, first to last. -/
def MaterialShaderParameter.applyWrites (deviceCount : Nat) (self : MaterialShaderParameter)
    (calls : List WriteCall) : MaterialShaderParameter :=
  calls.foldl (fun store call => store.applyWrite deviceCount call) self

/-- The calls that one turn of the device loop of the image setter makes on a binding table, for
a descriptor and a device: `SetConstant` with the read index of the device on a valid constant
handle, `SetImage` with the image on a valid image handle, none otherwise. -/
def imageSrgCalls (desc : MaterialShaderParameterDescriptor) (image : Option Image)
    (deviceIndex : Nat) : List SrgCall :=
  match desc.m_srgInputIndex with
  | SrgInputIndex.constantIndex inputIndex =>
    if inputIndex.IsValid then
      [SrgCall.SetConstant inputIndex
        (ShaderValue.plain (uint32Bytes (deviceReadIndex image deviceIndex)))]
    else []
  | SrgInputIndex.imageIndex inputIndex =>
    if inputIndex.IsValid then [SrgCall.SetImage inputIndex image] else []
  | SrgInputIndex.monostate => []

/-- An image whose bindless read index on device `d` is `d + 5`. -/
def sampleImage : Image := ⟨fun deviceIndex => deviceIndex + 5⟩

/-- An instance handler whose `RegisterMaterialTexture` always returns the index 7. -/
def sampleInstanceHandler : MaterialInstanceHandler := ⟨fun _ _ _ => 7⟩

/-- A store over `scenarioLayout` whose device 0 has a buffer of 32 bytes, the byte at position
`i` being `i`. -/
def filledStore : MaterialShaderParameter :=
  { scenarioStore with m_structuredBufferData := [(0, List.range 32)] }

/-- The descriptor of the bookkeeping field "m_materialType": offset 0, 4 bytes. -/
def bookkeepingDescType : MaterialShaderParameterDescriptor :=
  { m_name := "m_materialType", m_typeName := "int",
    m_structuredBufferBinding := { m_elementSize := 4, m_elementCount := 1, m_offset := 0 },
    m_srgInputIndex := SrgInputIndex.monostate,
    m_isBindlessReadIndex := false, m_isPseudoParam := true }

/-- The descriptor of the bookkeeping field "m_materialInstance": offset 4, 4 bytes. -/
def bookkeepingDescInstance : MaterialShaderParameterDescriptor :=
  { m_name := "m_materialInstance", m_typeName := "int",
    m_structuredBufferBinding := { m_elementSize := 4, m_elementCount := 1, m_offset := 4 },
    m_srgInputIndex := SrgInputIndex.monostate,
    m_isBindlessReadIndex := false, m_isPseudoParam := true }

/-- The descriptor of a `float4` parameter "baseColor": offset 16, 16 bytes. -/
def bookkeepingDescColor : MaterialShaderParameterDescriptor :=
  { m_name := "baseColor", m_typeName := "float4",
    m_structuredBufferBinding := { m_elementSize := 16, m_elementCount := 1, m_offset := 16 },
    m_srgInputIndex := SrgInputIndex.monostate,
    m_isBindlessReadIndex := false, m_isPseudoParam := false }

/-- A layout in declaration order: the two bookkeeping fields, then "baseColor". -/
def orderedLayout : MaterialShaderParameterLayout :=
  { m_names := [("m_materialType", ⟨0⟩), ("m_materialInstance", ⟨1⟩), ("baseColor", ⟨2⟩)],
    m_descriptors := [bookkeepingDescType, bookkeepingDescInstance, bookkeepingDescColor],
    m_matrixPaddingIndex := 0 }

/-! ## Write bounds, the parameter count, the index allocator, assertions of the constructor -/

/-- The growth step of the per-device `SetStructuredBufferData`: the buffer resized with zeros to
`minBufferSize` when it is shorter. -/
def growDeviceBuffer (desc : MaterialShaderParameterDescriptor) (buffer : List Nat) : List Nat :=
  let binding := desc.m_structuredBufferBinding
  let minBufferSize := binding.m_offset + binding.m_elementSize * binding.m_elementCount
  if buffer.length < minBufferSize then resizeZero buffer minBufferSize else buffer

/-- The condition of the growth branch of the per-device `SetStructuredBufferData`:
`m_structuredBufferData[deviceIndex].size() < minBufferSize`. -/
def growthBranchTaken (desc : MaterialShaderParameterDescriptor) (buffer : List Nat) : Bool :=
  decide (buffer.length <
    desc.m_structuredBufferBinding.m_offset +
      desc.m_structuredBufferBinding.m_elementSize * desc.m_structuredBufferBinding.m_elementCount)

/-- The indices `binding.m_offset + byteIndex` that the copy loop of the per-device
`SetStructuredBufferData` stores to, in the order of the loop. -/
def storeIndices (desc : MaterialShaderParameterDescriptor) (deviceData : List Nat) : List Nat :=
  (List.range deviceData.length).map
    (fun byteIndex => desc.m_structuredBufferBinding.m_offset + byteIndex)

/-- The function `MaterialShaderParameterLayout::GetNonPseudoParameterCount`. -/
def MaterialShaderParameterLayout.GetNonPseudoParameterCount
    (layout : MaterialShaderParameterLayout) : Nat :=
  layout.m_descriptors.foldl
    (fun count desc => if !desc.m_isPseudoParam then count + 1 else count) 0

/-- Modelled from the spec: the index allocator `PersistentIndexAllocator<int32_t>`
(PersistentIndexAllocator.h is not part of the sources at hand): the handles released and not yet
reused, the last released first, and the watermark, the next handle never allocated. -/
structure PersistentIndexAllocator where
  m_free : List Nat
  m_max : Nat
deriving DecidableEq, Repr

/-- Modelled from the spec: a fresh allocator, with no handle released and the watermark 0. -/
def PersistentIndexAllocator.fresh : PersistentIndexAllocator := ⟨[], 0⟩

/-- Modelled from the spec: `Allocate() -> handle` returns a previously released handle if the
free list is non-empty, otherwise the handle at the watermark and advances the watermark. -/
def PersistentIndexAllocator.Allocate (self : PersistentIndexAllocator) :
    Nat × PersistentIndexAllocator :=
  match self.m_free with
  | handle :: rest => (handle, { self with m_free := rest })
  | [] => (self.m_max, { self with m_max := self.m_max + 1 })

/-- Modelled from the spec: `Release(handle)` returns the handle to the free list. -/
def PersistentIndexAllocator.Release (self : PersistentIndexAllocator) (handle : Nat) :
    PersistentIndexAllocator :=
  { self with m_free := handle :: self.m_free }

/-- Modelled from the spec: `IsValid(handle)` checks the range and that the handle is not in the
free list. -/
def PersistentIndexAllocator.IsValid (self : PersistentIndexAllocator) (handle : Nat) : Bool :=
  decide (handle < self.m_max) && !self.m_free.contains handle

/-- The handles of `count` calls of `Allocate` in a row, first to last, and the allocator after
them. -/
def PersistentIndexAllocator.allocateMany :
    Nat → PersistentIndexAllocator → List Nat × PersistentIndexAllocator
  | 0, self => ([], self)
  | count + 1, self =>
    let first := self.Allocate
    let others := PersistentIndexAllocator.allocateMany count first.2
    (first.1 :: others.1, others.2)

/-- The allocator after the calls of `Release` on the handles of a list, first to last. -/
def PersistentIndexAllocator.releaseMany (self : PersistentIndexAllocator)
    (handles : List Nat) : PersistentIndexAllocator :=
  handles.foldl (fun allocator handle => allocator.Release handle) self

/-- Whether the size assertion of the per-device `SetStructuredBufferData` is raised in some turn
of the device loop of `SetStructuredBufferData(desc, data)`. -/
def SetStructuredBufferDataAsserts (deviceCount : Nat)
    (desc : MaterialShaderParameterDescriptor) (data : List Nat) : Bool :=
  (List.range deviceCount).any (fun _ => !SetStructuredBufferDataSizeAssert desc data)

/-- Whether `SetParameter<T>(name, value)` raises an assertion of the store: the one on
`index.IsValid()` when the name has no valid index, else the size assertion of the write when the
index has a descriptor (an index without descriptor returns false with no assertion). -/
def MaterialShaderParameter.SetParameterByNameAsserts (deviceCount : Nat)
    (self : MaterialShaderParameter) (name : String) (value : ShaderValue) : Bool :=
  let index := self.m_layout.GetParameterIndex name
  if index.IsValid then
    match self.m_layout.GetDescriptor index with
    | some desc => SetStructuredBufferDataAsserts deviceCount desc value.data
    | none => false
  else true

/-- Whether the constructor raises `AZ_Assert(false, "MaterialShaderParameter needs a layout")`:
the `else` branch of `!m_layout->GetDescriptors().empty()`. -/
def constructNeedsLayoutAssert (layout : MaterialShaderParameterLayout) : Bool :=
  layout.m_descriptors.isEmpty

/-- Whether the constructor raises an assertion of the store: "needs a layout", or one of the two
`SetParameter` by name. -/
def MaterialShaderParameter.constructAsserts (deviceCount : Nat) (materialTypeIndex : Int)
    (materialInstanceIndex : Int) (layout : MaterialShaderParameterLayout)
    (srg : Option ShaderResourceGroup) : Bool :=
  let sized := MaterialShaderParameter.constructSized deviceCount materialTypeIndex
    materialInstanceIndex layout srg
  let typed := (MaterialShaderParameter.SetParameterByName deviceCount sized "m_materialType"
    (ShaderValue.plain (uint32Bytes (int32Bits sized.m_materialTypeIndex)))).2
  constructNeedsLayoutAssert layout ||
    MaterialShaderParameter.SetParameterByNameAsserts deviceCount sized "m_materialType"
      (ShaderValue.plain (uint32Bytes (int32Bits sized.m_materialTypeIndex))) ||
    MaterialShaderParameter.SetParameterByNameAsserts deviceCount typed "m_materialInstance"
      (ShaderValue.plain (uint32Bytes (int32Bits typed.m_materialInstanceIndex)))

/-- A store over `scenarioLayout` whose device 0 holds the 32-bit value 2 in the four bytes of
parameter "a". -/
def strayBoolStore : MaterialShaderParameter :=
  { scenarioStore with m_structuredBufferData := [(0, [2, 0, 0, 0])] }

/-- The two writes that end the constructor: `SetParameter("m_materialType", m_materialTypeIndex)`
and `SetParameter("m_materialInstance", m_materialInstanceIndex)`. -/
def bookkeepingWrites (materialTypeIndex materialInstanceIndex : Int) : List WriteCall :=
  [WriteCall.setParameterByName "m_materialType"
      (ShaderValue.plain (uint32Bytes (int32Bits materialTypeIndex))),
    WriteCall.setParameterByName "m_materialInstance"
      (ShaderValue.plain (uint32Bytes (int32Bits materialInstanceIndex)))]

/-- A layout without names and descriptors. -/
def emptyLayout : MaterialShaderParameterLayout :=
  { m_names := [], m_descriptors := [], m_matrixPaddingIndex := 0 }

/-! ## Lemmas on bytes and buffers -/

theorem bytesUInt32_uint32Bytes (v : Nat) (hv : v < 4294967296) :
    bytesUInt32 (uint32Bytes v) 0 = v := by
  simp only [bytesUInt32, uint32Bytes, List.getD_cons_zero, List.getD_cons_succ]
  omega

theorem uint32Bytes_length (v : Nat) : (uint32Bytes v).length = 4 := rfl

theorem floatArrayBytes_length (values : List Nat) :
    (floatArrayBytes values).length = 4 * values.length := by
  induction values with
  | nil => rfl
  | cons v rest ih =>
    simp only [floatArrayBytes, List.flatMap_cons, List.length_append, uint32Bytes_length,
      List.length_cons] at ih ⊢
    omega

theorem copyBytes_prefix_length (buffer : List Nat) (offset : Nat) (deviceData : List Nat)
    (n : Nat) :
    ((List.range n).foldl
      (fun buf byteIndex => buf.set (offset + byteIndex) (deviceData.getD byteIndex 0))
      buffer).length = buffer.length := by
  induction n with
  | zero => rfl
  | succ n ih =>
    rw [List.range_succ, List.foldl_append]
    simp only [List.foldl_cons, List.foldl_nil, List.length_set]
    exact ih

theorem copyBytes_prefix_getElem? (buffer : List Nat) (offset : Nat) (deviceData : List Nat)
    (n i : Nat) :
    ((List.range n).foldl
      (fun buf byteIndex => buf.set (offset + byteIndex) (deviceData.getD byteIndex 0))
      buffer)[i]? =
      if offset ≤ i ∧ i < offset + n ∧ i < buffer.length then some (deviceData.getD (i - offset) 0)
      else buffer[i]? := by
  induction n with
  | zero =>
    have h : ¬ (offset ≤ i ∧ i < offset + 0 ∧ i < buffer.length) := by omega
    rw [if_neg h]
    rfl
  | succ n ih =>
    rw [List.range_succ, List.foldl_append]
    simp only [List.foldl_cons, List.foldl_nil, List.getElem?_set, copyBytes_prefix_length, ih]
    by_cases h1 : offset + n = i
    · subst h1
      by_cases h2 : offset + n < buffer.length
      · simp [h2]
      · have h3 : buffer[offset + n]? = none := List.getElem?_eq_none (by omega)
        simp [h2, h3]
    · by_cases h2 : offset ≤ i ∧ i < offset + n ∧ i < buffer.length
      · have h3 : offset ≤ i ∧ i < offset + (n + 1) ∧ i < buffer.length := by omega
        simp [h1, h2, h3]
      · have h3 : ¬ (offset ≤ i ∧ i < offset + (n + 1) ∧ i < buffer.length) := by omega
        simp [h1, h2, h3]

theorem copyBytes_length (buffer : List Nat) (offset : Nat) (deviceData : List Nat) :
    (copyBytes buffer offset deviceData).length = buffer.length :=
  copyBytes_prefix_length buffer offset deviceData deviceData.length

theorem copyBytes_getElem? (buffer : List Nat) (offset : Nat) (deviceData : List Nat) (i : Nat) :
    (copyBytes buffer offset deviceData)[i]? =
      if offset ≤ i ∧ i < offset + deviceData.length ∧ i < buffer.length then
        some (deviceData.getD (i - offset) 0)
      else buffer[i]? :=
  copyBytes_prefix_getElem? buffer offset deviceData deviceData.length i

theorem resizeZero_length (buffer : List Nat) (newSize : Nat) :
    (resizeZero buffer newSize).length = max buffer.length newSize := by
  simp only [resizeZero, List.length_append, List.length_replicate]
  omega

theorem resizeZero_getElem? (buffer : List Nat) (newSize i : Nat) :
    (resizeZero buffer newSize)[i]? =
      if i < buffer.length then buffer[i]? else if i < newSize then some 0 else none := by
  simp only [resizeZero, List.getElem?_append, List.getElem?_replicate]
  by_cases h1 : i < buffer.length
  · simp [h1]
  · by_cases h2 : i < newSize
    · have h3 : i - buffer.length < newSize - buffer.length := by omega
      simp [h1, h2, h3]
    · have h3 : ¬ (i - buffer.length < newSize - buffer.length) := by omega
      simp [h1, h2, h3]

/-- The length of a device buffer after a write: the larger of its length and the end of the
descriptor. -/
theorem writeDeviceBuffer_length (desc : MaterialShaderParameterDescriptor)
    (deviceData buffer : List Nat) :
    (writeDeviceBuffer desc deviceData buffer).length =
      max buffer.length (desc.m_structuredBufferBinding.m_offset + desc.declaredSize) := by
  simp only [writeDeviceBuffer, MaterialShaderParameterDescriptor.declaredSize, copyBytes_length]
  split
  · rw [resizeZero_length]
  · omega

/-- A byte of the written range, when the data fits the declared size. -/
theorem writeDeviceBuffer_getD_written (desc : MaterialShaderParameterDescriptor)
    (deviceData buffer : List Nat) (k : Nat) (hsize : deviceData.length ≤ desc.declaredSize)
    (hk : k < deviceData.length) :
    (writeDeviceBuffer desc deviceData buffer).getD (desc.m_structuredBufferBinding.m_offset + k) 0
      = deviceData.getD k 0 := by
  rw [List.getD_eq_getElem?_getD]
  simp only [writeDeviceBuffer, copyBytes_getElem?]
  simp only [MaterialShaderParameterDescriptor.declaredSize] at hsize
  split
  · rename_i hlt
    have h : desc.m_structuredBufferBinding.m_offset + k < (resizeZero buffer
        (desc.m_structuredBufferBinding.m_offset + desc.m_structuredBufferBinding.m_elementSize *
          desc.m_structuredBufferBinding.m_elementCount)).length := by
      rw [resizeZero_length]; omega
    simp [h, hk]
  · rename_i hge
    have h : desc.m_structuredBufferBinding.m_offset + k < buffer.length := by omega
    simp [h, hk]

/-- A byte outside the range of the data keeps its value; a byte the growth adds is zero. -/
theorem writeDeviceBuffer_getElem?_outside (desc : MaterialShaderParameterDescriptor)
    (deviceData buffer : List Nat) (i : Nat)
    (hi : i < desc.m_structuredBufferBinding.m_offset ∨
      desc.m_structuredBufferBinding.m_offset + deviceData.length ≤ i) :
    (writeDeviceBuffer desc deviceData buffer)[i]? =
      if i < buffer.length then buffer[i]?
      else if i < desc.m_structuredBufferBinding.m_offset + desc.declaredSize then some 0
      else none := by
  simp only [writeDeviceBuffer, copyBytes_getElem?,
    MaterialShaderParameterDescriptor.declaredSize]
  have h : ¬ (desc.m_structuredBufferBinding.m_offset ≤ i ∧
      i < desc.m_structuredBufferBinding.m_offset + deviceData.length ∧
      i < (if buffer.length < desc.m_structuredBufferBinding.m_offset +
          desc.m_structuredBufferBinding.m_elementSize *
            desc.m_structuredBufferBinding.m_elementCount
        then resizeZero buffer (desc.m_structuredBufferBinding.m_offset +
          desc.m_structuredBufferBinding.m_elementSize *
            desc.m_structuredBufferBinding.m_elementCount)
        else buffer).length) := by omega
  rw [if_neg h]
  split
  · rw [resizeZero_getElem?]
  · rename_i hge
    by_cases h1 : i < buffer.length
    · simp [h1]
    · have h2 : ¬ (i < desc.m_structuredBufferBinding.m_offset +
          desc.m_structuredBufferBinding.m_elementSize *
            desc.m_structuredBufferBinding.m_elementCount) := by omega
      have h3 : buffer[i]? = none := List.getElem?_eq_none (by omega)
      simp [h1, h2, h3]

/-! ## Lemmas on the device map and on the write to all devices -/

theorem DeviceBuffers.lookup_assign_same (buffers : DeviceBuffers) (deviceIndex : Nat)
    (buffer : List Nat) :
    DeviceBuffers.lookup (DeviceBuffers.assign buffers deviceIndex buffer) deviceIndex
      = some buffer := by
  induction buffers with
  | nil => simp [DeviceBuffers.assign, DeviceBuffers.lookup]
  | cons entry rest ih =>
    obtain ⟨device, old⟩ := entry
    by_cases h : device = deviceIndex
    · simp [DeviceBuffers.assign, DeviceBuffers.lookup, h]
    · simp [DeviceBuffers.assign, DeviceBuffers.lookup, h, ih]

theorem DeviceBuffers.lookup_assign_other (buffers : DeviceBuffers) (deviceIndex other : Nat)
    (buffer : List Nat) (hne : other ≠ deviceIndex) :
    DeviceBuffers.lookup (DeviceBuffers.assign buffers deviceIndex buffer) other
      = DeviceBuffers.lookup buffers other := by
  induction buffers with
  | nil =>
    have h : ¬ deviceIndex = other := fun e => hne e.symm
    simp [DeviceBuffers.assign, DeviceBuffers.lookup, h]
  | cons entry rest ih =>
    obtain ⟨device, old⟩ := entry
    by_cases h : device = deviceIndex
    · have h2 : ¬ deviceIndex = other := fun e => hne e.symm
      subst h
      simp [DeviceBuffers.assign, DeviceBuffers.lookup, h2]
    · by_cases h3 : device = other
      · subst h3
        simp [DeviceBuffers.assign, DeviceBuffers.lookup, h]
      · simp [DeviceBuffers.assign, DeviceBuffers.lookup, h, h3, ih]

theorem SetStructuredBufferDataDevice_buffers (self : MaterialShaderParameter)
    (desc : MaterialShaderParameterDescriptor) (deviceData : List Nat) (deviceIndex : Nat) :
    (self.SetStructuredBufferDataDevice desc deviceData deviceIndex).m_structuredBufferData =
      self.m_structuredBufferData.assign deviceIndex
        (writeDeviceBuffer desc deviceData
          ((self.m_structuredBufferData.lookup deviceIndex).getD [])) := rfl

/-- The buffers after the write to the devices below `deviceCount`: each of those devices holds
the written form of the buffer it had (of the empty buffer if it had none), the others are as
they were. -/
theorem SetStructuredBufferData_lookup (deviceCount : Nat) (self : MaterialShaderParameter)
    (desc : MaterialShaderParameterDescriptor) (data : List Nat) (d : Nat) :
    (MaterialShaderParameter.SetStructuredBufferData deviceCount self desc
        data).m_structuredBufferData.lookup d =
      if d < deviceCount then
        some (writeDeviceBuffer desc data ((self.m_structuredBufferData.lookup d).getD []))
      else self.m_structuredBufferData.lookup d := by
  unfold MaterialShaderParameter.SetStructuredBufferData
  induction deviceCount with
  | zero => simp
  | succ n ih =>
    rw [List.range_succ, List.foldl_append, List.foldl_cons, List.foldl_nil,
      SetStructuredBufferDataDevice_buffers]
    by_cases h1 : d = n
    · subst h1
      rw [DeviceBuffers.lookup_assign_same, ih]
      simp
    · rw [DeviceBuffers.lookup_assign_other _ _ _ _ h1, ih]
      by_cases h2 : d < n
      · have h3 : d < n + 1 := by omega
        simp [h2, h3]
      · have h3 : ¬ d < n + 1 := by omega
        simp [h2, h3]

/-- The write to the buffers leaves the layout, the binding table and the indices alone. -/
theorem SetStructuredBufferData_frame (deviceCount : Nat) (self : MaterialShaderParameter)
    (desc : MaterialShaderParameterDescriptor) (data : List Nat) :
    let after := MaterialShaderParameter.SetStructuredBufferData deviceCount self desc data
    after.m_layout = self.m_layout ∧ after.m_shaderResourceGroup = self.m_shaderResourceGroup ∧
      after.m_materialTypeIndex = self.m_materialTypeIndex ∧
      after.m_materialInstanceIndex = self.m_materialInstanceIndex := by
  unfold MaterialShaderParameter.SetStructuredBufferData
  induction deviceCount with
  | zero => simp
  | succ n ih =>
    rw [List.range_succ, List.foldl_append, List.foldl_cons, List.foldl_nil]
    exact ih

/-- The mirror write leaves the buffers and the layout alone. -/
theorem SetMaterialSrgData_frame (self : MaterialShaderParameter)
    (desc : MaterialShaderParameterDescriptor) (value : ShaderValue) :
    (self.SetMaterialSrgData desc value).2.m_structuredBufferData = self.m_structuredBufferData ∧
      (self.SetMaterialSrgData desc value).2.m_layout = self.m_layout := by
  unfold MaterialShaderParameter.SetMaterialSrgData
  split
  · exact ⟨rfl, rfl⟩
  · split
    · split <;> exact ⟨rfl, rfl⟩
    · exact ⟨rfl, rfl⟩

/-- The mirror write of a `Color` leaves the buffers and the layout alone. -/
theorem SetMaterialSrgDataColor_frame (self : MaterialShaderParameter)
    (desc : MaterialShaderParameterDescriptor) (value : Color) :
    (self.SetMaterialSrgDataColor desc value).2.m_structuredBufferData
        = self.m_structuredBufferData ∧
      (self.SetMaterialSrgDataColor desc value).2.m_layout = self.m_layout := by
  unfold MaterialShaderParameter.SetMaterialSrgDataColor
  split
  · exact ⟨rfl, rfl⟩
  · split
    · split <;> exact ⟨rfl, rfl⟩
    · exact ⟨rfl, rfl⟩

/-- The result of `SetParameter` tells whether the descriptor exists. -/
theorem SetParameter_fst (deviceCount : Nat) (self : MaterialShaderParameter) (index : Handle)
    (value : ShaderValue) :
    (MaterialShaderParameter.SetParameter deviceCount self index value).1
      = (self.m_layout.GetDescriptor index).isSome := by
  cases value <;>
    simp only [MaterialShaderParameter.SetParameter, MaterialShaderParameter.SetParameterPlain,
      MaterialShaderParameter.SetParameterBool, MaterialShaderParameter.SetVectorParameter,
      MaterialShaderParameter.SetParameterMatrix3x3, MaterialShaderParameter.SetParameterColor] <;>
    cases self.m_layout.GetDescriptor index <;> rfl

/-- Without a descriptor `SetParameter` returns the store it was given. -/
theorem SetParameter_none (deviceCount : Nat) (self : MaterialShaderParameter) (index : Handle)
    (value : ShaderValue) (hnone : self.m_layout.GetDescriptor index = none) :
    MaterialShaderParameter.SetParameter deviceCount self index value = (false, self) := by
  cases value <;>
    simp only [MaterialShaderParameter.SetParameter, MaterialShaderParameter.SetParameterPlain,
      MaterialShaderParameter.SetParameterBool, MaterialShaderParameter.SetVectorParameter,
      MaterialShaderParameter.SetParameterMatrix3x3, MaterialShaderParameter.SetParameterColor,
      hnone]

/-- The buffers after `SetParameter` on a known descriptor are those after
`SetStructuredBufferData` with the bytes of the value; the layout is the same. -/
theorem SetParameter_buffers (deviceCount : Nat) (self : MaterialShaderParameter) (index : Handle)
    (value : ShaderValue) (desc : MaterialShaderParameterDescriptor)
    (hdesc : self.m_layout.GetDescriptor index = some desc) :
    (MaterialShaderParameter.SetParameter deviceCount self index value).2.m_structuredBufferData
        = (MaterialShaderParameter.SetStructuredBufferData deviceCount self desc
            value.data).m_structuredBufferData ∧
      (MaterialShaderParameter.SetParameter deviceCount self index value).2.m_layout
        = self.m_layout := by
  cases value <;>
    simp only [MaterialShaderParameter.SetParameter, MaterialShaderParameter.SetParameterPlain,
      MaterialShaderParameter.SetParameterBool, MaterialShaderParameter.SetVectorParameter,
      MaterialShaderParameter.SetParameterMatrix3x3, MaterialShaderParameter.SetParameterColor,
      hdesc, ShaderValue.data, SetMaterialSrgData_frame, SetMaterialSrgDataColor_frame,
      SetStructuredBufferData_frame, and_self]

theorem map_getD_range (data : List Nat) :
    (List.range data.length).map (fun i => data.getD i 0) = data := by
  apply List.ext_getElem?
  intro n
  rw [List.getElem?_map]
  by_cases h : n < data.length
  · rw [List.getElem?_range h]
    simp [List.getD_eq_getElem?_getD, List.getElem?_eq_getElem h]
  · have h1 : (List.range data.length)[n]? = none :=
      List.getElem?_eq_none (by simp only [List.length_range]; omega)
    have h2 : data[n]? = none := List.getElem?_eq_none (by omega)
    rw [h1, h2]
    rfl

/-- After the write to all devices, the raw view of the descriptor on a device below the device
count is the data written, when the data has the declared size. -/
theorem GetRawBufferParameterData_SetStructuredBufferData (deviceCount : Nat)
    (self : MaterialShaderParameter) (desc : MaterialShaderParameterDescriptor)
    (data : List Nat) (d : Nat) (hsize : desc.declaredSize = data.length)
    (hd : d < deviceCount) (after : MaterialShaderParameter)
    (hafter : after.m_structuredBufferData =
      (MaterialShaderParameter.SetStructuredBufferData deviceCount self desc
        data).m_structuredBufferData) :
    after.GetRawBufferParameterData (some desc) d = data := by
  simp only [MaterialShaderParameter.GetRawBufferParameterData, hafter,
    SetStructuredBufferData_lookup, hd, if_true]
  have hsz : desc.m_structuredBufferBinding.m_elementSize *
      desc.m_structuredBufferBinding.m_elementCount = data.length := hsize
  rw [hsz]
  conv_rhs => rw [← map_getD_range data]
  apply List.map_congr_left
  intro k hk
  have hk2 : k < data.length := List.mem_range.mp hk
  exact writeDeviceBuffer_getD_written desc data _ k (by omega) hk2

/-- After `SetParameter` on a known descriptor whose declared size is that of the bytes of the
value, the typed read of as many bytes on a device below the device count gives these bytes. -/
theorem GetShaderParameterData_SetParameter (deviceCount : Nat) (self : MaterialShaderParameter)
    (index : Handle) (value : ShaderValue) (desc : MaterialShaderParameterDescriptor) (d : Nat)
    (hdesc : self.m_layout.GetDescriptor index = some desc)
    (hsize : desc.declaredSize = value.data.length) (hd : d < deviceCount) :
    (MaterialShaderParameter.SetParameter deviceCount self index value).2.GetShaderParameterData
      value.data.length index d = value.data := by
  obtain ⟨hbuf, hlay⟩ := SetParameter_buffers deviceCount self index value desc hdesc
  have hraw := GetRawBufferParameterData_SetStructuredBufferData deviceCount self desc value.data
    d hsize hd _ hbuf
  simp only [MaterialShaderParameter.GetShaderParameterData, hlay, hdesc, hraw]
  simp

/-! ## Lemmas on arrays of floats -/

theorem floatArrayBytes_getD (values : List Nat) (k j : Nat) (hk : k < values.length)
    (hj : j < 4) :
    (floatArrayBytes values).getD (4 * k + j) 0 = (uint32Bytes (values.getD k 0)).getD j 0 := by
  induction values generalizing k with
  | nil => simp at hk
  | cons a rest ih =>
    simp only [floatArrayBytes, List.flatMap_cons, List.getD_eq_getElem?_getD,
      List.getElem?_append, uint32Bytes_length]
    cases k with
    | zero =>
      simp [hj]
    | succ k =>
      have h : ¬ (4 * (k + 1) + j < 4) := by omega
      have h2 : 4 * (k + 1) + j - 4 = 4 * k + j := by omega
      have hk2 : k < rest.length := by simpa using hk
      have := ih k hk2
      simp only [floatArrayBytes, List.getD_eq_getElem?_getD] at this
      simp [h, h2, this]

theorem bytesUInt32_floatArrayBytes (values : List Nat) (k : Nat) (hk : k < values.length)
    (hv : values.getD k 0 < 4294967296) :
    bytesUInt32 (floatArrayBytes values) (4 * k) = values.getD k 0 := by
  have h0 := floatArrayBytes_getD values k 0 hk (by omega)
  have h1 := floatArrayBytes_getD values k 1 hk (by omega)
  have h2 := floatArrayBytes_getD values k 2 hk (by omega)
  have h3 := floatArrayBytes_getD values k 3 hk (by omega)
  simp only [Nat.add_zero] at h0
  unfold bytesUInt32
  rw [h0, h1, h2, h3]
  exact bytesUInt32_uint32Bytes _ hv

theorem vectorValues_two (v : SimdVector) : vectorValues 2 v = [v.x, v.y] := rfl

theorem vectorValues_three (v : SimdVector) : vectorValues 3 v = [v.x, v.y, v.z] := rfl

theorem vectorValues_four (v : SimdVector) : vectorValues 4 v = [v.x, v.y, v.z, v.w] := rfl

theorem vectorValues_getD (N : Nat) (v : SimdVector) (k : Nat) (hN : N = 2 ∨ N = 3 ∨ N = 4)
    (hk : k < N) : (vectorValues N v).getD k 0 = v.GetElement k := by
  rcases hN with rfl | rfl | rfl
  · interval_cases k <;> rfl
  · interval_cases k <;> rfl
  · interval_cases k <;> rfl

theorem vectorValues_length (N : Nat) (v : SimdVector) (hN : N = 2 ∨ N = 3 ∨ N = 4) :
    (vectorValues N v).length = N := by
  rcases hN with rfl | rfl | rfl <;> rfl

theorem vectorShaderValue_data (N : Nat) (v : SimdVector) (hN : N = 2 ∨ N = 3 ∨ N = 4) :
    (vectorShaderValue N v).data = floatArrayBytes (vectorValues N v) := by
  rcases hN with rfl | rfl | rfl <;> rfl

theorem StoreToRowMajorFloat9_getD (m : Matrix3x3) (row col : Fin 3) :
    m.StoreToRowMajorFloat9.getD (3 * row.val + col.val) 0 = m.GetElement row col := by
  fin_cases row <;> fin_cases col <;> rfl

theorem StoreToRowMajorFloat9_length (m : Matrix3x3) : m.StoreToRowMajorFloat9.length = 9 := rfl

theorem bytesFloatArray_getD (N : Nat) (bytes : List Nat) (k : Nat) (hk : k < N) :
    (bytesFloatArray N bytes).getD k 0 = bytesUInt32 bytes (4 * k) := by
  unfold bytesFloatArray
  rw [List.getD_eq_getElem?_getD, List.getElem?_map, List.getElem?_range hk]
  rfl

/-- The buffer of a device below the device count after `SetParameter` on a known descriptor. -/
theorem SetParameter_lookup (deviceCount : Nat) (self : MaterialShaderParameter) (index : Handle)
    (value : ShaderValue) (desc : MaterialShaderParameterDescriptor) (d : Nat)
    (hdesc : self.m_layout.GetDescriptor index = some desc) (hd : d < deviceCount) :
    (MaterialShaderParameter.SetParameter deviceCount self index
        value).2.m_structuredBufferData.lookup d =
      some (writeDeviceBuffer desc value.data ((self.m_structuredBufferData.lookup d).getD [])) := by
  rw [(SetParameter_buffers deviceCount self index value desc hdesc).1,
    SetStructuredBufferData_lookup, if_pos hd]

theorem GetDescriptor_IsValid (layout : MaterialShaderParameterLayout) (index : Handle)
    (desc : MaterialShaderParameterDescriptor) (hdesc : layout.GetDescriptor index = some desc) :
    index.IsValid = true := by
  unfold MaterialShaderParameterLayout.GetDescriptor at hdesc
  by_cases h : index.IsValid = true
  · exact h
  · rw [if_neg h] at hdesc
    cases hdesc

theorem GetDescriptor_mem (layout : MaterialShaderParameterLayout) (index : Handle)
    (desc : MaterialShaderParameterDescriptor) (hdesc : layout.GetDescriptor index = some desc) :
    desc ∈ layout.m_descriptors := by
  unfold MaterialShaderParameterLayout.GetDescriptor at hdesc
  split at hdesc
  · rw [List.get?_eq_getElem?] at hdesc
    exact List.getElem?_mem hdesc
  · cases hdesc

theorem GetDescriptor_invalid (layout : MaterialShaderParameterLayout) (index : Handle)
    (hinvalid : index.IsValid = false) : layout.GetDescriptor index = none := by
  unfold MaterialShaderParameterLayout.GetDescriptor
  rw [hinvalid]
  rfl

/-- The bytes of a written buffer from the offset of the descriptor are the data, when the data
fits the declared size. -/
theorem writeDeviceBuffer_slice_le (desc : MaterialShaderParameterDescriptor)
    (deviceData buffer : List Nat) (hsize : deviceData.length ≤ desc.declaredSize) :
    ((writeDeviceBuffer desc deviceData buffer).drop
      desc.m_structuredBufferBinding.m_offset).take deviceData.length = deviceData := by
  apply List.ext_getElem?
  intro k
  rw [List.getElem?_take, List.getElem?_drop]
  by_cases hk : k < deviceData.length
  · rw [if_pos hk]
    have hlen : desc.m_structuredBufferBinding.m_offset + k
        < (writeDeviceBuffer desc deviceData buffer).length := by
      rw [writeDeviceBuffer_length]; omega
    have hw := writeDeviceBuffer_getD_written desc deviceData buffer k hsize hk
    rw [List.getD_eq_getElem?_getD, List.getD_eq_getElem?_getD,
      List.getElem?_eq_getElem hlen, List.getElem?_eq_getElem hk] at hw
    rw [List.getElem?_eq_getElem hlen, List.getElem?_eq_getElem hk]
    simpa using hw
  · rw [if_neg hk]
    exact (List.getElem?_eq_none (by omega)).symm

/-- The bytes of a written buffer over the range of the descriptor are the data. -/
theorem writeDeviceBuffer_slice (desc : MaterialShaderParameterDescriptor)
    (deviceData buffer : List Nat) (hsize : desc.declaredSize = deviceData.length) :
    ((writeDeviceBuffer desc deviceData buffer).drop
      desc.m_structuredBufferBinding.m_offset).take desc.declaredSize = deviceData := by
  rw [hsize]
  exact writeDeviceBuffer_slice_le desc deviceData buffer (by omega)

/-- A range of the buffer that lies within its old length and that the data does not meet is as
it was. -/
theorem writeDeviceBuffer_slice_disjoint (desc : MaterialShaderParameterDescriptor)
    (deviceData buffer : List Nat) (start count : Nat)
    (hdisjoint : start + count ≤ desc.m_structuredBufferBinding.m_offset ∨
      desc.m_structuredBufferBinding.m_offset + deviceData.length ≤ start)
    (hwithin : start + count ≤ buffer.length) :
    ((writeDeviceBuffer desc deviceData buffer).drop start).take count
      = (buffer.drop start).take count := by
  apply List.ext_getElem?
  intro k
  rw [List.getElem?_take, List.getElem?_take, List.getElem?_drop, List.getElem?_drop]
  by_cases hk : k < count
  · rw [if_pos hk, if_pos hk,
      writeDeviceBuffer_getElem?_outside desc deviceData buffer (start + k) (by omega),
      if_pos (by omega)]
  · rw [if_neg hk, if_neg hk]

/-- The name form of `SetParameter` is the index form at the index of the name. -/
theorem name_and_index_agree_aux (deviceCount : Nat) (self : MaterialShaderParameter)
    (name : String) (value : ShaderValue) :
    MaterialShaderParameter.SetParameterByName deviceCount self name value
      = MaterialShaderParameter.SetParameter deviceCount self
          (self.m_layout.GetParameterIndex name) value := by
  unfold MaterialShaderParameter.SetParameterByName
  by_cases h : (self.m_layout.GetParameterIndex name).IsValid = true
  · simp only [h, if_true]
  · have h2 : (self.m_layout.GetParameterIndex name).IsValid = false := by
      simpa using h
    simp only [h2, Bool.false_eq_true, if_false]
    rw [SetParameter_none deviceCount self _ value (GetDescriptor_invalid _ _ h2)]

/-! ## Lemmas on the mirror write -/

theorem SetMaterialSrgData_bound (self : MaterialShaderParameter)
    (desc : MaterialShaderParameterDescriptor) (value : ShaderValue) (srg : ShaderResourceGroup)
    (inputIndex : Handle) (hsrg : self.m_shaderResourceGroup = some srg)
    (hindex : desc.m_srgInputIndex = SrgInputIndex.constantIndex inputIndex)
    (hvalid : inputIndex.IsValid = true) :
    (self.SetMaterialSrgData desc value).2.m_shaderResourceGroup =
      some { srg with m_calls := srg.m_calls ++ [SrgCall.SetConstant inputIndex value] } := by
  simp only [MaterialShaderParameter.SetMaterialSrgData, hsrg, hindex, hvalid, if_true,
    ShaderResourceGroup.SetConstant]

theorem SetMaterialSrgData_unbound (self : MaterialShaderParameter)
    (desc : MaterialShaderParameterDescriptor) (value : ShaderValue)
    (hunbound : self.m_shaderResourceGroup = none ∨
      ∀ inputIndex, desc.m_srgInputIndex = SrgInputIndex.constantIndex inputIndex →
        inputIndex.IsValid = false) :
    (self.SetMaterialSrgData desc value).2 = self := by
  unfold MaterialShaderParameter.SetMaterialSrgData
  rcases hunbound with hnone | hinvalid
  · rw [hnone]
  · cases self.m_shaderResourceGroup with
    | none => rfl
    | some srg =>
      cases hidx : desc.m_srgInputIndex with
      | monostate => rfl
      | imageIndex inputIndex => rfl
      | constantIndex inputIndex =>
        simp only [hinvalid inputIndex hidx, Bool.false_eq_true, if_false]

theorem SetMaterialSrgDataColor_bound (self : MaterialShaderParameter)
    (desc : MaterialShaderParameterDescriptor) (value : Color) (srg : ShaderResourceGroup)
    (inputIndex : Handle) (hsrg : self.m_shaderResourceGroup = some srg)
    (hindex : desc.m_srgInputIndex = SrgInputIndex.constantIndex inputIndex)
    (hvalid : inputIndex.IsValid = true) :
    (self.SetMaterialSrgDataColor desc value).2.m_shaderResourceGroup =
      some { srg with
        m_calls := srg.m_calls ++
          [SrgCall.SetConstant inputIndex (constantArgument srg inputIndex
            (ShaderValue.color value))] } := by
  simp only [MaterialShaderParameter.SetMaterialSrgDataColor, hsrg, hindex, hvalid, if_true,
    ShaderResourceGroup.SetConstant, constantArgument]
  split <;> rfl

theorem SetMaterialSrgDataColor_unbound (self : MaterialShaderParameter)
    (desc : MaterialShaderParameterDescriptor) (value : Color)
    (hunbound : self.m_shaderResourceGroup = none ∨
      ∀ inputIndex, desc.m_srgInputIndex = SrgInputIndex.constantIndex inputIndex →
        inputIndex.IsValid = false) :
    (self.SetMaterialSrgDataColor desc value).2 = self := by
  unfold MaterialShaderParameter.SetMaterialSrgDataColor
  rcases hunbound with hnone | hinvalid
  · rw [hnone]
  · cases self.m_shaderResourceGroup with
    | none => rfl
    | some srg =>
      cases hidx : desc.m_srgInputIndex with
      | monostate => rfl
      | imageIndex inputIndex => rfl
      | constantIndex inputIndex =>
        simp only [hinvalid inputIndex hidx, Bool.false_eq_true, if_false]

/-! ## The properties -/

/-- C1. Scalar round trip: on a descriptor of the layout whose declared size
`m_elementSize * m_elementCount` is 4, after `SetParameter(index, v)` of a 4-byte scalar given by
its 32-bit pattern `v`, the read `GetShaderParameterData<T>(index, d)` returns the four bytes of
`v`, hence the pattern `v` itself, on every device `d` below the device count. -/
theorem scalar_round_trip (deviceCount : Nat) (self : MaterialShaderParameter) (index : Handle)
    (desc : MaterialShaderParameterDescriptor) (v d : Nat)
    (hdesc : self.m_layout.GetDescriptor index = some desc)
    (hsize : desc.declaredSize = 4) (hv : v < 4294967296) (hd : d < deviceCount) :
    (MaterialShaderParameter.SetParameter deviceCount self index
        (ShaderValue.plain (uint32Bytes v))).2.GetShaderParameterData 4 index d = uint32Bytes v ∧
      (MaterialShaderParameter.SetParameter deviceCount self index
        (ShaderValue.plain (uint32Bytes v))).2.GetShaderParameterDataUInt32 index d = v := by
  have h := GetShaderParameterData_SetParameter deviceCount self index
    (ShaderValue.plain (uint32Bytes v)) desc d hdesc hsize hd
  have h4 : (ShaderValue.plain (uint32Bytes v)).data.length = 4 := rfl
  rw [h4] at h
  refine ⟨h, ?_⟩
  unfold MaterialShaderParameter.GetShaderParameterDataUInt32
  rw [h]
  exact bytesUInt32_uint32Bytes v hv

/-- The round trip of the float 1.5 (pattern 0x3FC00000) through parameter "a" on the second of
two devices. -/
theorem scalar_round_trip_witness :
    (MaterialShaderParameter.SetParameter 2 scenarioStore ⟨0⟩
        (ShaderValue.plain (uint32Bytes 1069547520))).2.GetShaderParameterData 4 ⟨0⟩ 1
        = uint32Bytes 1069547520 ∧
      (MaterialShaderParameter.SetParameter 2 scenarioStore ⟨0⟩
        (ShaderValue.plain (uint32Bytes 1069547520))).2.GetShaderParameterDataUInt32 ⟨0⟩ 1
        = 1069547520 :=
  scalar_round_trip 2 scenarioStore ⟨0⟩ scenarioDescA 1069547520 1 rfl rfl (by decide)
    (by decide)

/-- C2. Vector encoding: for `N` in {2, 3, 4} and a descriptor of declared size `4 * N`,
`SetParameter` with a `Vector2` / `Vector3` / `Vector4` hands exactly `4 * N` bytes to the write,
and afterwards the buffer of every device below the device count holds the four bytes of
component `k` (X, Y, Z, W in that order) from byte offset `m_offset + 4 * k`, while every byte
position at or beyond `m_offset + 4 * N` is as it was before (still absent if it was absent). -/
theorem vector_encoding (deviceCount N : Nat) (self : MaterialShaderParameter) (index : Handle)
    (desc : MaterialShaderParameterDescriptor) (v : SimdVector) (d : Nat)
    (hN : N = 2 ∨ N = 3 ∨ N = 4)
    (hdesc : self.m_layout.GetDescriptor index = some desc)
    (hsize : desc.declaredSize = 4 * N) (hd : d < deviceCount) :
    (vectorShaderValue N v).data.length = 4 * N ∧
    ∃ buffer,
      (MaterialShaderParameter.SetParameter deviceCount self index
        (vectorShaderValue N v)).2.m_structuredBufferData.lookup d = some buffer ∧
      (∀ k j, k < N → j < 4 →
        buffer.getD (desc.m_structuredBufferBinding.m_offset + 4 * k + j) 0
          = (uint32Bytes (v.GetElement k)).getD j 0) ∧
      (∀ i, desc.m_structuredBufferBinding.m_offset + 4 * N ≤ i →
        buffer[i]? = ((self.m_structuredBufferData.lookup d).getD [])[i]?) := by
  have hlen : (vectorShaderValue N v).data.length = 4 * N := by
    rw [vectorShaderValue_data N v hN, floatArrayBytes_length, vectorValues_length N v hN]
  refine ⟨hlen, writeDeviceBuffer desc (vectorShaderValue N v).data
    ((self.m_structuredBufferData.lookup d).getD []), ?_, ?_, ?_⟩
  · rw [(SetParameter_buffers deviceCount self index _ desc hdesc).1,
      SetStructuredBufferData_lookup, if_pos hd]
  · intro k j hk hj
    rw [Nat.add_assoc, writeDeviceBuffer_getD_written desc _ _ (4 * k + j) (by omega) (by omega),
      vectorShaderValue_data N v hN,
      floatArrayBytes_getD _ k j (by rw [vectorValues_length N v hN]; exact hk) hj,
      vectorValues_getD N v k hN hk]
  · intro i hi
    rw [writeDeviceBuffer_getElem?_outside desc _ _ i (Or.inr (by omega))]
    by_cases h1 : i < ((self.m_structuredBufferData.lookup d).getD []).length
    · simp [h1]
    · have h2 : ¬ (i < desc.m_structuredBufferBinding.m_offset + desc.declaredSize) := by omega
      have h3 : ((self.m_structuredBufferData.lookup d).getD [])[i]? = none :=
        List.getElem?_eq_none (by omega)
      simp [h1, h2, h3]

/-- The encoding of the `Vector3` (1, 2, 3) into parameter "b" on the first of two devices. -/
theorem vector_encoding_witness :
    (vectorShaderValue 3 ⟨1065353216, 1073741824, 1077936128, 0⟩).data.length = 4 * 3 ∧
    ∃ buffer,
      (MaterialShaderParameter.SetParameter 2 scenarioStore ⟨1⟩
        (vectorShaderValue 3 ⟨1065353216, 1073741824, 1077936128, 0⟩)).2.m_structuredBufferData.lookup
          0 = some buffer ∧
      (∀ k j, k < 3 → j < 4 →
        buffer.getD (scenarioDescB.m_structuredBufferBinding.m_offset + 4 * k + j) 0
          = (uint32Bytes
              ((⟨1065353216, 1073741824, 1077936128, 0⟩ : SimdVector).GetElement k)).getD j 0) ∧
      (∀ i, scenarioDescB.m_structuredBufferBinding.m_offset + 4 * 3 ≤ i →
        buffer[i]? = ((scenarioStore.m_structuredBufferData.lookup 0).getD [])[i]?) :=
  vector_encoding 2 3 scenarioStore ⟨1⟩ scenarioDescB ⟨1065353216, 1073741824, 1077936128, 0⟩ 0
    (Or.inr (Or.inl rfl)) rfl rfl (by decide)

/-- C3. Vector round trip: for `N` in {2, 3, 4}, a descriptor of declared size `4 * N` and a
vector `v` whose first `N` components are 32-bit patterns, after `SetParameter(index, v)` the
read `GetShaderParameterData<VectorN>(index, d)` (that is `GetVectorShaderParameterData<VectorN,
N>`) has its first `N` components equal to those of `v`, on every device `d` below the device
count and whatever the uninitialised `vectorResult` held. -/
theorem vector_round_trip (deviceCount N : Nat) (self : MaterialShaderParameter) (index : Handle)
    (desc : MaterialShaderParameterDescriptor) (v vectorResult : SimdVector) (d : Nat)
    (hN : N = 2 ∨ N = 3 ∨ N = 4)
    (hdesc : self.m_layout.GetDescriptor index = some desc)
    (hsize : desc.declaredSize = 4 * N)
    (hv : ∀ k, k < N → v.GetElement k < 4294967296) (hd : d < deviceCount) :
    ∀ k, k < N →
      ((MaterialShaderParameter.SetParameter deviceCount self index
        (vectorShaderValue N v)).2.GetVectorShaderParameterData N index d
          vectorResult).GetElement k = v.GetElement k := by
  have hlen : (vectorShaderValue N v).data.length = 4 * N := by
    rw [vectorShaderValue_data N v hN, floatArrayBytes_length, vectorValues_length N v hN]
  have hget := GetShaderParameterData_SetParameter deviceCount self index (vectorShaderValue N v)
    desc d hdesc (by rw [hlen]; exact hsize) hd
  rw [hlen, vectorShaderValue_data N v hN] at hget
  have hfloat : ∀ k, k < N →
      bytesUInt32 (floatArrayBytes (vectorValues N v)) (4 * k) = v.GetElement k := by
    intro k hk
    rw [bytesUInt32_floatArrayBytes _ k (by rw [vectorValues_length N v hN]; exact hk)
      (by rw [vectorValues_getD N v k hN hk]; exact hv k hk), vectorValues_getD N v k hN hk]
  unfold MaterialShaderParameter.GetVectorShaderParameterData
  rw [hget]
  intro k hk
  rcases hN with rfl | rfl | rfl
  · have h0 : bytesUInt32 (floatArrayBytes (vectorValues _ v)) 0 = v.x := hfloat 0 (by omega)
    have h1 : bytesUInt32 (floatArrayBytes (vectorValues _ v)) 4 = v.y := hfloat 1 (by omega)
    interval_cases k <;>
      simp [bytesFloatArray, List.range_succ, SimdVector.SetElement, SimdVector.GetElement, h0, h1]
  · have h0 : bytesUInt32 (floatArrayBytes (vectorValues _ v)) 0 = v.x := hfloat 0 (by omega)
    have h1 : bytesUInt32 (floatArrayBytes (vectorValues _ v)) 4 = v.y := hfloat 1 (by omega)
    have h2 : bytesUInt32 (floatArrayBytes (vectorValues _ v)) 8 = v.z := hfloat 2 (by omega)
    interval_cases k <;>
      simp [bytesFloatArray, List.range_succ, SimdVector.SetElement, SimdVector.GetElement,
        h0, h1, h2]
  · have h0 : bytesUInt32 (floatArrayBytes (vectorValues _ v)) 0 = v.x := hfloat 0 (by omega)
    have h1 : bytesUInt32 (floatArrayBytes (vectorValues _ v)) 4 = v.y := hfloat 1 (by omega)
    have h2 : bytesUInt32 (floatArrayBytes (vectorValues _ v)) 8 = v.z := hfloat 2 (by omega)
    have h3 : bytesUInt32 (floatArrayBytes (vectorValues _ v)) 12 = v.w := hfloat 3 (by omega)
    interval_cases k <;>
      simp [bytesFloatArray, List.range_succ, SimdVector.SetElement, SimdVector.GetElement,
        h0, h1, h2, h3]

/-- The round trip of the `Vector3` (1, 2, 3) through parameter "b" on the first of two devices,
read at component Z. -/
theorem vector_round_trip_witness :
    ((MaterialShaderParameter.SetParameter 2 scenarioStore ⟨1⟩
        (vectorShaderValue 3 ⟨1065353216, 1073741824, 1077936128, 0⟩)).2.GetVectorShaderParameterData
          3 ⟨1⟩ 0 ⟨7, 7, 7, 7⟩).GetElement 2
      = (⟨1065353216, 1073741824, 1077936128, 0⟩ : SimdVector).GetElement 2 :=
  vector_round_trip 2 3 scenarioStore ⟨1⟩ scenarioDescB ⟨1065353216, 1073741824, 1077936128, 0⟩
    ⟨7, 7, 7, 7⟩ 0 (Or.inr (Or.inl rfl)) rfl rfl
    (by intro k hk; interval_cases k <;> decide) (by decide) 2 (by decide)

/-- C4. Matrix3x3 encoding and round trip: on a descriptor of declared size 36 and for a matrix
`m` of 32-bit patterns, after `SetParameter(index, m)` the buffer of every device `d` below the
device count holds the four bytes of element `(r, c)` from byte offset
`m_offset + 4 * (3 * r + c)` (row-major order), and `GetShaderParameterData<Matrix3x3>(index, d)`
returns a matrix whose nine elements are those of `m`. -/
theorem matrix3x3_round_trip (deviceCount : Nat) (self : MaterialShaderParameter) (index : Handle)
    (desc : MaterialShaderParameterDescriptor) (m : Matrix3x3) (d : Nat)
    (hdesc : self.m_layout.GetDescriptor index = some desc)
    (hsize : desc.declaredSize = 36)
    (hm : ∀ row col, m.GetElement row col < 4294967296) (hd : d < deviceCount) :
    (∃ buffer,
      (MaterialShaderParameter.SetParameter deviceCount self index
        (ShaderValue.matrix3x3 m)).2.m_structuredBufferData.lookup d = some buffer ∧
      ∀ (row col : Fin 3) (j : Nat), j < 4 →
        buffer.getD (desc.m_structuredBufferBinding.m_offset + 4 * (3 * row.val + col.val) + j) 0
          = (uint32Bytes (m.GetElement row col)).getD j 0) ∧
    ∀ row col,
      ((MaterialShaderParameter.SetParameter deviceCount self index
        (ShaderValue.matrix3x3 m)).2.GetShaderParameterDataMatrix3x3 index d).GetElement row col
        = m.GetElement row col := by
  have hlen : (ShaderValue.matrix3x3 m).data.length = 36 := rfl
  constructor
  · refine ⟨_, SetParameter_lookup deviceCount self index _ desc d hdesc hd, ?_⟩
    intro row col j hj
    have hidx : 3 * row.val + col.val < 9 := by
      have h1 := row.isLt
      have h2 := col.isLt
      omega
    rw [Nat.add_assoc, writeDeviceBuffer_getD_written desc _ _ _ (by omega) (by omega)]
    show (floatArrayBytes m.StoreToRowMajorFloat9).getD _ 0 = _
    rw [floatArrayBytes_getD m.StoreToRowMajorFloat9 _ j hidx hj, StoreToRowMajorFloat9_getD]
  · intro row col
    have hget := GetShaderParameterData_SetParameter deviceCount self index
      (ShaderValue.matrix3x3 m) desc d hdesc (by rw [hlen]; exact hsize) hd
    rw [hlen] at hget
    have hidx : 3 * row.val + col.val < 9 := by
      have h1 := row.isLt
      have h2 := col.isLt
      omega
    unfold MaterialShaderParameter.GetShaderParameterDataMatrix3x3
    rw [show 4 * 9 = 36 from rfl, hget]
    show (bytesFloatArray 9 (floatArrayBytes m.StoreToRowMajorFloat9)).getD
      (3 * row.val + col.val) 0 = _
    rw [bytesFloatArray_getD 9 _ _ hidx,
      bytesUInt32_floatArrayBytes m.StoreToRowMajorFloat9 _ hidx
        (by rw [StoreToRowMajorFloat9_getD]; exact hm row col),
      StoreToRowMajorFloat9_getD]

/-- The round trip of `sampleMatrix` through parameter "m" on the first device, read at
element (1, 2). -/
theorem matrix3x3_round_trip_witness :
    ((MaterialShaderParameter.SetParameter 1 sampleStore ⟨0⟩
      (ShaderValue.matrix3x3 sampleMatrix)).2.GetShaderParameterDataMatrix3x3 ⟨0⟩ 0).GetElement 1 2
      = sampleMatrix.GetElement 1 2 :=
  (matrix3x3_round_trip 1 sampleStore ⟨0⟩ sampleDescMatrix sampleMatrix 0 rfl rfl
    (by intro row col; fin_cases row <;> fin_cases col <;> decide) (by decide)).2 1 2

/-- C5. Boolean round trip: on a descriptor of declared size 4, after `SetParameter(index, b)`
the buffer of every device `d` below the device count holds, from `m_offset`, the four bytes of
the unsigned integer 1 if `b` is true and 0 if it is false, and `GetShaderParameterData<bool>
(index, d)` returns `b` with its 0/1 assertion holding. -/
theorem boolean_round_trip (deviceCount : Nat) (self : MaterialShaderParameter) (index : Handle)
    (desc : MaterialShaderParameterDescriptor) (b : Bool) (d : Nat)
    (hdesc : self.m_layout.GetDescriptor index = some desc)
    (hsize : desc.declaredSize = 4) (hd : d < deviceCount) :
    (∃ buffer,
      (MaterialShaderParameter.SetParameter deviceCount self index
        (ShaderValue.boolean b)).2.m_structuredBufferData.lookup d = some buffer ∧
      desc.m_structuredBufferBinding.m_offset + 4 ≤ buffer.length ∧
      bytesUInt32 buffer desc.m_structuredBufferBinding.m_offset = (if b then 1 else 0) ∧
      ∀ j, j < 4 → buffer.getD (desc.m_structuredBufferBinding.m_offset + j) 0
        = (uint32Bytes (if b then 1 else 0)).getD j 0) ∧
    (MaterialShaderParameter.SetParameter deviceCount self index
      (ShaderValue.boolean b)).2.GetShaderParameterDataBool index d = b ∧
    (MaterialShaderParameter.SetParameter deviceCount self index
      (ShaderValue.boolean b)).2.GetShaderParameterDataBoolAssert index d = true := by
  have hlen : (ShaderValue.boolean b).data.length = 4 := rfl
  have hbytes : ∀ j, j < 4 →
      (writeDeviceBuffer desc (ShaderValue.boolean b).data
        ((self.m_structuredBufferData.lookup d).getD [])).getD
          (desc.m_structuredBufferBinding.m_offset + j) 0
        = (uint32Bytes (if b then 1 else 0)).getD j 0 := by
    intro j hj
    rw [writeDeviceBuffer_getD_written desc _ _ j (by omega) (by omega)]
    rfl
  have hget := GetShaderParameterData_SetParameter deviceCount self index (ShaderValue.boolean b)
    desc d hdesc (by rw [hlen]; exact hsize) hd
  rw [hlen] at hget
  refine ⟨⟨_, SetParameter_lookup deviceCount self index _ desc d hdesc hd, ?_, ?_, hbytes⟩, ?_, ?_⟩
  · rw [writeDeviceBuffer_length, hsize]
    omega
  · have h0 := hbytes 0 (by omega)
    have h1 := hbytes 1 (by omega)
    have h2 := hbytes 2 (by omega)
    have h3 := hbytes 3 (by omega)
    rw [Nat.add_zero] at h0
    unfold bytesUInt32
    rw [h0, h1, h2, h3]
    cases b <;> rfl
  · unfold MaterialShaderParameter.GetShaderParameterDataBool
      MaterialShaderParameter.GetShaderParameterDataUInt32
    rw [hget]
    cases b <;> rfl
  · unfold MaterialShaderParameter.GetShaderParameterDataBoolAssert
      MaterialShaderParameter.GetShaderParameterDataUInt32
    rw [hget]
    cases b <;> rfl

/-- The round trip of `true` through parameter "flag" on the third of three devices. -/
theorem boolean_round_trip_witness :
    (MaterialShaderParameter.SetParameter 3 sampleStore ⟨1⟩
      (ShaderValue.boolean true)).2.GetShaderParameterDataBool ⟨1⟩ 2 = true :=
  (boolean_round_trip 3 sampleStore ⟨1⟩ sampleDescFlag true 2 rfl rfl (by decide)).2.1

/-- C6. Layout scenario: over a layout that holds a float parameter "a" at offset 0 with size 4
and a vector3 parameter "b" at offset 16 (of declared size 12 or more), `SetParameter("a", 1.5f)`
followed by `SetParameter("b", (1, 2, 3))` both return true, and afterwards in the buffer of
every device below the device count the bytes `[0..4)` are those of the float 1.5 and decode to
it, and the bytes `[16..28)` are those of the three floats (1, 2, 3) and decode to them. -/
theorem layout_scenario (deviceCount : Nat) (self : MaterialShaderParameter)
    (descA descB : MaterialShaderParameterDescriptor) (d : Nat)
    (hA : self.m_layout.GetDescriptor (self.m_layout.GetParameterIndex "a") = some descA)
    (hB : self.m_layout.GetDescriptor (self.m_layout.GetParameterIndex "b") = some descB)
    (hAoffset : descA.m_structuredBufferBinding.m_offset = 0) (hAsize : descA.declaredSize = 4)
    (hBoffset : descB.m_structuredBufferBinding.m_offset = 16)
    (hBsize : 12 ≤ descB.declaredSize) (hd : d < deviceCount) :
    (MaterialShaderParameter.SetParameterByName deviceCount self "a"
      (ShaderValue.plain (uint32Bytes floatBits_1_5))).1 = true ∧
    (MaterialShaderParameter.SetParameterByName deviceCount
      (MaterialShaderParameter.SetParameterByName deviceCount self "a"
        (ShaderValue.plain (uint32Bytes floatBits_1_5))).2 "b"
      (ShaderValue.vector3 ⟨floatBits_1, floatBits_2, floatBits_3, 0⟩)).1 = true ∧
    ∃ buffer,
      (MaterialShaderParameter.SetParameterByName deviceCount
        (MaterialShaderParameter.SetParameterByName deviceCount self "a"
          (ShaderValue.plain (uint32Bytes floatBits_1_5))).2 "b"
        (ShaderValue.vector3 ⟨floatBits_1, floatBits_2, floatBits_3,
          0⟩)).2.m_structuredBufferData.lookup d = some buffer ∧
      28 ≤ buffer.length ∧
      (buffer.drop 0).take 4 = uint32Bytes floatBits_1_5 ∧
      bytesUInt32 ((buffer.drop 0).take 4) 0 = floatBits_1_5 ∧
      (buffer.drop 16).take 12 = floatArrayBytes [floatBits_1, floatBits_2, floatBits_3] ∧
      bytesFloatArray 3 ((buffer.drop 16).take 12) = [floatBits_1, floatBits_2, floatBits_3] := by
  have hAvalid := GetDescriptor_IsValid _ _ _ hA
  have hBvalid := GetDescriptor_IsValid _ _ _ hB
  have hfirst : MaterialShaderParameter.SetParameterByName deviceCount self "a"
      (ShaderValue.plain (uint32Bytes floatBits_1_5))
      = MaterialShaderParameter.SetParameter deviceCount self
          (self.m_layout.GetParameterIndex "a") (ShaderValue.plain (uint32Bytes floatBits_1_5)) :=
    (name_and_index_agree_aux deviceCount self "a" _)
  rw [hfirst]
  have hlayout := (SetParameter_buffers deviceCount self (self.m_layout.GetParameterIndex "a")
    (ShaderValue.plain (uint32Bytes floatBits_1_5)) descA hA).2
  have hsecond := name_and_index_agree_aux deviceCount
    (MaterialShaderParameter.SetParameter deviceCount self
      (self.m_layout.GetParameterIndex "a") (ShaderValue.plain (uint32Bytes floatBits_1_5))).2 "b"
    (ShaderValue.vector3 ⟨floatBits_1, floatBits_2, floatBits_3, 0⟩)
  rw [hsecond, hlayout]
  have hB2 : (MaterialShaderParameter.SetParameter deviceCount self
      (self.m_layout.GetParameterIndex "a")
      (ShaderValue.plain (uint32Bytes floatBits_1_5))).2.m_layout.GetDescriptor
        (self.m_layout.GetParameterIndex "b") = some descB := by
    rw [hlayout]; exact hB
  refine ⟨by rw [SetParameter_fst, hA]; rfl, by rw [SetParameter_fst, hB2]; rfl, ?_⟩
  have hdata2 : (ShaderValue.vector3 ⟨floatBits_1, floatBits_2, floatBits_3, 0⟩).data
      = floatArrayBytes [floatBits_1, floatBits_2, floatBits_3] := rfl
  have hlen1 : (writeDeviceBuffer descA (ShaderValue.plain (uint32Bytes floatBits_1_5)).data
      ((self.m_structuredBufferData.lookup d).getD [])).length ≥ 4 := by
    rw [writeDeviceBuffer_length, hAsize]; omega
  refine ⟨_, SetParameter_lookup deviceCount _ _ _ descB d hB2 hd, ?_, ?_⟩
  · rw [writeDeviceBuffer_length, hBoffset]; omega
  · rw [SetParameter_lookup deviceCount self _ _ descA d hA hd, Option.getD_some]
    have hslice1 : ((writeDeviceBuffer descB
          (ShaderValue.vector3 ⟨floatBits_1, floatBits_2, floatBits_3, 0⟩).data
          (writeDeviceBuffer descA (ShaderValue.plain (uint32Bytes floatBits_1_5)).data
            ((self.m_structuredBufferData.lookup d).getD []))).drop 0).take 4
        = uint32Bytes floatBits_1_5 := by
      rw [writeDeviceBuffer_slice_disjoint descB _ _ 0 4 (Or.inl (by omega)) (by omega)]
      have h := writeDeviceBuffer_slice descA (ShaderValue.plain (uint32Bytes floatBits_1_5)).data
        ((self.m_structuredBufferData.lookup d).getD []) hAsize
      rw [hAoffset, hAsize] at h
      exact h
    have hslice2 : ((writeDeviceBuffer descB
          (ShaderValue.vector3 ⟨floatBits_1, floatBits_2, floatBits_3, 0⟩).data
          (writeDeviceBuffer descA (ShaderValue.plain (uint32Bytes floatBits_1_5)).data
            ((self.m_structuredBufferData.lookup d).getD []))).drop 16).take 12
        = floatArrayBytes [floatBits_1, floatBits_2, floatBits_3] := by
      have h := writeDeviceBuffer_slice_le descB
        (ShaderValue.vector3 ⟨floatBits_1, floatBits_2, floatBits_3, 0⟩).data
        (writeDeviceBuffer descA (ShaderValue.plain (uint32Bytes floatBits_1_5)).data
          ((self.m_structuredBufferData.lookup d).getD [])) (by rw [hdata2]; exact hBsize)
      rw [hBoffset] at h
      exact h
    refine ⟨hslice1, ?_, hslice2, ?_⟩
    · rw [hslice1]; rfl
    · rw [hslice2]; rfl

/-- The scenario on the store over the layout of "a" and "b" with no buffer yet, on the second of
two devices. -/
theorem layout_scenario_witness :
    ∃ buffer,
      (MaterialShaderParameter.SetParameterByName 2
        (MaterialShaderParameter.SetParameterByName 2 scenarioStore "a"
          (ShaderValue.plain (uint32Bytes floatBits_1_5))).2 "b"
        (ShaderValue.vector3 ⟨floatBits_1, floatBits_2, floatBits_3,
          0⟩)).2.m_structuredBufferData.lookup 1 = some buffer ∧
      28 ≤ buffer.length ∧
      (buffer.drop 0).take 4 = uint32Bytes floatBits_1_5 ∧
      bytesUInt32 ((buffer.drop 0).take 4) 0 = floatBits_1_5 ∧
      (buffer.drop 16).take 12 = floatArrayBytes [floatBits_1, floatBits_2, floatBits_3] ∧
      bytesFloatArray 3 ((buffer.drop 16).take 12) = [floatBits_1, floatBits_2, floatBits_3] :=
  (layout_scenario 2 scenarioStore scenarioDescA scenarioDescB 1 rfl rfl rfl rfl rfl
    (by decide) (by decide)).2.2

/-- C7. Writes reach every device: for every non-image `SetParameter(index, v)` and every
`SetParameterRaw(index, bytes)` on a known descriptor whose declared size is that of the bytes
handed to the write, afterwards every device `d` below the device count has a buffer, long enough
for the descriptor, whose bytes in `[m_offset, m_offset + m_elementSize * m_elementCount)` are
the encoding of `v` (respectively `bytes`). -/
theorem writes_reach_every_device (deviceCount : Nat) (self : MaterialShaderParameter)
    (index : Handle) (desc : MaterialShaderParameterDescriptor) (value : ShaderValue)
    (bytes : List Nat) (d : Nat)
    (hdesc : self.m_layout.GetDescriptor index = some desc) (hd : d < deviceCount) :
    (desc.declaredSize = value.data.length →
      ∃ buffer,
        (MaterialShaderParameter.SetParameter deviceCount self index
          value).2.m_structuredBufferData.lookup d = some buffer ∧
        desc.m_structuredBufferBinding.m_offset + desc.declaredSize ≤ buffer.length ∧
        (buffer.drop desc.m_structuredBufferBinding.m_offset).take desc.declaredSize
          = value.data) ∧
    (desc.declaredSize = bytes.length →
      ∃ buffer,
        (MaterialShaderParameter.SetParameterRaw deviceCount self index
          bytes).2.m_structuredBufferData.lookup d = some buffer ∧
        desc.m_structuredBufferBinding.m_offset + desc.declaredSize ≤ buffer.length ∧
        (buffer.drop desc.m_structuredBufferBinding.m_offset).take desc.declaredSize = bytes) := by
  constructor
  · intro hsize
    refine ⟨_, SetParameter_lookup deviceCount self index value desc d hdesc hd, ?_,
      writeDeviceBuffer_slice desc _ _ hsize⟩
    rw [writeDeviceBuffer_length]
    omega
  · intro hsize
    refine ⟨writeDeviceBuffer desc bytes ((self.m_structuredBufferData.lookup d).getD []), ?_, ?_,
      writeDeviceBuffer_slice desc _ _ hsize⟩
    · simp only [MaterialShaderParameter.SetParameterRaw, hdesc]
      rw [SetStructuredBufferData_lookup, if_pos hd]
    · rw [writeDeviceBuffer_length]
      omega

/-- The write of a `Color` into parameter "tint" reaches the second of two devices. -/
theorem writes_reach_every_device_witness :
    (∃ buffer,
      (MaterialShaderParameter.SetParameter 2 sampleStore ⟨2⟩
        (ShaderValue.color ⟨1, 2, 3, 4⟩)).2.m_structuredBufferData.lookup 1 = some buffer ∧
      sampleDescTint.m_structuredBufferBinding.m_offset + sampleDescTint.declaredSize
        ≤ buffer.length ∧
      (buffer.drop sampleDescTint.m_structuredBufferBinding.m_offset).take
        sampleDescTint.declaredSize = (ShaderValue.color ⟨1, 2, 3, 4⟩).data) ∧
    (∃ buffer,
      (MaterialShaderParameter.SetParameterRaw 2 sampleStore ⟨1⟩
        [9, 8, 7, 6]).2.m_structuredBufferData.lookup 1 = some buffer ∧
      sampleDescFlag.m_structuredBufferBinding.m_offset + sampleDescFlag.declaredSize
        ≤ buffer.length ∧
      (buffer.drop sampleDescFlag.m_structuredBufferBinding.m_offset).take
        sampleDescFlag.declaredSize = [9, 8, 7, 6]) :=
  ⟨(writes_reach_every_device 2 sampleStore ⟨2⟩ sampleDescTint (ShaderValue.color ⟨1, 2, 3, 4⟩)
      [] 1 rfl (by decide)).1 rfl,
    (writes_reach_every_device 2 sampleStore ⟨1⟩ sampleDescFlag (ShaderValue.boolean true)
      [9, 8, 7, 6] 1 rfl (by decide)).2 rfl⟩

/-- C8. `SetParameter(index, value)`, for a value of any kind or an image, returns true if and
only if `GetDescriptor(index)` yields a descriptor, whatever the binding table (attached or not,
accepting the mirror write or not); and either it returns true, or it returns false and the store
(every device buffer and the binding table) is the one it was given. -/
theorem SetParameter_result (deviceCount : Nat) (self : MaterialShaderParameter) (index : Handle)
    (value : ShaderValue) (image : Option Image) :
    (((MaterialShaderParameter.SetParameter deviceCount self index value).1 = true ↔
        (self.m_layout.GetDescriptor index).isSome = true) ∧
      ((MaterialShaderParameter.SetParameter deviceCount self index value).1 = true ∨
        ((MaterialShaderParameter.SetParameter deviceCount self index value).1 = false ∧
          (MaterialShaderParameter.SetParameter deviceCount self index value).2 = self))) ∧
    (((MaterialShaderParameter.SetParameterImage deviceCount self index image).1 = true ↔
        (self.m_layout.GetDescriptor index).isSome = true) ∧
      ((MaterialShaderParameter.SetParameterImage deviceCount self index image).1 = true ∨
        ((MaterialShaderParameter.SetParameterImage deviceCount self index image).1 = false ∧
          (MaterialShaderParameter.SetParameterImage deviceCount self index image).2
            = self))) := by
  refine ⟨⟨?_, ?_⟩, ?_⟩
  · rw [SetParameter_fst]
  · cases hdesc : self.m_layout.GetDescriptor index with
    | none =>
      right
      rw [SetParameter_none deviceCount self index value hdesc]
      exact ⟨rfl, rfl⟩
    | some desc =>
      left
      rw [SetParameter_fst, hdesc]
      rfl
  · unfold MaterialShaderParameter.SetParameterImage
    cases self.m_layout.GetDescriptor index with
    | none => exact ⟨by simp, Or.inr ⟨rfl, rfl⟩⟩
    | some desc => exact ⟨by simp, Or.inl rfl⟩

/-- C9. Name and index forms agree: `SetParameter(name, value)`, for a value of any kind or an
image, returns the same result and the same store as
`SetParameter(layout.GetParameterIndex(name), value)`; and when the name is absent from the
layout, so that the index is invalid, it returns false and the store it was given. -/
theorem name_and_index_forms_agree (deviceCount : Nat) (self : MaterialShaderParameter)
    (name : String) (value : ShaderValue) (image : Option Image) :
    MaterialShaderParameter.SetParameterByName deviceCount self name value
      = MaterialShaderParameter.SetParameter deviceCount self
          (self.m_layout.GetParameterIndex name) value ∧
    MaterialShaderParameter.SetParameterImageByName deviceCount self name image
      = MaterialShaderParameter.SetParameterImage deviceCount self
          (self.m_layout.GetParameterIndex name) image ∧
    ((∀ entry, entry ∈ self.m_layout.m_names → (entry.1 == name) = false) →
      (self.m_layout.GetParameterIndex name).IsValid = false ∧
      MaterialShaderParameter.SetParameterByName deviceCount self name value = (false, self) ∧
      MaterialShaderParameter.SetParameterImageByName deviceCount self name image
        = (false, self)) := by
  refine ⟨name_and_index_agree_aux deviceCount self name value, ?_, ?_⟩
  · unfold MaterialShaderParameter.SetParameterImageByName
    by_cases h : (self.m_layout.GetParameterIndex name).IsValid = true
    · simp only [h, if_true]
    · have h2 : (self.m_layout.GetParameterIndex name).IsValid = false := by
        simpa using h
      simp only [h2, Bool.false_eq_true, if_false, MaterialShaderParameter.SetParameterImage,
        GetDescriptor_invalid _ _ h2]
  · intro habsent
    have hidx : self.m_layout.GetParameterIndex name = Handle.Null := by
      unfold MaterialShaderParameterLayout.GetParameterIndex
      have hfind : self.m_layout.m_names.find? (fun entry => entry.1 == name) = none := by
        rw [List.find?_eq_none]
        intro entry hmem
        rw [habsent entry hmem]
        exact Bool.false_ne_true
      rw [hfind]
    have hinvalid : (self.m_layout.GetParameterIndex name).IsValid = false := by
      rw [hidx]; rfl
    refine ⟨hinvalid, ?_, ?_⟩
    · unfold MaterialShaderParameter.SetParameterByName
      simp only [hinvalid, Bool.false_eq_true, if_false]
    · unfold MaterialShaderParameter.SetParameterImageByName
      simp only [hinvalid, Bool.false_eq_true, if_false]

/-- Setting the absent name "c" on the store over the layout of "a" and "b". -/
theorem name_and_index_forms_agree_witness :
    (scenarioStore.m_layout.GetParameterIndex "c").IsValid = false ∧
    MaterialShaderParameter.SetParameterByName 2 scenarioStore "c" (ShaderValue.boolean true)
      = (false, scenarioStore) ∧
    MaterialShaderParameter.SetParameterImageByName 2 scenarioStore "c" none
      = (false, scenarioStore) :=
  (name_and_index_forms_agree 2 scenarioStore "c" (ShaderValue.boolean true) none).2.2
    (by decide)

/-- C10, as stated, fails for a `Color`: on the store `sampleStore`, whose parameter "tint" is
bound to the valid constant slot 0 and whose binding table declares 12 bytes for that slot,
`SetParameter(index, Color(1, 2, 3, 4))` makes one call of `SetConstant`, and its argument is the
`Vector3` (1, 2, 3), not the `Color` being set. -/
theorem binding_table_mirroring_color_counterexample :
    ((MaterialShaderParameter.SetParameter 1 sampleStore ⟨2⟩
      (ShaderValue.color ⟨1, 2, 3, 4⟩)).2.m_shaderResourceGroup.map (fun srg => srg.m_calls)
        = some [SrgCall.SetConstant ⟨0⟩ (ShaderValue.vector3 ⟨1, 2, 3, 0⟩)]) ∧
    ¬ ((MaterialShaderParameter.SetParameter 1 sampleStore ⟨2⟩
      (ShaderValue.color ⟨1, 2, 3, 4⟩)).2.m_shaderResourceGroup.map (fun srg => srg.m_calls)
        = some [SrgCall.SetConstant ⟨0⟩ (ShaderValue.color ⟨1, 2, 3, 4⟩)]) := by
  have h : (MaterialShaderParameter.SetParameter 1 sampleStore ⟨2⟩
      (ShaderValue.color ⟨1, 2, 3, 4⟩)).2.m_shaderResourceGroup.map (fun srg => srg.m_calls)
        = some [SrgCall.SetConstant ⟨0⟩ (ShaderValue.vector3 ⟨1, 2, 3, 0⟩)] := rfl
  refine ⟨h, ?_⟩
  rw [h]
  intro heq
  cases heq

/-- C10, amended. Binding-table mirroring: a non-image `SetParameter` on a known descriptor
always writes the packed buffers; when the store has a binding table and the binding handle of
the descriptor is a valid constant-binding handle, the binding table receives exactly one more
call, `SetConstant` with that handle and the value being set (a `bool` as the `uint32_t` 0 or 1,
a `Color` as its RGB `Vector3` when the slot declares exactly 12 bytes); when the store has no
binding table, or the handle is absent, an image handle or invalid, the binding table is not
touched. -/
theorem binding_table_mirroring (deviceCount : Nat) (self : MaterialShaderParameter)
    (index : Handle) (desc : MaterialShaderParameterDescriptor) (value : ShaderValue)
    (hdesc : self.m_layout.GetDescriptor index = some desc) :
    (MaterialShaderParameter.SetParameter deviceCount self index value).2.m_structuredBufferData
      = (MaterialShaderParameter.SetStructuredBufferData deviceCount self desc
          value.data).m_structuredBufferData ∧
    (∀ srg inputIndex, self.m_shaderResourceGroup = some srg →
      desc.m_srgInputIndex = SrgInputIndex.constantIndex inputIndex →
      inputIndex.IsValid = true →
      (MaterialShaderParameter.SetParameter deviceCount self index value).2.m_shaderResourceGroup
        = some { srg with
            m_calls := srg.m_calls ++
              [SrgCall.SetConstant inputIndex (constantArgument srg inputIndex value)] }) ∧
    ((self.m_shaderResourceGroup = none ∨
        ∀ inputIndex, desc.m_srgInputIndex = SrgInputIndex.constantIndex inputIndex →
          inputIndex.IsValid = false) →
      (MaterialShaderParameter.SetParameter deviceCount self index value).2.m_shaderResourceGroup
        = self.m_shaderResourceGroup) := by
  have hframe := (SetStructuredBufferData_frame deviceCount self desc value.data).2.1
  refine ⟨(SetParameter_buffers deviceCount self index value desc hdesc).1, ?_, ?_⟩
  · intro srg inputIndex hsrg hindex hvalid
    cases value <;>
      simp only [MaterialShaderParameter.SetParameter, MaterialShaderParameter.SetParameterPlain,
        MaterialShaderParameter.SetParameterBool, MaterialShaderParameter.SetVectorParameter,
        MaterialShaderParameter.SetParameterMatrix3x3, MaterialShaderParameter.SetParameterColor,
        hdesc] <;>
      first
      | exact SetMaterialSrgData_bound _ desc _ srg inputIndex (hframe.trans hsrg) hindex hvalid
      | exact SetMaterialSrgDataColor_bound _ desc _ srg inputIndex (hframe.trans hsrg) hindex
          hvalid
  · intro hunbound
    have hunbound2 : ∀ data,
        (MaterialShaderParameter.SetStructuredBufferData deviceCount self desc
          data).m_shaderResourceGroup = none ∨
        ∀ inputIndex, desc.m_srgInputIndex = SrgInputIndex.constantIndex inputIndex →
          inputIndex.IsValid = false := by
      intro data
      rcases hunbound with hnone | hinvalid
      · exact Or.inl ((SetStructuredBufferData_frame deviceCount self desc data).2.1.trans hnone)
      · exact Or.inr hinvalid
    cases value <;>
      simp only [MaterialShaderParameter.SetParameter, MaterialShaderParameter.SetParameterPlain,
        MaterialShaderParameter.SetParameterBool, MaterialShaderParameter.SetVectorParameter,
        MaterialShaderParameter.SetParameterMatrix3x3, MaterialShaderParameter.SetParameterColor,
        hdesc] <;>
      first
      | rw [SetMaterialSrgData_unbound _ desc _ (hunbound2 _)]
        exact (SetStructuredBufferData_frame deviceCount self desc _).2.1
      | rw [SetMaterialSrgDataColor_unbound _ desc _ (hunbound2 _)]
        exact (SetStructuredBufferData_frame deviceCount self desc _).2.1

/-- The mirroring on `sampleStore`: the `Color` set on "tint", bound to the valid constant slot
0, reaches the binding table; the `bool` set on "flag", bound to an image slot, does not. -/
theorem binding_table_mirroring_witness :
    (MaterialShaderParameter.SetParameter 1 sampleStore ⟨2⟩
      (ShaderValue.color ⟨1, 2, 3, 4⟩)).2.m_shaderResourceGroup
      = some { sampleSrg with
          m_calls := sampleSrg.m_calls ++
            [SrgCall.SetConstant ⟨0⟩
              (constantArgument sampleSrg ⟨0⟩ (ShaderValue.color ⟨1, 2, 3, 4⟩))] } ∧
    (MaterialShaderParameter.SetParameter 1 sampleStore ⟨1⟩
      (ShaderValue.boolean true)).2.m_shaderResourceGroup = sampleStore.m_shaderResourceGroup :=
  ⟨(binding_table_mirroring 1 sampleStore ⟨2⟩ sampleDescTint (ShaderValue.color ⟨1, 2, 3, 4⟩)
      rfl).2.1 sampleSrg ⟨0⟩ rfl rfl rfl,
    (binding_table_mirroring 1 sampleStore ⟨1⟩ sampleDescFlag (ShaderValue.boolean true)
      rfl).2.2 (Or.inr (fun _ hindex => nomatch hindex))⟩

/-! ## Lemmas on the image setter -/

theorem SetMaterialSrgDataImage_frame (self : MaterialShaderParameter)
    (desc : MaterialShaderParameterDescriptor) (value : Option Image) :
    (self.SetMaterialSrgDataImage desc value).2.m_structuredBufferData
        = self.m_structuredBufferData ∧
      (self.SetMaterialSrgDataImage desc value).2.m_layout = self.m_layout := by
  unfold MaterialShaderParameter.SetMaterialSrgDataImage
  split
  · exact ⟨rfl, rfl⟩
  · split
    · split <;> exact ⟨rfl, rfl⟩
    · exact ⟨rfl, rfl⟩

theorem SetMaterialSrgDeviceReadIndex_frame (self : MaterialShaderParameter)
    (desc : MaterialShaderParameterDescriptor) (deviceIndex readIndex : Nat) :
    (self.SetMaterialSrgDeviceReadIndex desc deviceIndex readIndex).2.m_structuredBufferData
        = self.m_structuredBufferData ∧
      (self.SetMaterialSrgDeviceReadIndex desc deviceIndex readIndex).2.m_layout
        = self.m_layout := by
  unfold MaterialShaderParameter.SetMaterialSrgDeviceReadIndex
  split
  · exact ⟨rfl, rfl⟩
  · split
    · split <;> exact ⟨rfl, rfl⟩
    · exact ⟨rfl, rfl⟩

/-- One turn of the device loop of the image setter writes the read index of the device into the
buffer of the device and leaves the layout alone. -/
theorem SetParameterImageDevice_buffers (self : MaterialShaderParameter)
    (desc : MaterialShaderParameterDescriptor) (image : Option Image) (deviceIndex : Nat) :
    (self.SetParameterImageDevice desc image deviceIndex).m_structuredBufferData =
        self.m_structuredBufferData.assign deviceIndex
          (writeDeviceBuffer desc (uint32Bytes (deviceReadIndex image deviceIndex))
            ((self.m_structuredBufferData.lookup deviceIndex).getD [])) ∧
      (self.SetParameterImageDevice desc image deviceIndex).m_layout = self.m_layout := by
  unfold MaterialShaderParameter.SetParameterImageDevice
  simp only []
  split
  · rw [(SetMaterialSrgDataImage_frame _ desc image).1, (SetMaterialSrgDataImage_frame _ desc image).2,
      (SetMaterialSrgDeviceReadIndex_frame _ desc _ _).1,
      (SetMaterialSrgDeviceReadIndex_frame _ desc _ _).2]
    exact ⟨rfl, rfl⟩
  · rw [(SetMaterialSrgDeviceReadIndex_frame _ desc _ _).1,
      (SetMaterialSrgDeviceReadIndex_frame _ desc _ _).2]
    exact ⟨rfl, rfl⟩

/-- The buffers after the device loop of the image setter. -/
theorem SetParameterImage_loop_lookup (deviceCount : Nat) (self : MaterialShaderParameter)
    (desc : MaterialShaderParameterDescriptor) (image : Option Image) (d : Nat) :
    ((List.range deviceCount).foldl
        (fun store deviceIndex => store.SetParameterImageDevice desc image deviceIndex)
        self).m_structuredBufferData.lookup d =
      if d < deviceCount then
        some (writeDeviceBuffer desc (uint32Bytes (deviceReadIndex image d))
          ((self.m_structuredBufferData.lookup d).getD []))
      else self.m_structuredBufferData.lookup d := by
  induction deviceCount with
  | zero => simp
  | succ n ih =>
    rw [List.range_succ, List.foldl_append, List.foldl_cons, List.foldl_nil,
      (SetParameterImageDevice_buffers _ desc image n).1]
    by_cases h1 : d = n
    · subst h1
      rw [DeviceBuffers.lookup_assign_same, ih]
      simp
    · rw [DeviceBuffers.lookup_assign_other _ _ _ _ h1, ih]
      by_cases h2 : d < n
      · have h3 : d < n + 1 := by omega
        simp [h2, h3]
      · have h3 : ¬ d < n + 1 := by omega
        simp [h2, h3]

/-- The layout after the device loop of the image setter. -/
theorem SetParameterImage_loop_layout (deviceCount : Nat) (self : MaterialShaderParameter)
    (desc : MaterialShaderParameterDescriptor) (image : Option Image) :
    ((List.range deviceCount).foldl
        (fun store deviceIndex => store.SetParameterImageDevice desc image deviceIndex)
        self).m_layout = self.m_layout := by
  induction deviceCount with
  | zero => rfl
  | succ n ih =>
    rw [List.range_succ, List.foldl_append, List.foldl_cons, List.foldl_nil,
      (SetParameterImageDevice_buffers _ desc image n).2, ih]

/-- The binding table after one turn of the device loop of the image setter. -/
theorem SetParameterImageDevice_srg (self : MaterialShaderParameter)
    (desc : MaterialShaderParameterDescriptor) (image : Option Image) (deviceIndex : Nat) :
    (self.SetParameterImageDevice desc image deviceIndex).m_shaderResourceGroup =
      self.m_shaderResourceGroup.map
        (fun srg => { srg with m_calls := srg.m_calls ++ imageSrgCalls desc image deviceIndex }) := by
  unfold MaterialShaderParameter.SetParameterImageDevice
    MaterialShaderParameter.SetMaterialSrgDeviceReadIndex
    MaterialShaderParameter.SetMaterialSrgDataImage
    MaterialShaderParameter.SetStructuredBufferDataDevice imageSrgCalls
  cases hsrg : self.m_shaderResourceGroup with
  | none => simp
  | some srg =>
    cases hidx : desc.m_srgInputIndex with
    | monostate => simp
    | constantIndex inputIndex =>
      by_cases hvalid : inputIndex.IsValid = true
      · cases hanswer : srg.m_setConstantResult inputIndex
          (ShaderValue.plain (uint32Bytes (deviceReadIndex image deviceIndex))) <;>
          simp [hvalid, hanswer, ShaderResourceGroup.SetConstant, hidx]
      · simp [hvalid]
    | imageIndex inputIndex =>
      by_cases hvalid : inputIndex.IsValid = true
      · simp [hvalid, ShaderResourceGroup.SetImage]
      · simp [hvalid]

/-- The binding table after the device loop of the image setter: the calls of the devices, in
the order of the devices. -/
theorem SetParameterImage_loop_srg (deviceCount : Nat) (self : MaterialShaderParameter)
    (desc : MaterialShaderParameterDescriptor) (image : Option Image) :
    ((List.range deviceCount).foldl
        (fun store deviceIndex => store.SetParameterImageDevice desc image deviceIndex)
        self).m_shaderResourceGroup =
      self.m_shaderResourceGroup.map
        (fun srg =>
          { srg with
            m_calls := srg.m_calls ++
              (List.range deviceCount).flatMap (imageSrgCalls desc image) }) := by
  induction deviceCount with
  | zero =>
    cases hsrg : self.m_shaderResourceGroup with
    | none => simp [hsrg]
    | some srg => simp [hsrg]
  | succ n ih =>
    rw [List.range_succ, List.foldl_append, List.foldl_cons, List.foldl_nil,
      SetParameterImageDevice_srg, ih]
    cases self.m_shaderResourceGroup with
    | none => rfl
    | some srg =>
      simp only [Option.map_some', List.flatMap_append, List.flatMap_singleton,
        List.append_assoc]

theorem deviceReadIndex_lt (image : Option Image) (deviceIndex : Nat) :
    deviceReadIndex image deviceIndex < 4294967296 := by
  unfold deviceReadIndex
  cases image with
  | none => exact Nat.lt_succ_self 4294967295
  | some img => exact Nat.mod_lt _ (by decide)

/-- Four bytes of a buffer that are those of a 32-bit pattern read as that pattern. -/
theorem bytesUInt32_of_getD (buffer : List Nat) (offset v : Nat) (hv : v < 4294967296)
    (hbytes : ∀ j, j < 4 → buffer.getD (offset + j) 0 = (uint32Bytes v).getD j 0) :
    bytesUInt32 buffer offset = v := by
  have h0 := hbytes 0 (by omega)
  have h1 := hbytes 1 (by omega)
  have h2 := hbytes 2 (by omega)
  have h3 := hbytes 3 (by omega)
  rw [Nat.add_zero] at h0
  unfold bytesUInt32
  rw [h0, h1, h2, h3]
  exact bytesUInt32_uint32Bytes v hv

/-- The binding table after a non-image `SetParameter` on a descriptor bound to a valid constant
slot. -/
theorem SetParameter_srg_bound (deviceCount : Nat) (self : MaterialShaderParameter)
    (index : Handle) (desc : MaterialShaderParameterDescriptor) (value : ShaderValue)
    (srg : ShaderResourceGroup) (inputIndex : Handle)
    (hdesc : self.m_layout.GetDescriptor index = some desc)
    (hsrg : self.m_shaderResourceGroup = some srg)
    (hindex : desc.m_srgInputIndex = SrgInputIndex.constantIndex inputIndex)
    (hvalid : inputIndex.IsValid = true) :
    (MaterialShaderParameter.SetParameter deviceCount self index value).2.m_shaderResourceGroup
      = some { srg with
          m_calls := srg.m_calls ++
            [SrgCall.SetConstant inputIndex (constantArgument srg inputIndex value)] } := by
  have hframe := (SetStructuredBufferData_frame deviceCount self desc value.data).2.1
  cases value <;>
    simp only [MaterialShaderParameter.SetParameter, MaterialShaderParameter.SetParameterPlain,
      MaterialShaderParameter.SetParameterBool, MaterialShaderParameter.SetVectorParameter,
      MaterialShaderParameter.SetParameterMatrix3x3, MaterialShaderParameter.SetParameterColor,
      hdesc] <;>
    first
    | exact SetMaterialSrgData_bound _ desc _ srg inputIndex (hframe.trans hsrg) hindex hvalid
    | exact SetMaterialSrgDataColor_bound _ desc _ srg inputIndex (hframe.trans hsrg) hindex
        hvalid

/-- C11. Color rule: for a color `c` and a descriptor of declared size 16 bound to a valid
constant slot of the binding table of the store, `SetParameter(index, c)` writes the four
components R, G, B, A, four bytes each in that order from `m_offset`, into the buffer of every
device below the device count, and makes one call of `SetConstant` on that slot, with the RGB
components as a `Vector3` when the slot declares exactly 12 bytes and with the whole `Color` for
any other byte count. -/
theorem color_rule (deviceCount : Nat) (self : MaterialShaderParameter) (index : Handle)
    (desc : MaterialShaderParameterDescriptor) (c : Color) (srg : ShaderResourceGroup)
    (inputIndex : Handle) (d : Nat)
    (hdesc : self.m_layout.GetDescriptor index = some desc)
    (hsize : desc.declaredSize = 16)
    (hsrg : self.m_shaderResourceGroup = some srg)
    (hindex : desc.m_srgInputIndex = SrgInputIndex.constantIndex inputIndex)
    (hvalid : inputIndex.IsValid = true) (hd : d < deviceCount) :
    (∃ buffer,
      (MaterialShaderParameter.SetParameter deviceCount self index
        (ShaderValue.color c)).2.m_structuredBufferData.lookup d = some buffer ∧
      ∀ k j, k < 4 → j < 4 →
        buffer.getD (desc.m_structuredBufferBinding.m_offset + 4 * k + j) 0
          = (uint32Bytes ([c.r, c.g, c.b, c.a].getD k 0)).getD j 0) ∧
    (MaterialShaderParameter.SetParameter deviceCount self index
      (ShaderValue.color c)).2.m_shaderResourceGroup
      = some { srg with
          m_calls := srg.m_calls ++
            [SrgCall.SetConstant inputIndex
              (if srg.m_constantByteCount inputIndex = 12 then
                ShaderValue.vector3 ⟨c.r, c.g, c.b, 0⟩
              else ShaderValue.color c)] } := by
  constructor
  · refine ⟨_, SetParameter_lookup deviceCount self index _ desc d hdesc hd, ?_⟩
    intro k j hk hj
    have hlen : (ShaderValue.color c).data.length = 16 := rfl
    rw [Nat.add_assoc, writeDeviceBuffer_getD_written desc _ _ (4 * k + j) (by omega) (by omega)]
    exact floatArrayBytes_getD [c.r, c.g, c.b, c.a] k j hk hj
  · rw [SetParameter_srg_bound deviceCount self index desc _ srg inputIndex hdesc hsrg hindex
      hvalid]
    by_cases h12 : srg.m_constantByteCount inputIndex = 12
    · simp [constantArgument, h12, Color.GetAsVector3]
    · simp [constantArgument, h12]

/-- The color (1, 2, 3, 4) set on "tint", whose slot declares 12 bytes: the alpha component is
in the buffer of the second device, and the binding table receives the `Vector3` (1, 2, 3). -/
theorem color_rule_witness :
    (∃ buffer,
      (MaterialShaderParameter.SetParameter 2 sampleStore ⟨2⟩
        (ShaderValue.color ⟨1, 2, 3, 4⟩)).2.m_structuredBufferData.lookup 1 = some buffer ∧
      ∀ k j, k < 4 → j < 4 →
        buffer.getD (sampleDescTint.m_structuredBufferBinding.m_offset + 4 * k + j) 0
          = (uint32Bytes ([1, 2, 3, 4].getD k 0)).getD j 0) ∧
    (MaterialShaderParameter.SetParameter 2 sampleStore ⟨2⟩
      (ShaderValue.color ⟨1, 2, 3, 4⟩)).2.m_shaderResourceGroup
      = some { sampleSrg with
          m_calls := sampleSrg.m_calls ++
            [SrgCall.SetConstant ⟨0⟩
              (if sampleSrg.m_constantByteCount ⟨0⟩ = 12 then
                ShaderValue.vector3 ⟨1, 2, 3, 0⟩
              else ShaderValue.color ⟨1, 2, 3, 4⟩)] } :=
  color_rule 2 sampleStore ⟨2⟩ sampleDescTint ⟨1, 2, 3, 4⟩ sampleSrg ⟨0⟩ 1 rfl rfl rfl rfl rfl
    (by decide)

/-- C12. Bindless image write: with `USE_BINDLESS_SRG`, on a known descriptor of declared size
4, `SetParameter(index, image)` returns true and leaves in the buffer of each device `d` below
the device count, from `m_offset`, the four bytes of the signed integer -1 when the image is null
and of the bindless read index of the image on device `d` otherwise (so the value may differ from
device to device); a null image raises no failure. -/
theorem bindless_image_write (deviceCount : Nat) (self : MaterialShaderParameter)
    (index : Handle) (desc : MaterialShaderParameterDescriptor) (image : Option Image) (d : Nat)
    (hdesc : self.m_layout.GetDescriptor index = some desc)
    (hsize : desc.declaredSize = 4) (hd : d < deviceCount) :
    (MaterialShaderParameter.SetParameterImage deviceCount self index image).1 = true ∧
    ∃ buffer,
      (MaterialShaderParameter.SetParameterImage deviceCount self index
        image).2.m_structuredBufferData.lookup d = some buffer ∧
      desc.m_structuredBufferBinding.m_offset + 4 ≤ buffer.length ∧
      (buffer.drop desc.m_structuredBufferBinding.m_offset).take 4
        = uint32Bytes (deviceReadIndex image d) ∧
      (image = none →
        bitsInt32 (bytesUInt32 buffer desc.m_structuredBufferBinding.m_offset) = -1) ∧
      (∀ img, image = some img →
        bytesUInt32 buffer desc.m_structuredBufferBinding.m_offset
          = img.m_bindlessReadIndex d % 4294967296) := by
  have hread : bytesUInt32
      (writeDeviceBuffer desc (uint32Bytes (deviceReadIndex image d))
        ((self.m_structuredBufferData.lookup d).getD []))
      desc.m_structuredBufferBinding.m_offset = deviceReadIndex image d := by
    apply bytesUInt32_of_getD _ _ _ (deviceReadIndex_lt image d)
    intro j hj
    exact writeDeviceBuffer_getD_written desc _ _ j (by rw [uint32Bytes_length]; omega)
      (by rw [uint32Bytes_length]; exact hj)
  simp only [MaterialShaderParameter.SetParameterImage, hdesc]
  refine ⟨trivial, writeDeviceBuffer desc (uint32Bytes (deviceReadIndex image d))
    ((self.m_structuredBufferData.lookup d).getD []), ?_, ?_, ?_, ?_, ?_⟩
  · rw [SetParameterImage_loop_lookup, if_pos hd]
  · rw [writeDeviceBuffer_length, hsize]
    omega
  · exact writeDeviceBuffer_slice_le desc (uint32Bytes (deviceReadIndex image d)) _
      (by rw [uint32Bytes_length]; omega)
  · intro hnone
    rw [hread, hnone]
    show bitsInt32 4294967295 = -1
    decide
  · intro img hsome
    rw [hread, hsome]
    rfl

/-- The image `sampleImage` set on "flag" with two devices: the buffer of device 0 holds the
read index 5, that of device 1 the read index 6. -/
theorem bindless_image_write_witness :
    (∃ buffer,
      (MaterialShaderParameter.SetParameterImage 2 sampleStore ⟨1⟩
        (some sampleImage)).2.m_structuredBufferData.lookup 0 = some buffer ∧
      bytesUInt32 buffer sampleDescFlag.m_structuredBufferBinding.m_offset = 5) ∧
    (∃ buffer,
      (MaterialShaderParameter.SetParameterImage 2 sampleStore ⟨1⟩
        (some sampleImage)).2.m_structuredBufferData.lookup 1 = some buffer ∧
      bytesUInt32 buffer sampleDescFlag.m_structuredBufferBinding.m_offset = 6) := by
  obtain ⟨_, b0, h0, _, _, _, hv0⟩ :=
    bindless_image_write 2 sampleStore ⟨1⟩ sampleDescFlag (some sampleImage) 0 rfl rfl
      (by decide)
  obtain ⟨_, b1, h1, _, _, _, hv1⟩ :=
    bindless_image_write 2 sampleStore ⟨1⟩ sampleDescFlag (some sampleImage) 1 rfl rfl
      (by decide)
  exact ⟨⟨b0, h0, hv0 sampleImage rfl⟩, ⟨b1, h1, hv1 sampleImage rfl⟩⟩

/-- C13. Bindless fallback order: with `USE_BINDLESS_SRG`, the image setter on a known
descriptor leaves the binding table (if any) with the calls it had followed, device after device,
by the calls of `imageSrgCalls`: one `SetConstant` with the read index of the device when the
binding handle is a valid constant handle, one `SetImage` with the image when it is a valid image
handle, nothing otherwise. So a turn in which the write of the read index succeeded made no
`SetImage` call, and for a given descriptor the calls are all `SetConstant` or all `SetImage`. -/
theorem bindless_fallback_order (deviceCount : Nat) (self : MaterialShaderParameter)
    (index : Handle) (desc : MaterialShaderParameterDescriptor) (image : Option Image)
    (hdesc : self.m_layout.GetDescriptor index = some desc) :
    (MaterialShaderParameter.SetParameterImage deviceCount self index
      image).2.m_shaderResourceGroup =
      self.m_shaderResourceGroup.map
        (fun srg =>
          { srg with
            m_calls := srg.m_calls ++
              (List.range deviceCount).flatMap (imageSrgCalls desc image) }) ∧
    (∀ (store : MaterialShaderParameter) (d : Nat),
      (store.SetMaterialSrgDeviceReadIndex desc d (deviceReadIndex image d)).1 = true →
      (store.SetParameterImageDevice desc image d).m_shaderResourceGroup
        = (store.SetMaterialSrgDeviceReadIndex desc d
            (deviceReadIndex image d)).2.m_shaderResourceGroup ∧
      ∀ call, call ∈ imageSrgCalls desc image d →
        ∃ inputIndex value, call = SrgCall.SetConstant inputIndex value) ∧
    ((∀ d call, call ∈ imageSrgCalls desc image d →
        ∃ inputIndex value, call = SrgCall.SetConstant inputIndex value) ∨
      (∀ d call, call ∈ imageSrgCalls desc image d →
        ∃ inputIndex, call = SrgCall.SetImage inputIndex image)) := by
  refine ⟨?_, ?_, ?_⟩
  · simp only [MaterialShaderParameter.SetParameterImage, hdesc]
    exact SetParameterImage_loop_srg deviceCount self desc image
  · intro store d hsuccess
    constructor
    · rw [SetParameterImageDevice_srg]
      unfold MaterialShaderParameter.SetMaterialSrgDeviceReadIndex at hsuccess ⊢
      unfold imageSrgCalls
      cases hsrg : store.m_shaderResourceGroup with
      | none => simp [hsrg] at hsuccess
      | some srg =>
        cases hidx : desc.m_srgInputIndex with
        | monostate => simp [hsrg, hidx] at hsuccess
        | imageIndex inputIndex => simp [hsrg, hidx] at hsuccess
        | constantIndex inputIndex =>
          by_cases hvalid : inputIndex.IsValid = true
          · simp [hvalid, ShaderResourceGroup.SetConstant]
          · simp [hsrg, hidx, hvalid] at hsuccess
    · intro call hcall
      unfold MaterialShaderParameter.SetMaterialSrgDeviceReadIndex at hsuccess
      unfold imageSrgCalls at hcall
      cases hsrg : store.m_shaderResourceGroup with
      | none => simp [hsrg] at hsuccess
      | some srg =>
        cases hidx : desc.m_srgInputIndex with
        | monostate => simp [hsrg, hidx] at hsuccess
        | imageIndex inputIndex => simp [hsrg, hidx] at hsuccess
        | constantIndex inputIndex =>
          rw [hidx] at hcall
          by_cases hvalid : inputIndex.IsValid = true
          · simp only [hvalid, if_true, List.mem_singleton] at hcall
            exact ⟨_, _, hcall⟩
          · simp [hvalid] at hcall
  · unfold imageSrgCalls
    cases desc.m_srgInputIndex with
    | monostate =>
      left
      intro d call hcall
      simp at hcall
    | constantIndex inputIndex =>
      left
      intro d call hcall
      by_cases hvalid : inputIndex.IsValid = true
      · simp only [hvalid, if_true, List.mem_singleton] at hcall
        exact ⟨_, _, hcall⟩
      · simp [hvalid] at hcall
    | imageIndex inputIndex =>
      right
      intro d call hcall
      by_cases hvalid : inputIndex.IsValid = true
      · simp only [hvalid, if_true, List.mem_singleton] at hcall
        exact ⟨_, hcall⟩
      · simp [hvalid] at hcall

/-- The image setter on "tint" (valid constant slot) with two devices: the binding table
receives two `SetConstant` calls, with the read indices 5 and 6, and no `SetImage`. -/
theorem bindless_fallback_order_witness :
    (MaterialShaderParameter.SetParameterImage 2 sampleStore ⟨2⟩
      (some sampleImage)).2.m_shaderResourceGroup =
      sampleStore.m_shaderResourceGroup.map
        (fun srg =>
          { srg with
            m_calls := srg.m_calls ++
              (List.range 2).flatMap (imageSrgCalls sampleDescTint (some sampleImage)) }) ∧
    ((sampleStore.SetParameterImageDevice sampleDescTint (some sampleImage) 0).m_shaderResourceGroup
        = (sampleStore.SetMaterialSrgDeviceReadIndex sampleDescTint 0
            (deviceReadIndex (some sampleImage) 0)).2.m_shaderResourceGroup ∧
      ∀ call, call ∈ imageSrgCalls sampleDescTint (some sampleImage) 0 →
        ∃ inputIndex value, call = SrgCall.SetConstant inputIndex value) :=
  ⟨(bindless_fallback_order 2 sampleStore ⟨2⟩ sampleDescTint (some sampleImage) rfl).1,
    (bindless_fallback_order 2 sampleStore ⟨2⟩ sampleDescTint (some sampleImage) rfl).2.1
      sampleStore 0 rfl⟩

/-- Without `USE_BINDLESS_SRG`, the image setter never writes to the packed buffers, and what it
does is the same whatever the instance handler is and returns. -/
theorem SetParameterImageNonBindless_ignores_handler
    (instanceHandler : Option MaterialInstanceHandler) (self : MaterialShaderParameter)
    (index : Handle) (image : Option Image) :
    (MaterialShaderParameter.SetParameterImageNonBindless instanceHandler self index
      image).2.m_structuredBufferData = self.m_structuredBufferData ∧
    MaterialShaderParameter.SetParameterImageNonBindless instanceHandler self index image
      = MaterialShaderParameter.SetParameterImageNonBindless none self index image := by
  unfold MaterialShaderParameter.SetParameterImageNonBindless
  cases self.m_layout.GetDescriptor index with
  | none => exact ⟨rfl, rfl⟩
  | some desc =>
    refine ⟨?_, rfl⟩
    simp only []
    split
    · rw [(SetMaterialSrgData_frame _ desc _).1, (SetMaterialSrgDataImage_frame _ desc image).1]
    · exact (SetMaterialSrgDataImage_frame _ desc image).1

/-- C14, the code at a failing input. Without `USE_BINDLESS_SRG`, on the store `scenarioStore`
(no binding table, so that binding the image fails) with an instance handler whose
`RegisterMaterialTexture` returns 7, `SetParameter(index, image)` on the 4-byte parameter "a"
returns false and leaves every device buffer as it was: the index 7 is written nowhere. A store
that wrote it would hold the bytes of 7 at offset 0 of some device buffer. -/
theorem non_bindless_image_write_drops_index :
    MaterialShaderParameter.SetParameterImageNonBindless (some sampleInstanceHandler)
      scenarioStore ⟨0⟩ (some sampleImage) = (false, scenarioStore) ∧
    (MaterialShaderParameter.SetParameterImageNonBindless (some sampleInstanceHandler)
      scenarioStore ⟨0⟩ (some sampleImage)).2.m_structuredBufferData.lookup 0 = none :=
  ⟨rfl, rfl⟩

/-- The raw view over a range that lies within the buffer is that range of the buffer. -/
theorem map_getD_range_eq_slice (buffer : List Nat) (offset size : Nat)
    (hwithin : offset + size ≤ buffer.length) :
    (List.range size).map (fun i => buffer.getD (offset + i) 0)
      = (buffer.drop offset).take size := by
  apply List.ext_getElem?
  intro k
  rw [List.getElem?_map, List.getElem?_take, List.getElem?_drop]
  by_cases hk : k < size
  · rw [List.getElem?_range hk, if_pos hk, Option.map_some', List.getD_eq_getElem?_getD,
      List.getElem?_eq_getElem (by omega : offset + k < buffer.length)]
    rfl
  · rw [if_neg hk, List.getElem?_eq_none (by simp only [List.length_range]; omega)]
    rfl

/-- C15, as stated, fails for a span longer than the declared size: `SetParameterRaw` of five
bytes on the 4-byte parameter "flag" (offset 48) of `sampleStore`, which has no buffer yet,
returns true and leaves a device buffer of 52 bytes, so that the bytes `[48, 53)` of the buffer
are not the five bytes given. -/
theorem SetParameterRaw_long_span_counterexample :
    (MaterialShaderParameter.SetParameterRaw 1 sampleStore ⟨1⟩ [1, 2, 3, 4, 5]).1 = true ∧
    (MaterialShaderParameter.SetParameterRaw 1 sampleStore ⟨1⟩
      [1, 2, 3, 4, 5]).2.m_structuredBufferData.lookup 0
      = some (List.replicate 48 0 ++ [1, 2, 3, 4]) ∧
    ((List.replicate 48 0 ++ [1, 2, 3, 4]).drop 48).take 5 ≠ [1, 2, 3, 4, 5] :=
  ⟨rfl, rfl, by decide⟩

/-- C15, amended. `SetParameterRaw` touches the buffers only: for every index and byte span it
leaves the binding table as it was; when the descriptor does not exist it returns false and the
store it was given; when the descriptor exists it returns true and, for a span no longer than
the declared size, the bytes `[m_offset, m_offset + bytes.size)` of the buffer of every device
below the device count are the bytes given, unmodified. -/
theorem SetParameterRaw_touches_buffers_only (deviceCount : Nat)
    (self : MaterialShaderParameter) (index : Handle) (bytes : List Nat) :
    (MaterialShaderParameter.SetParameterRaw deviceCount self index bytes).2.m_shaderResourceGroup
      = self.m_shaderResourceGroup ∧
    (self.m_layout.GetDescriptor index = none →
      MaterialShaderParameter.SetParameterRaw deviceCount self index bytes = (false, self)) ∧
    (∀ desc, self.m_layout.GetDescriptor index = some desc →
      (MaterialShaderParameter.SetParameterRaw deviceCount self index bytes).1 = true ∧
      (bytes.length ≤ desc.declaredSize → ∀ d, d < deviceCount →
        ∃ buffer,
          (MaterialShaderParameter.SetParameterRaw deviceCount self index
            bytes).2.m_structuredBufferData.lookup d = some buffer ∧
          (buffer.drop desc.m_structuredBufferBinding.m_offset).take bytes.length = bytes)) := by
  refine ⟨?_, ?_, ?_⟩
  · unfold MaterialShaderParameter.SetParameterRaw
    cases self.m_layout.GetDescriptor index with
    | none => rfl
    | some desc => exact (SetStructuredBufferData_frame deviceCount self desc bytes).2.1
  · intro hnone
    simp only [MaterialShaderParameter.SetParameterRaw, hnone]
  · intro desc hdesc
    simp only [MaterialShaderParameter.SetParameterRaw, hdesc]
    refine ⟨trivial, ?_⟩
    intro hlen d hd
    refine ⟨writeDeviceBuffer desc bytes ((self.m_structuredBufferData.lookup d).getD []), ?_,
      writeDeviceBuffer_slice_le desc bytes _ hlen⟩
    rw [SetStructuredBufferData_lookup, if_pos hd]

/-- The raw write of four bytes on "flag", and a raw write on an index without descriptor. -/
theorem SetParameterRaw_touches_buffers_only_witness :
    (∃ buffer,
      (MaterialShaderParameter.SetParameterRaw 2 sampleStore ⟨1⟩
        [9, 8, 7, 6]).2.m_structuredBufferData.lookup 1 = some buffer ∧
      (buffer.drop sampleDescFlag.m_structuredBufferBinding.m_offset).take
        [9, 8, 7, 6].length = [9, 8, 7, 6]) ∧
    MaterialShaderParameter.SetParameterRaw 2 sampleStore ⟨3⟩ [9, 8, 7, 6]
      = (false, sampleStore) :=
  ⟨((SetParameterRaw_touches_buffers_only 2 sampleStore ⟨1⟩ [9, 8, 7, 6]).2.2 sampleDescFlag
      rfl).2 (by decide) 1 (by decide),
    (SetParameterRaw_touches_buffers_only 2 sampleStore ⟨3⟩ [9, 8, 7, 6]).2.1 rfl⟩

/-- C16. `GetShaderParameterData<T>(index, d)`, for a `T` of `sizeofT` bytes, returns the
zero-initialised `T` when the index has no descriptor, when the declared size of the descriptor
differs from `sizeof(T)`, and when device `d` has no buffer; when the descriptor exists with
declared size `sizeof(T)` and the device has a buffer, it returns the bytes of the raw view of
the descriptor, reinterpreted. -/
theorem GetShaderParameterData_cases (sizeofT : Nat) (self : MaterialShaderParameter)
    (index : Handle) (d : Nat) :
    (self.m_layout.GetDescriptor index = none →
      self.GetShaderParameterData sizeofT index d = List.replicate sizeofT 0) ∧
    (∀ desc, self.m_layout.GetDescriptor index = some desc →
      (desc.declaredSize ≠ sizeofT →
        self.GetShaderParameterData sizeofT index d = List.replicate sizeofT 0) ∧
      (self.m_structuredBufferData.lookup d = none →
        self.GetShaderParameterData sizeofT index d = List.replicate sizeofT 0) ∧
      (∀ buffer, desc.declaredSize = sizeofT →
        self.m_structuredBufferData.lookup d = some buffer →
        self.GetShaderParameterData sizeofT index d
          = self.GetRawBufferParameterData (some desc) d ∧
        self.GetShaderParameterData sizeofT index d
          = (List.range sizeofT).map
              (fun i => buffer.getD (desc.m_structuredBufferBinding.m_offset + i) 0))) := by
  constructor
  · intro hnone
    simp only [MaterialShaderParameter.GetShaderParameterData, hnone]
  · intro desc hdesc
    simp only [MaterialShaderParameter.GetShaderParameterData, hdesc,
      MaterialShaderParameter.GetRawBufferParameterData]
    refine ⟨?_, ?_, ?_⟩
    · intro hsize
      cases self.m_structuredBufferData.lookup d with
      | none =>
        by_cases h0 : sizeofT = 0
        · subst h0
          simp
        · simp [h0]
      | some buffer =>
        have hne : ¬ sizeofT = desc.m_structuredBufferBinding.m_elementSize *
            desc.m_structuredBufferBinding.m_elementCount := fun h => hsize h.symm
        simp [hne]
    · intro hnone
      rw [hnone]
      by_cases h0 : sizeofT = 0
      · subst h0
        simp
      · simp [h0]
    · intro buffer hsize hsome
      have hsz : desc.m_structuredBufferBinding.m_elementSize *
          desc.m_structuredBufferBinding.m_elementCount = sizeofT := hsize
      rw [hsome, hsz]
      simp

/-- The read of four bytes on "b", whose declared size is 12, and on a device without buffer. -/
theorem GetShaderParameterData_cases_witness :
    scenarioStore.GetShaderParameterData 4 ⟨1⟩ 0 = List.replicate 4 0 ∧
    scenarioStore.GetShaderParameterData 4 ⟨0⟩ 0 = List.replicate 4 0 ∧
    scenarioStore.GetShaderParameterData 4 ⟨2⟩ 0 = List.replicate 4 0 ∧
    (MaterialShaderParameter.SetParameterRaw 1 scenarioStore ⟨0⟩
      [9, 8, 7, 6]).2.GetShaderParameterData 4 ⟨0⟩ 0
      = (List.range 4).map
          (fun i => [9, 8, 7, 6].getD (scenarioDescA.m_structuredBufferBinding.m_offset + i) 0) :=
  ⟨((GetShaderParameterData_cases 4 scenarioStore ⟨1⟩ 0).2 scenarioDescB rfl).1 (by decide),
    ((GetShaderParameterData_cases 4 scenarioStore ⟨0⟩ 0).2 scenarioDescA rfl).2.1 rfl,
    (GetShaderParameterData_cases 4 scenarioStore ⟨2⟩ 0).1 rfl,
    (((GetShaderParameterData_cases 4
      (MaterialShaderParameter.SetParameterRaw 1 scenarioStore ⟨0⟩ [9, 8, 7, 6]).2 ⟨0⟩ 0).2
        scenarioDescA rfl).2.2 [9, 8, 7, 6] rfl rfl).2⟩

/-- C17. `GetRawBufferParameterData(desc, d)` returns, when device `d` has a buffer, a view of
exactly `m_elementSize * m_elementCount` bytes whose byte `i` is the byte `m_offset + i` of that
buffer (the range `[m_offset, m_offset + size)` of the buffer when it lies within it); it returns
the empty view when device `d` has no buffer or `desc` is null. It is a function of the store
that returns the view only: the store is not modified. -/
theorem GetRawBufferParameterData_view (self : MaterialShaderParameter)
    (desc : MaterialShaderParameterDescriptor) (d : Nat) :
    (∀ buffer, self.m_structuredBufferData.lookup d = some buffer →
      (self.GetRawBufferParameterData (some desc) d).length = desc.declaredSize ∧
      (∀ i, i < desc.declaredSize →
        desc.m_structuredBufferBinding.m_offset + i < buffer.length →
        (self.GetRawBufferParameterData (some desc) d)[i]?
          = buffer[desc.m_structuredBufferBinding.m_offset + i]?) ∧
      (desc.m_structuredBufferBinding.m_offset + desc.declaredSize ≤ buffer.length →
        self.GetRawBufferParameterData (some desc) d
          = (buffer.drop desc.m_structuredBufferBinding.m_offset).take desc.declaredSize)) ∧
    (self.m_structuredBufferData.lookup d = none →
      self.GetRawBufferParameterData (some desc) d = []) ∧
    self.GetRawBufferParameterData none d = [] := by
  refine ⟨?_, ?_, rfl⟩
  · intro buffer hsome
    simp only [MaterialShaderParameter.GetRawBufferParameterData, hsome,
      MaterialShaderParameterDescriptor.declaredSize]
    refine ⟨by simp, ?_, ?_⟩
    · intro i hi hwithin
      rw [List.getElem?_map, List.getElem?_range hi, Option.map_some',
        List.getD_eq_getElem?_getD, List.getElem?_eq_getElem hwithin]
      rfl
    · intro hwithin
      exact map_getD_range_eq_slice buffer _ _ hwithin
  · intro hnone
    simp only [MaterialShaderParameter.GetRawBufferParameterData, hnone]

/-- The raw view of "b" (offset 16, 12 bytes) on device 0 of `filledStore`, and on device 1,
which has no buffer. -/
theorem GetRawBufferParameterData_view_witness :
    filledStore.GetRawBufferParameterData (some scenarioDescB) 0
      = ((List.range 32).drop scenarioDescB.m_structuredBufferBinding.m_offset).take
          scenarioDescB.declaredSize ∧
    filledStore.GetRawBufferParameterData (some scenarioDescB) 1 = [] :=
  ⟨((GetRawBufferParameterData_view filledStore scenarioDescB 0).1 (List.range 32) rfl).2.2
      (by decide),
    (GetRawBufferParameterData_view filledStore scenarioDescB 1).2.1 rfl⟩

/-- C18. Buffer growth: after the per-device write of a descriptor with
`end = m_offset + m_elementSize * m_elementCount`, the device has a buffer whose length is the
larger of its previous length (0 if it had no buffer) and `end`; every position in
`[previous length, end)` outside the range of the data written holds zero, and every position
below the previous length outside that range holds what it held. -/
theorem buffer_growth (self : MaterialShaderParameter)
    (desc : MaterialShaderParameterDescriptor) (deviceData : List Nat) (deviceIndex : Nat) :
    ∃ buffer,
      (self.SetStructuredBufferDataDevice desc deviceData
        deviceIndex).m_structuredBufferData.lookup deviceIndex = some buffer ∧
      buffer.length =
        max ((self.m_structuredBufferData.lookup deviceIndex).getD []).length
          (desc.m_structuredBufferBinding.m_offset + desc.declaredSize) ∧
      (∀ i, ((self.m_structuredBufferData.lookup deviceIndex).getD []).length ≤ i →
        i < desc.m_structuredBufferBinding.m_offset + desc.declaredSize →
        (i < desc.m_structuredBufferBinding.m_offset ∨
          desc.m_structuredBufferBinding.m_offset + deviceData.length ≤ i) →
        buffer[i]? = some 0) ∧
      (∀ i, i < ((self.m_structuredBufferData.lookup deviceIndex).getD []).length →
        (i < desc.m_structuredBufferBinding.m_offset ∨
          desc.m_structuredBufferBinding.m_offset + deviceData.length ≤ i) →
        buffer[i]? = ((self.m_structuredBufferData.lookup deviceIndex).getD [])[i]?) := by
  refine ⟨_, ?_, writeDeviceBuffer_length desc deviceData _, ?_, ?_⟩
  · rw [SetStructuredBufferDataDevice_buffers, DeviceBuffers.lookup_assign_same]
  · intro i hold hend houtside
    rw [writeDeviceBuffer_getElem?_outside desc deviceData _ i houtside, if_neg (by omega),
      if_pos hend]
  · intro i hold houtside
    rw [writeDeviceBuffer_getElem?_outside desc deviceData _ i houtside, if_pos hold]

/-- The write of two bytes on "b" (offset 16, 12 bytes) of a store without buffer: position 4,
below the offset, and position 20, past the data, hold zero. -/
theorem buffer_growth_witness :
    ∃ buffer,
      (scenarioStore.SetStructuredBufferDataDevice scenarioDescB [7, 7]
        0).m_structuredBufferData.lookup 0 = some buffer ∧
      buffer.length = 28 ∧ buffer[4]? = some 0 ∧ buffer[20]? = some 0 := by
  obtain ⟨buffer, hlookup, hlength, hzero, _⟩ :=
    buffer_growth scenarioStore scenarioDescB [7, 7] 0
  exact ⟨buffer, hlookup, hlength,
    hzero 4 (Nat.zero_le 4) (by decide) (Or.inl (by decide)),
    hzero 20 (Nat.zero_le 20) (by decide) (Or.inr (by decide))⟩

/-! ## Lemmas on construction and on sequences of writes -/

theorem resizeVector_nil (newSize : Nat) : resizeVector [] newSize = List.replicate newSize 0 := by
  simp [resizeVector]

/-- The store after the first part of the constructor, for a layout with a last descriptor. -/
theorem constructSized_spec (deviceCount : Nat) (materialTypeIndex materialInstanceIndex : Int)
    (layout : MaterialShaderParameterLayout) (srg : Option ShaderResourceGroup)
    (last : MaterialShaderParameterDescriptor)
    (hlast : layout.m_descriptors.getLast? = some last) (d : Nat) :
    let sized := MaterialShaderParameter.constructSized deviceCount materialTypeIndex
      materialInstanceIndex layout srg
    sized.m_layout = layout ∧ sized.m_materialTypeIndex = materialTypeIndex ∧
      sized.m_materialInstanceIndex = materialInstanceIndex ∧
      sized.m_structuredBufferData.lookup d =
        if d < deviceCount then
          some (List.replicate (last.m_structuredBufferBinding.m_offset + last.declaredSize) 0)
        else none := by
  simp only [MaterialShaderParameter.constructSized, hlast,
    MaterialShaderParameterDescriptor.declaredSize]
  induction deviceCount with
  | zero => exact ⟨rfl, rfl, rfl, rfl⟩
  | succ n ih =>
    rw [List.range_succ, List.foldl_append, List.foldl_cons, List.foldl_nil]
    obtain ⟨h1, h2, h3, h4⟩ := ih
    refine ⟨h1, h2, h3, ?_⟩
    by_cases hdn : d = n
    · subst hdn
      rw [DeviceBuffers.lookup_assign_same, h4]
      simp [resizeVector_nil]
    · rw [DeviceBuffers.lookup_assign_other _ _ _ _ hdn, h4]
      by_cases h2 : d < n
      · have h3 : d < n + 1 := by omega
        simp [h2, h3]
      · have h3 : ¬ d < n + 1 := by omega
        simp [h2, h3]

/-- The indices of the store are left alone by a non-image `SetParameter`. -/
theorem SetParameter_indices (deviceCount : Nat) (self : MaterialShaderParameter) (index : Handle)
    (value : ShaderValue) :
    (MaterialShaderParameter.SetParameter deviceCount self index value).2.m_materialTypeIndex
        = self.m_materialTypeIndex ∧
      (MaterialShaderParameter.SetParameter deviceCount self index
        value).2.m_materialInstanceIndex = self.m_materialInstanceIndex := by
  cases hdesc : self.m_layout.GetDescriptor index with
  | none => rw [SetParameter_none deviceCount self index value hdesc]; exact ⟨rfl, rfl⟩
  | some desc =>
    have hframe : ∀ data, (MaterialShaderParameter.SetStructuredBufferData deviceCount self desc
        data).m_materialTypeIndex = self.m_materialTypeIndex ∧
        (MaterialShaderParameter.SetStructuredBufferData deviceCount self desc
          data).m_materialInstanceIndex = self.m_materialInstanceIndex :=
      fun data => (SetStructuredBufferData_frame deviceCount self desc data).2.2
    have hsrg : ∀ (store : MaterialShaderParameter) (v : ShaderValue),
        (store.SetMaterialSrgData desc v).2.m_materialTypeIndex = store.m_materialTypeIndex ∧
        (store.SetMaterialSrgData desc v).2.m_materialInstanceIndex
          = store.m_materialInstanceIndex := by
      intro store v
      unfold MaterialShaderParameter.SetMaterialSrgData
      split
      · exact ⟨rfl, rfl⟩
      · split
        · split <;> exact ⟨rfl, rfl⟩
        · exact ⟨rfl, rfl⟩
    have hcolor : ∀ (store : MaterialShaderParameter) (c : Color),
        (store.SetMaterialSrgDataColor desc c).2.m_materialTypeIndex = store.m_materialTypeIndex ∧
        (store.SetMaterialSrgDataColor desc c).2.m_materialInstanceIndex
          = store.m_materialInstanceIndex := by
      intro store c
      unfold MaterialShaderParameter.SetMaterialSrgDataColor
      split
      · exact ⟨rfl, rfl⟩
      · split
        · split <;> exact ⟨rfl, rfl⟩
        · exact ⟨rfl, rfl⟩
    cases value <;>
      simp only [MaterialShaderParameter.SetParameter, MaterialShaderParameter.SetParameterPlain,
        MaterialShaderParameter.SetParameterBool, MaterialShaderParameter.SetVectorParameter,
        MaterialShaderParameter.SetParameterMatrix3x3, MaterialShaderParameter.SetParameterColor,
        hdesc, hsrg, hcolor, hframe, and_self]

/-- The typed read of a descriptor whose range lies within the buffer of the device is that
range of the buffer. -/
theorem GetShaderParameterData_of_lookup (self : MaterialShaderParameter) (index : Handle)
    (desc : MaterialShaderParameterDescriptor) (d : Nat) (buffer : List Nat)
    (hdesc : self.m_layout.GetDescriptor index = some desc)
    (hlookup : self.m_structuredBufferData.lookup d = some buffer)
    (hwithin : desc.m_structuredBufferBinding.m_offset + desc.declaredSize ≤ buffer.length) :
    self.GetShaderParameterData desc.declaredSize index d
      = (buffer.drop desc.m_structuredBufferBinding.m_offset).take desc.declaredSize := by
  have hsz : desc.m_structuredBufferBinding.m_elementSize *
      desc.m_structuredBufferBinding.m_elementCount = desc.declaredSize := rfl
  simp only [MaterialShaderParameter.GetShaderParameterData, hdesc,
    MaterialShaderParameter.GetRawBufferParameterData, hlookup, hsz]
  rw [map_getD_range_eq_slice buffer _ _ hwithin]
  have hlen : ((buffer.drop desc.m_structuredBufferBinding.m_offset).take
      desc.declaredSize).length = desc.declaredSize := by
    rw [List.length_take, List.length_drop]
    omega
  simp [hlen]

theorem bitsInt32_int32Bits (value : Int) (hlow : -2147483648 ≤ value)
    (hhigh : value < 2147483648) : bitsInt32 (int32Bits value) = value := by
  unfold bitsInt32 int32Bits
  split <;> omega

theorem int32Bits_lt (value : Int) : int32Bits value < 4294967296 := by
  unfold int32Bits
  omega

/-- Two non-image writes in a row: the layout is kept and the buffer of a device below the device
count is written twice. -/
theorem SetParameter_twice_lookup (deviceCount : Nat) (self : MaterialShaderParameter)
    (indexA indexB : Handle) (descA descB : MaterialShaderParameterDescriptor)
    (valueA valueB : ShaderValue) (d : Nat)
    (hA : self.m_layout.GetDescriptor indexA = some descA)
    (hB : self.m_layout.GetDescriptor indexB = some descB) (hd : d < deviceCount) :
    (MaterialShaderParameter.SetParameter deviceCount
        (MaterialShaderParameter.SetParameter deviceCount self indexA valueA).2 indexB
        valueB).2.m_layout = self.m_layout ∧
      (MaterialShaderParameter.SetParameter deviceCount
        (MaterialShaderParameter.SetParameter deviceCount self indexA valueA).2 indexB
        valueB).2.m_structuredBufferData.lookup d =
        some (writeDeviceBuffer descB valueB.data
          (writeDeviceBuffer descA valueA.data
            ((self.m_structuredBufferData.lookup d).getD []))) := by
  have hlayout := (SetParameter_buffers deviceCount self indexA valueA descA hA).2
  have hB2 : (MaterialShaderParameter.SetParameter deviceCount self indexA
      valueA).2.m_layout.GetDescriptor indexB = some descB := by
    rw [hlayout]; exact hB
  constructor
  · rw [(SetParameter_buffers deviceCount _ indexB valueB descB hB2).2, hlayout]
  · rw [SetParameter_lookup deviceCount _ indexB valueB descB d hB2 hd,
      SetParameter_lookup deviceCount self indexA valueA descA d hA hd, Option.getD_some]

/-- Two writes of four bytes at disjoint places of a buffer of zeros that holds both places. -/
theorem writeDeviceBuffer_twice_zeros (descA descB : MaterialShaderParameterDescriptor)
    (dataA dataB : List Nat) (total : Nat)
    (hAsize : descA.declaredSize = 4) (hBsize : descB.declaredSize = 4)
    (hAdata : dataA.length = 4) (hBdata : dataB.length = 4)
    (hdisjoint : descA.m_structuredBufferBinding.m_offset + 4
        ≤ descB.m_structuredBufferBinding.m_offset ∨
      descB.m_structuredBufferBinding.m_offset + 4 ≤ descA.m_structuredBufferBinding.m_offset)
    (hAend : descA.m_structuredBufferBinding.m_offset + 4 ≤ total)
    (hBend : descB.m_structuredBufferBinding.m_offset + 4 ≤ total) :
    (writeDeviceBuffer descB dataB
      (writeDeviceBuffer descA dataA (List.replicate total 0))).length = total ∧
    ((writeDeviceBuffer descB dataB
      (writeDeviceBuffer descA dataA (List.replicate total 0))).drop
        descA.m_structuredBufferBinding.m_offset).take 4 = dataA ∧
    ((writeDeviceBuffer descB dataB
      (writeDeviceBuffer descA dataA (List.replicate total 0))).drop
        descB.m_structuredBufferBinding.m_offset).take 4 = dataB ∧
    ∀ i, i < total →
      (i < descA.m_structuredBufferBinding.m_offset ∨
        descA.m_structuredBufferBinding.m_offset + 4 ≤ i) →
      (i < descB.m_structuredBufferBinding.m_offset ∨
        descB.m_structuredBufferBinding.m_offset + 4 ≤ i) →
      (writeDeviceBuffer descB dataB
        (writeDeviceBuffer descA dataA (List.replicate total 0)))[i]? = some 0 := by
  have hlenA : (writeDeviceBuffer descA dataA (List.replicate total 0)).length = total := by
    rw [writeDeviceBuffer_length, hAsize, List.length_replicate]
    omega
  refine ⟨?_, ?_, ?_, ?_⟩
  · rw [writeDeviceBuffer_length, hBsize, hlenA]
    omega
  · rw [writeDeviceBuffer_slice_disjoint descB dataB _ _ 4 (by omega) (by omega)]
    have h := writeDeviceBuffer_slice_le descA dataA (List.replicate total 0) (by omega)
    rw [hAdata] at h
    exact h
  · have h := writeDeviceBuffer_slice_le descB dataB
      (writeDeviceBuffer descA dataA (List.replicate total 0)) (by omega)
    rw [hBdata] at h
    exact h
  · intro i hi hA hB
    rw [writeDeviceBuffer_getElem?_outside descB dataB _ i (by omega), if_pos (by omega),
      writeDeviceBuffer_getElem?_outside descA dataA _ i (by omega),
      if_pos (by rw [List.length_replicate]; exact hi), List.getElem?_replicate, if_pos hi]

/-- The layout of the store is left alone by a non-image `SetParameter`. -/
theorem SetParameter_layout (deviceCount : Nat) (self : MaterialShaderParameter) (index : Handle)
    (value : ShaderValue) :
    (MaterialShaderParameter.SetParameter deviceCount self index value).2.m_layout
      = self.m_layout := by
  cases hdesc : self.m_layout.GetDescriptor index with
  | none => rw [SetParameter_none deviceCount self index value hdesc]
  | some desc => exact (SetParameter_buffers deviceCount self index value desc hdesc).2

/-- The first part of the constructor sets the layout and the indices as given. -/
theorem constructSized_frame (deviceCount : Nat) (materialTypeIndex materialInstanceIndex : Int)
    (layout : MaterialShaderParameterLayout) (srg : Option ShaderResourceGroup) :
    (MaterialShaderParameter.constructSized deviceCount materialTypeIndex materialInstanceIndex
        layout srg).m_layout = layout ∧
      (MaterialShaderParameter.constructSized deviceCount materialTypeIndex materialInstanceIndex
        layout srg).m_materialTypeIndex = materialTypeIndex ∧
      (MaterialShaderParameter.constructSized deviceCount materialTypeIndex materialInstanceIndex
        layout srg).m_materialInstanceIndex = materialInstanceIndex := by
  cases hlast : layout.m_descriptors.getLast? with
  | none =>
    simp only [MaterialShaderParameter.constructSized, hlast, and_self]
  | some last =>
    obtain ⟨h1, h2, h3, _⟩ := constructSized_spec deviceCount materialTypeIndex
      materialInstanceIndex layout srg last hlast 0
    exact ⟨h1, h2, h3⟩

/-- The constructor is its first part followed by the two writes of the bookkeeping fields, at
the indices the layout gives to their names. -/
theorem construct_eq (deviceCount : Nat) (materialTypeIndex materialInstanceIndex : Int)
    (layout : MaterialShaderParameterLayout) (srg : Option ShaderResourceGroup) :
    MaterialShaderParameter.construct deviceCount materialTypeIndex materialInstanceIndex layout
        srg =
      (MaterialShaderParameter.SetParameter deviceCount
        (MaterialShaderParameter.SetParameter deviceCount
          (MaterialShaderParameter.constructSized deviceCount materialTypeIndex
            materialInstanceIndex layout srg)
          (layout.GetParameterIndex "m_materialType")
          (ShaderValue.plain (uint32Bytes (int32Bits materialTypeIndex)))).2
        (layout.GetParameterIndex "m_materialInstance")
        (ShaderValue.plain (uint32Bytes (int32Bits materialInstanceIndex)))).2 := by
  obtain ⟨h1, h2, h3⟩ := constructSized_frame deviceCount materialTypeIndex
    materialInstanceIndex layout srg
  simp only [MaterialShaderParameter.construct, name_and_index_agree_aux, SetParameter_layout,
    (SetParameter_indices _ _ _ _).2, h1, h2, h3]

/-- C19. Construction writes the bookkeeping fields: for a non-empty layout, every descriptor of
which ends at or before the end of the last one (the layout invariant on which the constructor
sizes the buffers from `GetDescriptors().back()`), that holds 4-byte descriptors named
"m_materialType" and "m_materialInstance" at non-overlapping offsets, the store constructed with
`(typeIndex, instanceIndex)` has, for every device `d` below the device count, a buffer of length
`last.m_offset + last.m_elementSize * last.m_elementCount` in which
`GetShaderParameterData<int>` of "m_materialType" is `typeIndex`, that of "m_materialInstance" is
`instanceIndex`, and every other byte is zero. -/
theorem construction_writes_bookkeeping (deviceCount : Nat) (typeIndex instanceIndex : Int)
    (layout : MaterialShaderParameterLayout) (srg : Option ShaderResourceGroup)
    (last descType descInstance : MaterialShaderParameterDescriptor) (d : Nat)
    (hlast : layout.m_descriptors.getLast? = some last)
    (hT : layout.GetDescriptor (layout.GetParameterIndex "m_materialType") = some descType)
    (hI : layout.GetDescriptor (layout.GetParameterIndex "m_materialInstance")
      = some descInstance)
    (hTsize : descType.declaredSize = 4) (hIsize : descInstance.declaredSize = 4)
    (hdisjoint : descType.m_structuredBufferBinding.m_offset + 4
        ≤ descInstance.m_structuredBufferBinding.m_offset ∨
      descInstance.m_structuredBufferBinding.m_offset + 4
        ≤ descType.m_structuredBufferBinding.m_offset)
    (hends : ∀ desc, desc ∈ layout.m_descriptors →
      desc.m_structuredBufferBinding.m_offset + desc.declaredSize
        ≤ last.m_structuredBufferBinding.m_offset + last.declaredSize)
    (htype : -2147483648 ≤ typeIndex ∧ typeIndex < 2147483648)
    (hinstance : -2147483648 ≤ instanceIndex ∧ instanceIndex < 2147483648)
    (hd : d < deviceCount) :
    ∃ buffer,
      (MaterialShaderParameter.construct deviceCount typeIndex instanceIndex layout
        srg).m_structuredBufferData.lookup d = some buffer ∧
      buffer.length = last.m_structuredBufferBinding.m_offset + last.declaredSize ∧
      bitsInt32 ((MaterialShaderParameter.construct deviceCount typeIndex instanceIndex layout
        srg).GetShaderParameterDataUInt32 (layout.GetParameterIndex "m_materialType") d)
        = typeIndex ∧
      bitsInt32 ((MaterialShaderParameter.construct deviceCount typeIndex instanceIndex layout
        srg).GetShaderParameterDataUInt32 (layout.GetParameterIndex "m_materialInstance") d)
        = instanceIndex ∧
      ∀ i, i < buffer.length →
        (i < descType.m_structuredBufferBinding.m_offset ∨
          descType.m_structuredBufferBinding.m_offset + 4 ≤ i) →
        (i < descInstance.m_structuredBufferBinding.m_offset ∨
          descInstance.m_structuredBufferBinding.m_offset + 4 ≤ i) →
        buffer[i]? = some 0 := by
  have hTend : descType.m_structuredBufferBinding.m_offset + 4
      ≤ last.m_structuredBufferBinding.m_offset + last.declaredSize := by
    have hend := hends descType (GetDescriptor_mem layout _ descType hT)
    rw [hTsize] at hend
    exact hend
  have hIend : descInstance.m_structuredBufferBinding.m_offset + 4
      ≤ last.m_structuredBufferBinding.m_offset + last.declaredSize := by
    have hend := hends descInstance (GetDescriptor_mem layout _ descInstance hI)
    rw [hIsize] at hend
    exact hend
  obtain ⟨hsl, _, _, hsb⟩ := constructSized_spec deviceCount typeIndex instanceIndex layout srg
    last hlast d
  rw [if_pos hd] at hsb
  rw [construct_eq]
  obtain ⟨hlayout, hlookup⟩ := SetParameter_twice_lookup deviceCount
    (MaterialShaderParameter.constructSized deviceCount typeIndex instanceIndex layout srg)
    (layout.GetParameterIndex "m_materialType") (layout.GetParameterIndex "m_materialInstance")
    descType descInstance (ShaderValue.plain (uint32Bytes (int32Bits typeIndex)))
    (ShaderValue.plain (uint32Bytes (int32Bits instanceIndex))) d
    (by rw [hsl]; exact hT) (by rw [hsl]; exact hI) hd
  rw [hsb, Option.getD_some] at hlookup
  simp only [ShaderValue.data] at hlookup
  rw [hsl] at hlayout
  obtain ⟨hlen, hsliceT, hsliceI, hzero⟩ := writeDeviceBuffer_twice_zeros descType descInstance
    (uint32Bytes (int32Bits typeIndex)) (uint32Bytes (int32Bits instanceIndex))
    (last.m_structuredBufferBinding.m_offset + last.declaredSize) hTsize hIsize rfl rfl
    hdisjoint hTend hIend
  have hgetT := GetShaderParameterData_of_lookup _ (layout.GetParameterIndex "m_materialType")
    descType d _ (by rw [hlayout]; exact hT) hlookup
    (by rw [hlen, hTsize]; exact hTend)
  have hgetI := GetShaderParameterData_of_lookup _
    (layout.GetParameterIndex "m_materialInstance") descInstance d _
    (by rw [hlayout]; exact hI) hlookup
    (by rw [hlen, hIsize]; exact hIend)
  rw [hTsize] at hgetT
  rw [hIsize] at hgetI
  refine ⟨_, hlookup, hlen, ?_, ?_, ?_⟩
  · unfold MaterialShaderParameter.GetShaderParameterDataUInt32
    rw [hgetT, hsliceT, bytesUInt32_uint32Bytes _ (int32Bits_lt typeIndex)]
    exact bitsInt32_int32Bits typeIndex htype.1 htype.2
  · unfold MaterialShaderParameter.GetShaderParameterDataUInt32
    rw [hgetI, hsliceI, bytesUInt32_uint32Bytes _ (int32Bits_lt instanceIndex)]
    exact bitsInt32_int32Bits instanceIndex hinstance.1 hinstance.2
  · intro i hi hiT hiI
    exact hzero i (by omega) hiT hiI

/-- The store constructed with (5, -9) against `orderedLayout` on the second of two devices. -/
theorem construction_writes_bookkeeping_witness :
    ∃ buffer,
      (MaterialShaderParameter.construct 2 5 (-9) orderedLayout
        none).m_structuredBufferData.lookup 1 = some buffer ∧
      buffer.length = bookkeepingDescColor.m_structuredBufferBinding.m_offset
        + bookkeepingDescColor.declaredSize ∧
      bitsInt32 ((MaterialShaderParameter.construct 2 5 (-9) orderedLayout
        none).GetShaderParameterDataUInt32 (orderedLayout.GetParameterIndex "m_materialType") 1)
        = 5 ∧
      bitsInt32 ((MaterialShaderParameter.construct 2 5 (-9) orderedLayout
        none).GetShaderParameterDataUInt32
          (orderedLayout.GetParameterIndex "m_materialInstance") 1) = -9 ∧
      ∀ i, i < buffer.length →
        (i < bookkeepingDescType.m_structuredBufferBinding.m_offset ∨
          bookkeepingDescType.m_structuredBufferBinding.m_offset + 4 ≤ i) →
        (i < bookkeepingDescInstance.m_structuredBufferBinding.m_offset ∨
          bookkeepingDescInstance.m_structuredBufferBinding.m_offset + 4 ≤ i) →
        buffer[i]? = some 0 :=
  construction_writes_bookkeeping 2 5 (-9) orderedLayout none bookkeepingDescColor
    bookkeepingDescType bookkeepingDescInstance 1 rfl rfl rfl rfl rfl (by decide) (by decide)
    (by decide) (by decide) (by decide)

/-- A device buffer that exists is still there, and no shorter, after the write to all devices. -/
theorem SetStructuredBufferData_lookup_mono (deviceCount : Nat) (self : MaterialShaderParameter)
    (desc : MaterialShaderParameterDescriptor) (data : List Nat) (d : Nat) (buffer : List Nat)
    (hlookup : self.m_structuredBufferData.lookup d = some buffer) :
    ∃ after,
      (MaterialShaderParameter.SetStructuredBufferData deviceCount self desc
        data).m_structuredBufferData.lookup d = some after ∧
      buffer.length ≤ after.length := by
  rw [SetStructuredBufferData_lookup, hlookup]
  by_cases hd : d < deviceCount
  · rw [if_pos hd]
    refine ⟨_, rfl, ?_⟩
    rw [writeDeviceBuffer_length, Option.getD_some]
    omega
  · rw [if_neg hd]
    exact ⟨buffer, rfl, Nat.le_refl _⟩

/-- A device buffer that exists is still there, and no shorter, after a non-image
`SetParameter`. -/
theorem SetParameter_lookup_mono (deviceCount : Nat) (self : MaterialShaderParameter)
    (index : Handle) (value : ShaderValue) (d : Nat) (buffer : List Nat)
    (hlookup : self.m_structuredBufferData.lookup d = some buffer) :
    ∃ after,
      (MaterialShaderParameter.SetParameter deviceCount self index
        value).2.m_structuredBufferData.lookup d = some after ∧
      buffer.length ≤ after.length := by
  cases hdesc : self.m_layout.GetDescriptor index with
  | none =>
    rw [SetParameter_none deviceCount self index value hdesc]
    exact ⟨buffer, hlookup, Nat.le_refl _⟩
  | some desc =>
    rw [(SetParameter_buffers deviceCount self index value desc hdesc).1]
    exact SetStructuredBufferData_lookup_mono deviceCount self desc value.data d buffer hlookup

/-- A device buffer that exists is still there, and no shorter, after the image setter. -/
theorem SetParameterImage_lookup_mono (deviceCount : Nat) (self : MaterialShaderParameter)
    (index : Handle) (image : Option Image) (d : Nat) (buffer : List Nat)
    (hlookup : self.m_structuredBufferData.lookup d = some buffer) :
    ∃ after,
      (MaterialShaderParameter.SetParameterImage deviceCount self index
        image).2.m_structuredBufferData.lookup d = some after ∧
      buffer.length ≤ after.length := by
  unfold MaterialShaderParameter.SetParameterImage
  cases self.m_layout.GetDescriptor index with
  | none => exact ⟨buffer, hlookup, Nat.le_refl _⟩
  | some desc =>
    simp only []
    rw [SetParameterImage_loop_lookup, hlookup]
    by_cases hd : d < deviceCount
    · rw [if_pos hd]
      refine ⟨_, rfl, ?_⟩
      rw [writeDeviceBuffer_length, Option.getD_some]
      omega
    · rw [if_neg hd]
      exact ⟨buffer, rfl, Nat.le_refl _⟩

/-- A device buffer that exists is still there, and no shorter, after any one write. -/
theorem applyWrite_lookup_mono (deviceCount : Nat) (self : MaterialShaderParameter)
    (call : WriteCall) (d : Nat) (buffer : List Nat)
    (hlookup : self.m_structuredBufferData.lookup d = some buffer) :
    ∃ after,
      (self.applyWrite deviceCount call).m_structuredBufferData.lookup d = some after ∧
      buffer.length ≤ after.length := by
  cases call with
  | setParameter index value =>
    exact SetParameter_lookup_mono deviceCount self index value d buffer hlookup
  | setParameterByName name value =>
    simp only [MaterialShaderParameter.applyWrite, name_and_index_agree_aux]
    exact SetParameter_lookup_mono deviceCount self _ value d buffer hlookup
  | setParameterRaw index data =>
    simp only [MaterialShaderParameter.applyWrite, MaterialShaderParameter.SetParameterRaw]
    cases self.m_layout.GetDescriptor index with
    | none => exact ⟨buffer, hlookup, Nat.le_refl _⟩
    | some desc =>
      exact SetStructuredBufferData_lookup_mono deviceCount self desc data d buffer hlookup
  | setParameterImage index image =>
    exact SetParameterImage_lookup_mono deviceCount self index image d buffer hlookup
  | setParameterImageByName name image =>
    simp only [MaterialShaderParameter.applyWrite,
      MaterialShaderParameter.SetParameterImageByName]
    split
    · exact SetParameterImage_lookup_mono deviceCount self _ image d buffer hlookup
    · exact ⟨buffer, hlookup, Nat.le_refl _⟩

/-- A device buffer that exists is still there, and no shorter, after any sequence of writes. -/
theorem applyWrites_lookup_mono (deviceCount : Nat) (calls : List WriteCall)
    (self : MaterialShaderParameter) (d : Nat) (buffer : List Nat)
    (hlookup : self.m_structuredBufferData.lookup d = some buffer) :
    ∃ after,
      (self.applyWrites deviceCount calls).m_structuredBufferData.lookup d = some after ∧
      buffer.length ≤ after.length := by
  induction calls generalizing self buffer with
  | nil => exact ⟨buffer, hlookup, Nat.le_refl _⟩
  | cons call rest ih =>
    obtain ⟨mid, hmid, hle⟩ := applyWrite_lookup_mono deviceCount self call d buffer hlookup
    obtain ⟨after, hafter, hle2⟩ := ih (self.applyWrite deviceCount call) mid hmid
    exact ⟨after, hafter, Nat.le_trans hle hle2⟩

/-- C20. Size invariant: after construction against a non-empty layout, every descriptor of
which ends at or before the end of the last one (the layout invariant, by which the end
`last.m_offset + last.m_elementSize * last.m_elementCount` of the last descriptor is the total
size of the layout), and after any sequence of `SetParameter`, `SetParameterRaw` and image
writes, every device `d` below the device count has a buffer at least as long as the total size
of the layout, so that `m_offset + m_elementSize * m_elementCount` of every descriptor of the
layout is within the buffer. -/
theorem size_invariant (deviceCount : Nat) (typeIndex instanceIndex : Int)
    (layout : MaterialShaderParameterLayout) (srg : Option ShaderResourceGroup)
    (last : MaterialShaderParameterDescriptor) (calls : List WriteCall) (d : Nat)
    (hlast : layout.m_descriptors.getLast? = some last)
    (hends : ∀ desc, desc ∈ layout.m_descriptors →
      desc.m_structuredBufferBinding.m_offset + desc.declaredSize
        ≤ last.m_structuredBufferBinding.m_offset + last.declaredSize)
    (hd : d < deviceCount) :
    ∃ buffer,
      (MaterialShaderParameter.applyWrites deviceCount
        (MaterialShaderParameter.construct deviceCount typeIndex instanceIndex layout srg)
        calls).m_structuredBufferData.lookup d = some buffer ∧
      last.m_structuredBufferBinding.m_offset + last.declaredSize ≤ buffer.length ∧
      ∀ desc, desc ∈ layout.m_descriptors →
        desc.m_structuredBufferBinding.m_offset + desc.declaredSize ≤ buffer.length := by
  obtain ⟨_, _, _, hsb⟩ := constructSized_spec deviceCount typeIndex instanceIndex layout srg
    last hlast d
  rw [if_pos hd] at hsb
  obtain ⟨typed, htyped, hle1⟩ := SetParameter_lookup_mono deviceCount _
    (layout.GetParameterIndex "m_materialType")
    (ShaderValue.plain (uint32Bytes (int32Bits typeIndex))) d _ hsb
  obtain ⟨built, hbuilt, hle2⟩ := SetParameter_lookup_mono deviceCount _
    (layout.GetParameterIndex "m_materialInstance")
    (ShaderValue.plain (uint32Bytes (int32Bits instanceIndex))) d _ htyped
  rw [← construct_eq] at hbuilt
  obtain ⟨buffer, hbuffer, hle3⟩ := applyWrites_lookup_mono deviceCount calls _ d built hbuilt
  rw [List.length_replicate] at hle1
  refine ⟨buffer, hbuffer, by omega, ?_⟩
  intro desc hmem
  have hend := hends desc hmem
  omega

/-- The store constructed against `orderedLayout`, then written with a raw span and a null
image: the buffer of the second of two devices holds all 32 bytes of the layout. -/
theorem size_invariant_witness :
    ∃ buffer,
      (MaterialShaderParameter.applyWrites 2
        (MaterialShaderParameter.construct 2 5 9 orderedLayout none)
        [WriteCall.setParameterRaw ⟨2⟩ [1, 2], WriteCall.setParameterImage ⟨0⟩
          none]).m_structuredBufferData.lookup 1 = some buffer ∧
      bookkeepingDescColor.m_structuredBufferBinding.m_offset + bookkeepingDescColor.declaredSize
        ≤ buffer.length ∧
      ∀ desc, desc ∈ orderedLayout.m_descriptors →
        desc.m_structuredBufferBinding.m_offset + desc.declaredSize ≤ buffer.length :=
  size_invariant 2 5 9 orderedLayout none bookkeepingDescColor
    [WriteCall.setParameterRaw ⟨2⟩ [1, 2], WriteCall.setParameterImage ⟨0⟩ none] 1 rfl
    (by decide) (by decide)

/-! ## Lemmas on the growth step -/

theorem writeDeviceBuffer_eq_copyBytes (desc : MaterialShaderParameterDescriptor)
    (deviceData buffer : List Nat) :
    writeDeviceBuffer desc deviceData buffer
      = copyBytes (growDeviceBuffer desc buffer) desc.m_structuredBufferBinding.m_offset
          deviceData := rfl

theorem growDeviceBuffer_length (desc : MaterialShaderParameterDescriptor) (buffer : List Nat) :
    (growDeviceBuffer desc buffer).length =
      max buffer.length (desc.m_structuredBufferBinding.m_offset + desc.declaredSize) := by
  simp only [growDeviceBuffer, MaterialShaderParameterDescriptor.declaredSize]
  split
  · rw [resizeZero_length]
  · omega

theorem mem_storeIndices (desc : MaterialShaderParameterDescriptor) (deviceData : List Nat)
    (i : Nat) :
    i ∈ storeIndices desc deviceData ↔
      ∃ k, k < deviceData.length ∧ desc.m_structuredBufferBinding.m_offset + k = i := by
  simp [storeIndices]

/-- C21, as stated, fails for a span longer than the declared size. Five bytes written on the
4-byte parameter "flag" (offset 48) of a device without buffer: the loop stores to index 52 while
the buffer has 52 bytes after the growth step. Five bytes written on the 4-byte parameter "a"
(offset 0) over a buffer of 32 bytes: the byte at position 4, outside `[0, 4)`, is modified. -/
theorem size_mismatch_counterexample :
    (52 ∈ storeIndices sampleDescFlag [1, 2, 3, 4, 5] ∧
      (growDeviceBuffer sampleDescFlag []).length = 52) ∧
    ((List.range 32)[4]? = some 4 ∧
      (writeDeviceBuffer scenarioDescA [9, 9, 9, 9, 9] (List.range 32))[4]? = some 9) :=
  ⟨⟨by decide, rfl⟩, rfl, rfl⟩

/-- C21, amended. A size mismatch degrades gracefully for a span no longer than the declared
size: for every descriptor, every previous buffer of the device and every byte span of at most
`m_elementSize * m_elementCount` bytes (the assertion doing nothing), the buffer after the
per-device write is the copy over the grown buffer, every index the copy loop stores to lies
inside the buffer as sized after the growth step, and every byte of the previous buffer outside
`[m_offset, m_offset + m_elementSize * m_elementCount)` keeps its value. -/
theorem size_mismatch_short_span (self : MaterialShaderParameter)
    (desc : MaterialShaderParameterDescriptor) (deviceData : List Nat) (deviceIndex : Nat)
    (hshort : deviceData.length ≤ desc.declaredSize) :
    (self.SetStructuredBufferDataDevice desc deviceData
      deviceIndex).m_structuredBufferData.lookup deviceIndex =
      some (copyBytes
        (growDeviceBuffer desc ((self.m_structuredBufferData.lookup deviceIndex).getD []))
        desc.m_structuredBufferBinding.m_offset deviceData) ∧
    (∀ i, i ∈ storeIndices desc deviceData →
      i < (growDeviceBuffer desc
        ((self.m_structuredBufferData.lookup deviceIndex).getD [])).length) ∧
    (∀ i, i < ((self.m_structuredBufferData.lookup deviceIndex).getD []).length →
      (i < desc.m_structuredBufferBinding.m_offset ∨
        desc.m_structuredBufferBinding.m_offset + desc.declaredSize ≤ i) →
      (copyBytes
        (growDeviceBuffer desc ((self.m_structuredBufferData.lookup deviceIndex).getD []))
        desc.m_structuredBufferBinding.m_offset deviceData)[i]?
        = ((self.m_structuredBufferData.lookup deviceIndex).getD [])[i]?) := by
  refine ⟨?_, ?_, ?_⟩
  · rw [SetStructuredBufferDataDevice_buffers, DeviceBuffers.lookup_assign_same,
      writeDeviceBuffer_eq_copyBytes]
  · intro i hi
    obtain ⟨k, hk, rfl⟩ := (mem_storeIndices desc deviceData i).mp hi
    rw [growDeviceBuffer_length]
    omega
  · intro i hi houtside
    rw [← writeDeviceBuffer_eq_copyBytes,
      writeDeviceBuffer_getElem?_outside desc deviceData _ i (by omega), if_pos hi]

/-- Two bytes written on the 4-byte parameter "a" (offset 0) over the 32 bytes of device 0 of
`filledStore`: the index 1 of the loop is inside the buffer, and byte 4 is as it was. -/
theorem size_mismatch_short_span_witness :
    1 < (growDeviceBuffer scenarioDescA
      ((filledStore.m_structuredBufferData.lookup 0).getD [])).length ∧
    (copyBytes
      (growDeviceBuffer scenarioDescA ((filledStore.m_structuredBufferData.lookup 0).getD []))
      scenarioDescA.m_structuredBufferBinding.m_offset [9, 9])[4]?
      = ((filledStore.m_structuredBufferData.lookup 0).getD [])[4]? :=
  ⟨(size_mismatch_short_span filledStore scenarioDescA [9, 9] 0 (by decide)).2.1 1 (by decide),
    (size_mismatch_short_span filledStore scenarioDescA [9, 9] 0 (by decide)).2.2 4 (by decide)
      (Or.inr (by decide))⟩

/-- C27. Write bounds under the size contract: for every descriptor and every byte span whose
length is `m_elementSize * m_elementCount`, the size assertion of the per-device write holds, the
buffer after the write is the copy over the grown buffer, and each index `m_offset + k`
(`k < length`) that the copy loop stores to is strictly below the length of the buffer after the
growth step, whatever the previous buffer of the device (the empty one for a device that had
none). -/
theorem write_bounds_under_contract (self : MaterialShaderParameter)
    (desc : MaterialShaderParameterDescriptor) (deviceData : List Nat) (deviceIndex : Nat)
    (hsize : deviceData.length = desc.declaredSize) :
    SetStructuredBufferDataSizeAssert desc deviceData = true ∧
    (self.SetStructuredBufferDataDevice desc deviceData
      deviceIndex).m_structuredBufferData.lookup deviceIndex =
      some (copyBytes
        (growDeviceBuffer desc ((self.m_structuredBufferData.lookup deviceIndex).getD []))
        desc.m_structuredBufferBinding.m_offset deviceData) ∧
    (∀ i, i ∈ storeIndices desc deviceData ↔
      ∃ k, k < deviceData.length ∧ desc.m_structuredBufferBinding.m_offset + k = i) ∧
    (∀ k, k < deviceData.length →
      desc.m_structuredBufferBinding.m_offset + k <
        (growDeviceBuffer desc
          ((self.m_structuredBufferData.lookup deviceIndex).getD [])).length) := by
  refine ⟨?_, ?_, mem_storeIndices desc deviceData, ?_⟩
  · simp [SetStructuredBufferDataSizeAssert, hsize]
  · rw [SetStructuredBufferDataDevice_buffers, DeviceBuffers.lookup_assign_same,
      writeDeviceBuffer_eq_copyBytes]
  · intro k hk
    rw [growDeviceBuffer_length]
    omega

/-- Four bytes written on the 4-byte parameter "flag" (offset 48) of device 3 of `sampleStore`,
which has no buffer: the last index, 51, is below the length after the growth step. -/
theorem write_bounds_under_contract_witness :
    SetStructuredBufferDataSizeAssert sampleDescFlag [1, 2, 3, 4] = true ∧
    sampleDescFlag.m_structuredBufferBinding.m_offset + 3 <
      (growDeviceBuffer sampleDescFlag
        ((sampleStore.m_structuredBufferData.lookup 3).getD [])).length :=
  ⟨(write_bounds_under_contract sampleStore sampleDescFlag [1, 2, 3, 4] 3 rfl).1,
    (write_bounds_under_contract sampleStore sampleDescFlag [1, 2, 3, 4] 3 rfl).2.2.2 3
      (by decide)⟩

/-! ## The parameter count and the index allocator -/

theorem countLoop_eq (descriptors : List MaterialShaderParameterDescriptor) (start : Nat) :
    descriptors.foldl (fun count desc => if !desc.m_isPseudoParam then count + 1 else count)
        start
      = start + (descriptors.filter (fun desc => !desc.m_isPseudoParam)).length := by
  induction descriptors generalizing start with
  | nil => rfl
  | cons desc rest ih =>
    rw [List.foldl_cons, ih]
    cases hflag : desc.m_isPseudoParam
    · simp [List.filter_cons, hflag]
      omega
    · simp [List.filter_cons, hflag]

/-- C22. `GetNonPseudoParameterCount` returns the number of descriptors of the layout whose
`m_isPseudoParam` flag is false; it is at most the number of descriptors, and together with the
number of pseudo-parameter descriptors it makes the number of descriptors. -/
theorem GetNonPseudoParameterCount_spec (layout : MaterialShaderParameterLayout) :
    layout.GetNonPseudoParameterCount
      = (layout.m_descriptors.filter (fun desc => !desc.m_isPseudoParam)).length ∧
    0 ≤ layout.GetNonPseudoParameterCount ∧
    layout.GetNonPseudoParameterCount ≤ layout.m_descriptors.length ∧
    layout.GetNonPseudoParameterCount
      + (layout.m_descriptors.filter (fun desc => desc.m_isPseudoParam)).length
      = layout.m_descriptors.length := by
  have hcount : layout.GetNonPseudoParameterCount
      = (layout.m_descriptors.filter (fun desc => !desc.m_isPseudoParam)).length := by
    unfold MaterialShaderParameterLayout.GetNonPseudoParameterCount
    rw [countLoop_eq, Nat.zero_add]
  have hsplit : ∀ descriptors : List MaterialShaderParameterDescriptor,
      (descriptors.filter (fun desc => !desc.m_isPseudoParam)).length
        + (descriptors.filter (fun desc => desc.m_isPseudoParam)).length
        = descriptors.length := by
    intro descriptors
    induction descriptors with
    | nil => rfl
    | cons desc rest ih =>
      cases hflag : desc.m_isPseudoParam
      · simp [List.filter_cons, hflag]
        omega
      · simp [List.filter_cons, hflag]
        omega
  have h := hsplit layout.m_descriptors
  refine ⟨hcount, Nat.zero_le _, ?_, ?_⟩
  · omega
  · omega

theorem allocateMany_no_free (count watermark : Nat) :
    PersistentIndexAllocator.allocateMany count ⟨[], watermark⟩
      = (List.range' watermark count, ⟨[], watermark + count⟩) := by
  induction count generalizing watermark with
  | zero => rfl
  | succ n ih =>
    simp only [PersistentIndexAllocator.allocateMany, PersistentIndexAllocator.Allocate, ih,
      List.range'_succ]
    have h : watermark + 1 + n = watermark + (n + 1) := by omega
    rw [h]

theorem allocateMany_free (handles rest : List Nat) (watermark : Nat) :
    PersistentIndexAllocator.allocateMany handles.length ⟨handles ++ rest, watermark⟩
      = (handles, ⟨rest, watermark⟩) := by
  induction handles with
  | nil => rfl
  | cons handle others ih =>
    simp only [List.length_cons, PersistentIndexAllocator.allocateMany,
      PersistentIndexAllocator.Allocate, List.cons_append, ih]

theorem releaseMany_eq (handles free : List Nat) (watermark : Nat) :
    PersistentIndexAllocator.releaseMany ⟨free, watermark⟩ handles
      = ⟨handles.reverse ++ free, watermark⟩ := by
  unfold PersistentIndexAllocator.releaseMany
  induction handles generalizing free with
  | nil => rfl
  | cons handle others ih =>
    rw [List.foldl_cons]
    have hstep : PersistentIndexAllocator.Release ⟨free, watermark⟩ handle
        = ⟨handle :: free, watermark⟩ := rfl
    rw [hstep, ih]
    simp

/-- C23. Index reuse: `N` allocations from a fresh allocator yield 0, ..., N-1; after releasing
any of them (a list of distinct handles below `N`, in any order), the next allocations, as many as
were released, return exactly the released handles, each once and all below `N`, and only the
allocation after them returns `N`, the first handle at or above `N`. -/
theorem index_reuse (N : Nat) (released : List Nat) (hdistinct : released.Nodup)
    (hallocated : ∀ handle, handle ∈ released → handle < N) :
    (PersistentIndexAllocator.allocateMany N PersistentIndexAllocator.fresh).1 = List.range N ∧
    ((PersistentIndexAllocator.allocateMany released.length
      (PersistentIndexAllocator.releaseMany
        (PersistentIndexAllocator.allocateMany N PersistentIndexAllocator.fresh).2
        released)).1).Perm released ∧
    ((PersistentIndexAllocator.allocateMany released.length
      (PersistentIndexAllocator.releaseMany
        (PersistentIndexAllocator.allocateMany N PersistentIndexAllocator.fresh).2
        released)).1).Nodup ∧
    (∀ handle, handle ∈ (PersistentIndexAllocator.allocateMany released.length
      (PersistentIndexAllocator.releaseMany
        (PersistentIndexAllocator.allocateMany N PersistentIndexAllocator.fresh).2
        released)).1 → handle < N) ∧
    (PersistentIndexAllocator.allocateMany released.length
      (PersistentIndexAllocator.releaseMany
        (PersistentIndexAllocator.allocateMany N PersistentIndexAllocator.fresh).2
        released)).2.Allocate.1 = N := by
  have hfresh : PersistentIndexAllocator.allocateMany N PersistentIndexAllocator.fresh
      = (List.range N, ⟨[], N⟩) := by
    unfold PersistentIndexAllocator.fresh
    rw [allocateMany_no_free, Nat.zero_add, List.range_eq_range']
  have hreuse : PersistentIndexAllocator.allocateMany released.length
      (PersistentIndexAllocator.releaseMany
        (PersistentIndexAllocator.allocateMany N PersistentIndexAllocator.fresh).2 released)
      = (released.reverse, ⟨[], N⟩) := by
    rw [hfresh, releaseMany_eq]
    have h := allocateMany_free released.reverse [] N
    rw [List.length_reverse] at h
    exact h
  rw [hreuse]
  refine ⟨by rw [hfresh], List.reverse_perm released, List.nodup_reverse.mpr hdistinct, ?_, rfl⟩
  intro handle hmem
  exact hallocated handle (List.mem_reverse.mp hmem)

/-- Three instances registered (handles 0, 1, 2), handle 1 released: the fourth registration
gets handle 1 again, and the one after it handle 3. -/
theorem index_reuse_witness :
    (PersistentIndexAllocator.allocateMany 3 PersistentIndexAllocator.fresh).1 = List.range 3 ∧
    ((PersistentIndexAllocator.allocateMany [1].length
      (PersistentIndexAllocator.releaseMany
        (PersistentIndexAllocator.allocateMany 3 PersistentIndexAllocator.fresh).2
        [1])).1).Perm [1] ∧
    (PersistentIndexAllocator.allocateMany [1].length
      (PersistentIndexAllocator.releaseMany
        (PersistentIndexAllocator.allocateMany 3 PersistentIndexAllocator.fresh).2
        [1])).2.Allocate.1 = 3 :=
  ⟨(index_reuse 3 [1] (by decide) (by decide)).1, (index_reuse 3 [1] (by decide) (by decide)).2.1,
    (index_reuse 3 [1] (by decide) (by decide)).2.2.2.2⟩

/-- The 32-bit value that the typed read of four bytes returns is the one stored at the offset
of the descriptor in the buffer of the device. -/
theorem GetShaderParameterDataUInt32_stored (self : MaterialShaderParameter) (index : Handle)
    (desc : MaterialShaderParameterDescriptor) (d : Nat) (buffer : List Nat)
    (hdesc : self.m_layout.GetDescriptor index = some desc) (hsize : desc.declaredSize = 4)
    (hlookup : self.m_structuredBufferData.lookup d = some buffer) :
    self.GetShaderParameterDataUInt32 index d
      = bytesUInt32 buffer desc.m_structuredBufferBinding.m_offset := by
  have hsz : desc.m_structuredBufferBinding.m_elementSize *
      desc.m_structuredBufferBinding.m_elementCount = 4 := hsize
  simp only [MaterialShaderParameter.GetShaderParameterDataUInt32,
    MaterialShaderParameter.GetShaderParameterData, hdesc,
    MaterialShaderParameter.GetRawBufferParameterData, hlookup, hsz]
  simp [bytesUInt32, List.range_succ]

theorem GetShaderParameterDataUInt32_missing (self : MaterialShaderParameter) (index : Handle)
    (d : Nat) (hdesc : self.m_layout.GetDescriptor index = none) :
    self.GetShaderParameterDataUInt32 index d = 0 := by
  simp only [MaterialShaderParameter.GetShaderParameterDataUInt32,
    MaterialShaderParameter.GetShaderParameterData, hdesc]
  rfl

/-- C28. Out-of-contract boolean decode: on a descriptor of declared size 4 and a device that
has a buffer, `GetShaderParameterData<bool>(index, d)` returns false exactly when the 32-bit value
stored at `m_offset` is 0 and true for every other stored value, and its assertion
`result == 0 || result == 1` fails exactly when the stored value is neither 0 nor 1; when the
descriptor is missing, or the device has no buffer, it returns false. -/
theorem boolean_decode (self : MaterialShaderParameter) (index : Handle) (d : Nat) :
    (∀ desc buffer, self.m_layout.GetDescriptor index = some desc → desc.declaredSize = 4 →
      self.m_structuredBufferData.lookup d = some buffer →
      (self.GetShaderParameterDataBool index d = false ↔
        bytesUInt32 buffer desc.m_structuredBufferBinding.m_offset = 0) ∧
      (self.GetShaderParameterDataBool index d = true ↔
        bytesUInt32 buffer desc.m_structuredBufferBinding.m_offset ≠ 0) ∧
      (self.GetShaderParameterDataBoolAssert index d = false ↔
        (bytesUInt32 buffer desc.m_structuredBufferBinding.m_offset ≠ 0 ∧
          bytesUInt32 buffer desc.m_structuredBufferBinding.m_offset ≠ 1))) ∧
    (self.m_layout.GetDescriptor index = none →
      self.GetShaderParameterDataBool index d = false) ∧
    (self.m_structuredBufferData.lookup d = none →
      self.GetShaderParameterDataBool index d = false) := by
  refine ⟨?_, ?_, ?_⟩
  · intro desc buffer hdesc hsize hlookup
    have hstored := GetShaderParameterDataUInt32_stored self index desc d buffer hdesc hsize
      hlookup
    simp only [MaterialShaderParameter.GetShaderParameterDataBool,
      MaterialShaderParameter.GetShaderParameterDataBoolAssert, hstored]
    refine ⟨?_, ?_, ?_⟩
    · by_cases h0 : bytesUInt32 buffer desc.m_structuredBufferBinding.m_offset = 0
      · simp [h0]
      · simp [h0]
    · by_cases h0 : bytesUInt32 buffer desc.m_structuredBufferBinding.m_offset = 0
      · simp [h0]
      · simp [h0]
    · by_cases h0 : bytesUInt32 buffer desc.m_structuredBufferBinding.m_offset = 0
      · simp [h0]
      · by_cases h1 : bytesUInt32 buffer desc.m_structuredBufferBinding.m_offset = 1
        · simp [h1]
        · simp [h0, h1]
  · intro hdesc
    simp only [MaterialShaderParameter.GetShaderParameterDataBool,
      GetShaderParameterDataUInt32_missing self index d hdesc]
    rfl
  · intro hnone
    have hzero : self.GetShaderParameterDataUInt32 index d = 0 := by
      simp only [MaterialShaderParameter.GetShaderParameterDataUInt32,
        MaterialShaderParameter.GetShaderParameterData,
        MaterialShaderParameter.GetRawBufferParameterData, hnone]
      cases self.m_layout.GetDescriptor index <;> rfl
    simp only [MaterialShaderParameter.GetShaderParameterDataBool, hzero]
    rfl

/-- The stored value 2 in parameter "a" of `strayBoolStore` decodes to true and fails the
assertion; the index 5, without descriptor, decodes to false. -/
theorem boolean_decode_witness :
    (strayBoolStore.GetShaderParameterDataBool ⟨0⟩ 0 = true ↔
      bytesUInt32 [2, 0, 0, 0] scenarioDescA.m_structuredBufferBinding.m_offset ≠ 0) ∧
    (strayBoolStore.GetShaderParameterDataBoolAssert ⟨0⟩ 0 = false ↔
      (bytesUInt32 [2, 0, 0, 0] scenarioDescA.m_structuredBufferBinding.m_offset ≠ 0 ∧
        bytesUInt32 [2, 0, 0, 0] scenarioDescA.m_structuredBufferBinding.m_offset ≠ 1)) ∧
    strayBoolStore.GetShaderParameterDataBool ⟨5⟩ 0 = false :=
  ⟨((boolean_decode strayBoolStore ⟨0⟩ 0).1 scenarioDescA [2, 0, 0, 0] rfl rfl rfl).2.1,
    ((boolean_decode strayBoolStore ⟨0⟩ 0).1 scenarioDescA [2, 0, 0, 0] rfl rfl rfl).2.2,
    (boolean_decode strayBoolStore ⟨5⟩ 0).2.1 rfl⟩

/-! ## Lemmas on the stores reached from the constructor -/

/-- The constructor is its first part followed by the two bookkeeping writes. -/
theorem construct_eq_applyWrites (deviceCount : Nat) (materialTypeIndex : Int)
    (materialInstanceIndex : Int) (layout : MaterialShaderParameterLayout)
    (srg : Option ShaderResourceGroup) :
    MaterialShaderParameter.construct deviceCount materialTypeIndex materialInstanceIndex layout
        srg =
      MaterialShaderParameter.applyWrites deviceCount
        (MaterialShaderParameter.constructSized deviceCount materialTypeIndex
          materialInstanceIndex layout srg)
        (bookkeepingWrites materialTypeIndex materialInstanceIndex) := by
  obtain ⟨h1, h2, h3⟩ := constructSized_frame deviceCount materialTypeIndex
    materialInstanceIndex layout srg
  simp only [MaterialShaderParameter.construct, MaterialShaderParameter.applyWrites,
    bookkeepingWrites, List.foldl_cons, List.foldl_nil, MaterialShaderParameter.applyWrite,
    name_and_index_agree_aux, SetParameter_layout, (SetParameter_indices _ _ _ _).2, h1, h2, h3]

theorem applyWrites_append (deviceCount : Nat) (self : MaterialShaderParameter)
    (first second : List WriteCall) :
    self.applyWrites deviceCount (first ++ second)
      = (self.applyWrites deviceCount first).applyWrites deviceCount second := by
  unfold MaterialShaderParameter.applyWrites
  rw [List.foldl_append]

/-- A write leaves the layout of the store alone. -/
theorem applyWrite_layout (deviceCount : Nat) (self : MaterialShaderParameter)
    (call : WriteCall) : (self.applyWrite deviceCount call).m_layout = self.m_layout := by
  cases call with
  | setParameter index value => exact SetParameter_layout deviceCount self index value
  | setParameterByName name value =>
    simp only [MaterialShaderParameter.applyWrite, name_and_index_agree_aux]
    exact SetParameter_layout deviceCount self _ value
  | setParameterRaw index data =>
    simp only [MaterialShaderParameter.applyWrite, MaterialShaderParameter.SetParameterRaw]
    cases self.m_layout.GetDescriptor index with
    | none => rfl
    | some desc => exact (SetStructuredBufferData_frame deviceCount self desc data).1
  | setParameterImage index image =>
    simp only [MaterialShaderParameter.applyWrite, MaterialShaderParameter.SetParameterImage]
    cases self.m_layout.GetDescriptor index with
    | none => rfl
    | some desc => exact SetParameterImage_loop_layout deviceCount self desc image
  | setParameterImageByName name image =>
    simp only [MaterialShaderParameter.applyWrite,
      MaterialShaderParameter.SetParameterImageByName,
      MaterialShaderParameter.SetParameterImage]
    split
    · cases self.m_layout.GetDescriptor (self.m_layout.GetParameterIndex name) with
      | none => rfl
      | some desc => exact SetParameterImage_loop_layout deviceCount self desc image
    · rfl

theorem applyWrites_layout (deviceCount : Nat) (calls : List WriteCall)
    (self : MaterialShaderParameter) :
    (self.applyWrites deviceCount calls).m_layout = self.m_layout := by
  induction calls generalizing self with
  | nil => rfl
  | cons call rest ih =>
    have h := ih (self.applyWrite deviceCount call)
    rw [applyWrite_layout] at h
    exact h

/-- The buffers after a write: either they are as they were, or every device below the device
count holds a written form of the buffer it had, by a descriptor of the layout, and the others
are as they were. -/
theorem applyWrite_buffers (deviceCount : Nat) (self : MaterialShaderParameter)
    (call : WriteCall) :
    (∀ d, (self.applyWrite deviceCount call).m_structuredBufferData.lookup d
      = self.m_structuredBufferData.lookup d) ∨
    ∃ desc, desc ∈ self.m_layout.m_descriptors ∧ ∃ data : Nat → List Nat, ∀ d,
      (self.applyWrite deviceCount call).m_structuredBufferData.lookup d =
        if d < deviceCount then
          some (writeDeviceBuffer desc (data d) ((self.m_structuredBufferData.lookup d).getD []))
        else self.m_structuredBufferData.lookup d := by
  have hset : ∀ index value,
      (∀ d, (MaterialShaderParameter.SetParameter deviceCount self index
        value).2.m_structuredBufferData.lookup d = self.m_structuredBufferData.lookup d) ∨
      ∃ desc, desc ∈ self.m_layout.m_descriptors ∧ ∃ data : Nat → List Nat, ∀ d,
        (MaterialShaderParameter.SetParameter deviceCount self index
          value).2.m_structuredBufferData.lookup d =
          if d < deviceCount then
            some (writeDeviceBuffer desc (data d)
              ((self.m_structuredBufferData.lookup d).getD []))
          else self.m_structuredBufferData.lookup d := by
    intro index value
    cases hdesc : self.m_layout.GetDescriptor index with
    | none =>
      left
      intro d
      rw [SetParameter_none deviceCount self index value hdesc]
    | some desc =>
      right
      refine ⟨desc, GetDescriptor_mem _ _ _ hdesc, fun _ => value.data, ?_⟩
      intro d
      rw [(SetParameter_buffers deviceCount self index value desc hdesc).1,
        SetStructuredBufferData_lookup]
  have himage : ∀ index image,
      (∀ d, (MaterialShaderParameter.SetParameterImage deviceCount self index
        image).2.m_structuredBufferData.lookup d = self.m_structuredBufferData.lookup d) ∨
      ∃ desc, desc ∈ self.m_layout.m_descriptors ∧ ∃ data : Nat → List Nat, ∀ d,
        (MaterialShaderParameter.SetParameterImage deviceCount self index
          image).2.m_structuredBufferData.lookup d =
          if d < deviceCount then
            some (writeDeviceBuffer desc (data d)
              ((self.m_structuredBufferData.lookup d).getD []))
          else self.m_structuredBufferData.lookup d := by
    intro index image
    unfold MaterialShaderParameter.SetParameterImage
    cases hdesc : self.m_layout.GetDescriptor index with
    | none =>
      left
      intro d
      rfl
    | some desc =>
      right
      refine ⟨desc, GetDescriptor_mem _ _ _ hdesc,
        fun d => uint32Bytes (deviceReadIndex image d), ?_⟩
      intro d
      exact SetParameterImage_loop_lookup deviceCount self desc image d
  cases call with
  | setParameter index value => exact hset index value
  | setParameterByName name value =>
    simp only [MaterialShaderParameter.applyWrite, name_and_index_agree_aux]
    exact hset _ value
  | setParameterRaw index data =>
    simp only [MaterialShaderParameter.applyWrite, MaterialShaderParameter.SetParameterRaw]
    cases hdesc : self.m_layout.GetDescriptor index with
    | none =>
      left
      intro d
      rfl
    | some desc =>
      right
      refine ⟨desc, GetDescriptor_mem _ _ _ hdesc, fun _ => data, ?_⟩
      intro d
      exact SetStructuredBufferData_lookup deviceCount self desc data d
  | setParameterImage index image => exact himage index image
  | setParameterImageByName name image =>
    simp only [MaterialShaderParameter.applyWrite,
      MaterialShaderParameter.SetParameterImageByName]
    split
    · exact himage _ image
    · left
      intro d
      rfl

/-- One write keeps the steady state: when every descriptor of the layout ends within `total`
and the devices below the device count, and only they, have a buffer of `total` bytes. -/
theorem applyWrite_steady (deviceCount total : Nat) (self : MaterialShaderParameter)
    (call : WriteCall)
    (hends : ∀ desc, desc ∈ self.m_layout.m_descriptors →
      desc.m_structuredBufferBinding.m_offset + desc.declaredSize ≤ total)
    (hsteady : ∀ d,
      (d < deviceCount → ∃ buffer,
        self.m_structuredBufferData.lookup d = some buffer ∧ buffer.length = total) ∧
      (deviceCount ≤ d → self.m_structuredBufferData.lookup d = none)) :
    ∀ d,
      (d < deviceCount → ∃ buffer,
        (self.applyWrite deviceCount call).m_structuredBufferData.lookup d = some buffer ∧
        buffer.length = total) ∧
      (deviceCount ≤ d →
        (self.applyWrite deviceCount call).m_structuredBufferData.lookup d = none) := by
  intro d
  rcases applyWrite_buffers deviceCount self call with hsame | ⟨desc, hmem, data, hwritten⟩
  · rw [hsame d]
    exact hsteady d
  · rw [hwritten d]
    constructor
    · intro hd
      obtain ⟨buffer, hbuffer, hlength⟩ := (hsteady d).1 hd
      rw [if_pos hd, hbuffer, Option.getD_some]
      refine ⟨_, rfl, ?_⟩
      rw [writeDeviceBuffer_length, hlength]
      have := hends desc hmem
      omega
    · intro hd
      rw [if_neg (by omega)]
      exact (hsteady d).2 hd

theorem applyWrites_steady (deviceCount total : Nat) (calls : List WriteCall)
    (self : MaterialShaderParameter)
    (hends : ∀ desc, desc ∈ self.m_layout.m_descriptors →
      desc.m_structuredBufferBinding.m_offset + desc.declaredSize ≤ total)
    (hsteady : ∀ d,
      (d < deviceCount → ∃ buffer,
        self.m_structuredBufferData.lookup d = some buffer ∧ buffer.length = total) ∧
      (deviceCount ≤ d → self.m_structuredBufferData.lookup d = none)) :
    ∀ d,
      (d < deviceCount → ∃ buffer,
        (self.applyWrites deviceCount calls).m_structuredBufferData.lookup d = some buffer ∧
        buffer.length = total) ∧
      (deviceCount ≤ d →
        (self.applyWrites deviceCount calls).m_structuredBufferData.lookup d = none) := by
  induction calls generalizing self with
  | nil => exact hsteady
  | cons call rest ih =>
    exact ih (self.applyWrite deviceCount call)
      (by rw [applyWrite_layout]; exact hends)
      (applyWrite_steady deviceCount total self call hends hsteady)

/-- C24. Steady-state sizes: for a layout in which every descriptor ends at or before the end of
the last descriptor, the constructor is its sizing part followed by the two bookkeeping writes,
and in every store reached from the sizing part by any sequence of `SetParameter`,
`SetParameterRaw` and image writes (so in the constructed store and after any writes to it) the
devices below the device count, and only they, have a buffer; each buffer has length exactly
`last.m_offset + last.m_elementSize * last.m_elementCount`, and for every descriptor of the
layout the condition of the growth branch is false on it: the branch is never taken, and all
device buffers have the same length. -/
theorem steady_state_sizes (deviceCount : Nat) (typeIndex instanceIndex : Int)
    (layout : MaterialShaderParameterLayout) (srg : Option ShaderResourceGroup)
    (last : MaterialShaderParameterDescriptor) (calls : List WriteCall)
    (hlast : layout.m_descriptors.getLast? = some last)
    (hends : ∀ desc, desc ∈ layout.m_descriptors →
      desc.m_structuredBufferBinding.m_offset + desc.declaredSize
        ≤ last.m_structuredBufferBinding.m_offset + last.declaredSize) :
    MaterialShaderParameter.construct deviceCount typeIndex instanceIndex layout srg
      = MaterialShaderParameter.applyWrites deviceCount
          (MaterialShaderParameter.constructSized deviceCount typeIndex instanceIndex layout srg)
          (bookkeepingWrites typeIndex instanceIndex) ∧
    (MaterialShaderParameter.applyWrites deviceCount
      (MaterialShaderParameter.constructSized deviceCount typeIndex instanceIndex layout srg)
      calls).m_layout = layout ∧
    (∀ d,
      (d < deviceCount → ∃ buffer,
        (MaterialShaderParameter.applyWrites deviceCount
          (MaterialShaderParameter.constructSized deviceCount typeIndex instanceIndex layout srg)
          calls).m_structuredBufferData.lookup d = some buffer ∧
        buffer.length = last.m_structuredBufferBinding.m_offset + last.declaredSize ∧
        ∀ desc, desc ∈ layout.m_descriptors → growthBranchTaken desc buffer = false) ∧
      (deviceCount ≤ d →
        (MaterialShaderParameter.applyWrites deviceCount
          (MaterialShaderParameter.constructSized deviceCount typeIndex instanceIndex layout srg)
          calls).m_structuredBufferData.lookup d = none)) ∧
    (∀ d1 d2 buffer1 buffer2,
      (MaterialShaderParameter.applyWrites deviceCount
        (MaterialShaderParameter.constructSized deviceCount typeIndex instanceIndex layout srg)
        calls).m_structuredBufferData.lookup d1 = some buffer1 →
      (MaterialShaderParameter.applyWrites deviceCount
        (MaterialShaderParameter.constructSized deviceCount typeIndex instanceIndex layout srg)
        calls).m_structuredBufferData.lookup d2 = some buffer2 →
      buffer1.length = buffer2.length) := by
  have hframe := constructSized_frame deviceCount typeIndex instanceIndex layout srg
  have hsteady := applyWrites_steady deviceCount
    (last.m_structuredBufferBinding.m_offset + last.declaredSize) calls
    (MaterialShaderParameter.constructSized deviceCount typeIndex instanceIndex layout srg)
    (by rw [hframe.1]; exact hends)
    (by
      intro d
      have hspec := (constructSized_spec deviceCount typeIndex instanceIndex layout srg last
        hlast d).2.2.2
      constructor
      · intro hd
        rw [if_pos hd] at hspec
        exact ⟨_, hspec, List.length_replicate _ _⟩
      · intro hd
        rw [if_neg (by omega)] at hspec
        exact hspec)
  refine ⟨construct_eq_applyWrites deviceCount typeIndex instanceIndex layout srg,
    by rw [applyWrites_layout, hframe.1], ?_, ?_⟩
  · intro d
    refine ⟨?_, (hsteady d).2⟩
    intro hd
    obtain ⟨buffer, hbuffer, hlength⟩ := (hsteady d).1 hd
    refine ⟨buffer, hbuffer, hlength, ?_⟩
    intro desc hmem
    have hend := hends desc hmem
    simp only [MaterialShaderParameterDescriptor.declaredSize] at hend hlength
    simp only [growthBranchTaken, decide_eq_false_iff_not]
    omega
  · intro d1 d2 buffer1 buffer2 h1 h2
    have hlen : ∀ d buffer,
        (MaterialShaderParameter.applyWrites deviceCount
          (MaterialShaderParameter.constructSized deviceCount typeIndex instanceIndex layout srg)
          calls).m_structuredBufferData.lookup d = some buffer →
        buffer.length = last.m_structuredBufferBinding.m_offset + last.declaredSize := by
      intro d buffer hlookup
      by_cases hd : d < deviceCount
      · obtain ⟨other, hother, hlength⟩ := (hsteady d).1 hd
        rw [hlookup] at hother
        cases hother
        exact hlength
      · rw [(hsteady d).2 (by omega)] at hlookup
        cases hlookup
    rw [hlen d1 buffer1 h1, hlen d2 buffer2 h2]

/-- The store constructed against `orderedLayout` with two devices, then written with a `Color`
and a null image: the buffer of the second device has 32 bytes. -/
theorem steady_state_sizes_witness :
    ∃ buffer,
      (MaterialShaderParameter.applyWrites 2
        (MaterialShaderParameter.constructSized 2 5 9 orderedLayout none)
        (bookkeepingWrites 5 9 ++
          [WriteCall.setParameter ⟨2⟩ (ShaderValue.color ⟨1, 2, 3, 4⟩),
            WriteCall.setParameterImage ⟨0⟩ none])).m_structuredBufferData.lookup 1
        = some buffer ∧
      buffer.length = bookkeepingDescColor.m_structuredBufferBinding.m_offset
        + bookkeepingDescColor.declaredSize ∧
      ∀ desc, desc ∈ orderedLayout.m_descriptors → growthBranchTaken desc buffer = false :=
  ((steady_state_sizes 2 5 9 orderedLayout none bookkeepingDescColor
    (bookkeepingWrites 5 9 ++
      [WriteCall.setParameter ⟨2⟩ (ShaderValue.color ⟨1, 2, 3, 4⟩),
        WriteCall.setParameterImage ⟨0⟩ none]) rfl (by decide)).2.2.1 1).1 (by decide)

/-! ## Lemmas on reads after a write to another parameter -/

theorem writeDeviceBuffer_getD_outside (desc : MaterialShaderParameterDescriptor)
    (deviceData buffer : List Nat) (i : Nat)
    (houtside : i < desc.m_structuredBufferBinding.m_offset ∨
      desc.m_structuredBufferBinding.m_offset + deviceData.length ≤ i) :
    (writeDeviceBuffer desc deviceData buffer).getD i 0 = buffer.getD i 0 := by
  rw [List.getD_eq_getElem?_getD, List.getD_eq_getElem?_getD,
    writeDeviceBuffer_getElem?_outside desc deviceData buffer i houtside]
  by_cases h1 : i < buffer.length
  · rw [if_pos h1]
  · rw [if_neg h1, List.getElem?_eq_none (by omega : buffer.length ≤ i)]
    split <;> rfl

theorem getLast?_of_mem (descriptors : List MaterialShaderParameterDescriptor)
    (desc : MaterialShaderParameterDescriptor) (hmem : desc ∈ descriptors) :
    ∃ last, descriptors.getLast? = some last := by
  cases hlast : descriptors.getLast? with
  | some last => exact ⟨last, rfl⟩
  | none =>
    rw [List.getLast?_eq_none_iff] at hlast
    rw [hlast] at hmem
    cases hmem

/-- The store constructed against a layout with descriptors has, after any writes, a buffer for
every device below the device count. -/
theorem constructed_has_buffer (deviceCount : Nat) (typeIndex instanceIndex : Int)
    (layout : MaterialShaderParameterLayout) (srg : Option ShaderResourceGroup)
    (last : MaterialShaderParameterDescriptor) (calls : List WriteCall) (d : Nat)
    (hlast : layout.m_descriptors.getLast? = some last) (hd : d < deviceCount) :
    ∃ buffer,
      (MaterialShaderParameter.applyWrites deviceCount
        (MaterialShaderParameter.construct deviceCount typeIndex instanceIndex layout srg)
        calls).m_structuredBufferData.lookup d = some buffer := by
  have hspec := (constructSized_spec deviceCount typeIndex instanceIndex layout srg last hlast
    d).2.2.2
  rw [if_pos hd] at hspec
  rw [construct_eq_applyWrites, ← applyWrites_append]
  obtain ⟨buffer, hbuffer, _⟩ := applyWrites_lookup_mono deviceCount
    (bookkeepingWrites typeIndex instanceIndex ++ calls) _ d _ hspec
  exact ⟨buffer, hbuffer⟩

/-- The reads of a descriptor are the same in a store and in the store after a write of data
that does not meet the range of the descriptor, on a device that had a buffer or is not below
the device count. -/
theorem reads_unchanged (deviceCount : Nat) (self after : MaterialShaderParameter)
    (descI descJ : MaterialShaderParameterDescriptor) (indexJ : Handle) (data : List Nat)
    (d : Nat)
    (hlayout : after.m_layout = self.m_layout)
    (hJ : self.m_layout.GetDescriptor indexJ = some descJ)
    (hlookup : after.m_structuredBufferData.lookup d =
      if d < deviceCount then
        some (writeDeviceBuffer descI data ((self.m_structuredBufferData.lookup d).getD []))
      else self.m_structuredBufferData.lookup d)
    (hbuffer : d < deviceCount → ∃ buffer, self.m_structuredBufferData.lookup d = some buffer)
    (hdisjoint : descI.m_structuredBufferBinding.m_offset + data.length
        ≤ descJ.m_structuredBufferBinding.m_offset ∨
      descJ.m_structuredBufferBinding.m_offset + descJ.declaredSize
        ≤ descI.m_structuredBufferBinding.m_offset) :
    after.GetRawBufferParameterData (some descJ) d
        = self.GetRawBufferParameterData (some descJ) d ∧
      ∀ sizeofT, after.GetShaderParameterData sizeofT indexJ d
        = self.GetShaderParameterData sizeofT indexJ d := by
  have hraw : after.GetRawBufferParameterData (some descJ) d
      = self.GetRawBufferParameterData (some descJ) d := by
    simp only [MaterialShaderParameter.GetRawBufferParameterData, hlookup]
    by_cases hd : d < deviceCount
    · obtain ⟨buffer, hsome⟩ := hbuffer hd
      rw [if_pos hd, hsome, Option.getD_some]
      apply List.map_congr_left
      intro k hk
      have hk2 : k < descJ.declaredSize := List.mem_range.mp hk
      exact writeDeviceBuffer_getD_outside descI data buffer _ (by omega)
    · rw [if_neg hd]
  refine ⟨hraw, ?_⟩
  intro sizeofT
  simp only [MaterialShaderParameter.GetShaderParameterData, hlayout, hJ, hraw]

/-- C26. Parameters do not interfere: in a store constructed against a layout and written any
number of times, for two descriptors `i` and `j` of the layout whose byte ranges
`[m_offset, m_offset + m_elementSize * m_elementCount)` are disjoint, a write to `i` of data of
the declared size (`SetParameter` of a non-image value, `SetParameterRaw`, or the image setter on
a 4-byte descriptor) leaves `GetRawBufferParameterData(j, d)` as it was for every device `d`, and
with it `GetShaderParameterData<T>` of `j` for every `T`, on which every typed read is built. -/
theorem parameters_do_not_interfere (deviceCount : Nat) (typeIndex instanceIndex : Int)
    (layout : MaterialShaderParameterLayout) (srg : Option ShaderResourceGroup)
    (calls : List WriteCall) (indexI indexJ : Handle)
    (descI descJ : MaterialShaderParameterDescriptor) (value : ShaderValue) (bytes : List Nat)
    (image : Option Image) (d : Nat)
    (hI : layout.GetDescriptor indexI = some descI)
    (hJ : layout.GetDescriptor indexJ = some descJ)
    (hdisjoint : descI.m_structuredBufferBinding.m_offset + descI.declaredSize
        ≤ descJ.m_structuredBufferBinding.m_offset ∨
      descJ.m_structuredBufferBinding.m_offset + descJ.declaredSize
        ≤ descI.m_structuredBufferBinding.m_offset) :
    (descI.declaredSize = value.data.length →
      (MaterialShaderParameter.SetParameter deviceCount
        (MaterialShaderParameter.applyWrites deviceCount
          (MaterialShaderParameter.construct deviceCount typeIndex instanceIndex layout srg)
          calls) indexI value).2.GetRawBufferParameterData (some descJ) d
        = (MaterialShaderParameter.applyWrites deviceCount
            (MaterialShaderParameter.construct deviceCount typeIndex instanceIndex layout srg)
            calls).GetRawBufferParameterData (some descJ) d ∧
      ∀ sizeofT,
        (MaterialShaderParameter.SetParameter deviceCount
          (MaterialShaderParameter.applyWrites deviceCount
            (MaterialShaderParameter.construct deviceCount typeIndex instanceIndex layout srg)
            calls) indexI value).2.GetShaderParameterData sizeofT indexJ d
          = (MaterialShaderParameter.applyWrites deviceCount
              (MaterialShaderParameter.construct deviceCount typeIndex instanceIndex layout srg)
              calls).GetShaderParameterData sizeofT indexJ d) ∧
    (descI.declaredSize = bytes.length →
      (MaterialShaderParameter.SetParameterRaw deviceCount
        (MaterialShaderParameter.applyWrites deviceCount
          (MaterialShaderParameter.construct deviceCount typeIndex instanceIndex layout srg)
          calls) indexI bytes).2.GetRawBufferParameterData (some descJ) d
        = (MaterialShaderParameter.applyWrites deviceCount
            (MaterialShaderParameter.construct deviceCount typeIndex instanceIndex layout srg)
            calls).GetRawBufferParameterData (some descJ) d ∧
      ∀ sizeofT,
        (MaterialShaderParameter.SetParameterRaw deviceCount
          (MaterialShaderParameter.applyWrites deviceCount
            (MaterialShaderParameter.construct deviceCount typeIndex instanceIndex layout srg)
            calls) indexI bytes).2.GetShaderParameterData sizeofT indexJ d
          = (MaterialShaderParameter.applyWrites deviceCount
              (MaterialShaderParameter.construct deviceCount typeIndex instanceIndex layout srg)
              calls).GetShaderParameterData sizeofT indexJ d) ∧
    (descI.declaredSize = 4 →
      (MaterialShaderParameter.SetParameterImage deviceCount
        (MaterialShaderParameter.applyWrites deviceCount
          (MaterialShaderParameter.construct deviceCount typeIndex instanceIndex layout srg)
          calls) indexI image).2.GetRawBufferParameterData (some descJ) d
        = (MaterialShaderParameter.applyWrites deviceCount
            (MaterialShaderParameter.construct deviceCount typeIndex instanceIndex layout srg)
            calls).GetRawBufferParameterData (some descJ) d ∧
      ∀ sizeofT,
        (MaterialShaderParameter.SetParameterImage deviceCount
          (MaterialShaderParameter.applyWrites deviceCount
            (MaterialShaderParameter.construct deviceCount typeIndex instanceIndex layout srg)
            calls) indexI image).2.GetShaderParameterData sizeofT indexJ d
          = (MaterialShaderParameter.applyWrites deviceCount
              (MaterialShaderParameter.construct deviceCount typeIndex instanceIndex layout srg)
              calls).GetShaderParameterData sizeofT indexJ d) := by
  obtain ⟨last, hlast⟩ := getLast?_of_mem layout.m_descriptors descI (GetDescriptor_mem _ _ _ hI)
  have hbuffer : d < deviceCount → ∃ buffer,
      (MaterialShaderParameter.applyWrites deviceCount
        (MaterialShaderParameter.construct deviceCount typeIndex instanceIndex layout srg)
        calls).m_structuredBufferData.lookup d = some buffer :=
    fun hd => constructed_has_buffer deviceCount typeIndex instanceIndex layout srg last calls d
      hlast hd
  have hlayout : (MaterialShaderParameter.applyWrites deviceCount
      (MaterialShaderParameter.construct deviceCount typeIndex instanceIndex layout srg)
      calls).m_layout = layout := by
    rw [applyWrites_layout, construct_eq_applyWrites, applyWrites_layout]
    exact (constructSized_frame deviceCount typeIndex instanceIndex layout srg).1
  generalize MaterialShaderParameter.applyWrites deviceCount
    (MaterialShaderParameter.construct deviceCount typeIndex instanceIndex layout srg)
    calls = self at hbuffer hlayout ⊢
  have hI2 : self.m_layout.GetDescriptor indexI = some descI := by rw [hlayout]; exact hI
  have hJ2 : self.m_layout.GetDescriptor indexJ = some descJ := by rw [hlayout]; exact hJ
  refine ⟨?_, ?_, ?_⟩
  · intro hsize
    apply reads_unchanged deviceCount self _ descI descJ indexJ value.data d
      (SetParameter_layout deviceCount self indexI value) hJ2 ?_ hbuffer (by omega)
    rw [(SetParameter_buffers deviceCount self indexI value descI hI2).1,
      SetStructuredBufferData_lookup]
  · intro hsize
    simp only [MaterialShaderParameter.SetParameterRaw, hI2]
    apply reads_unchanged deviceCount self _ descI descJ indexJ bytes d
      (SetStructuredBufferData_frame deviceCount self descI bytes).1 hJ2 ?_ hbuffer (by omega)
    rw [SetStructuredBufferData_lookup]
  · intro hsize
    simp only [MaterialShaderParameter.SetParameterImage, hI2]
    apply reads_unchanged deviceCount self _ descI descJ indexJ
      (uint32Bytes (deviceReadIndex image d)) d
      (SetParameterImage_loop_layout deviceCount self descI image) hJ2 ?_ hbuffer
      (by rw [uint32Bytes_length]; omega)
    rw [SetParameterImage_loop_lookup]

/-- The store constructed against `orderedLayout` with two devices: a `Color` set on
"baseColor" leaves the raw view and the typed read of "m_materialInstance" on the second device
as they were. -/
theorem parameters_do_not_interfere_witness :
    (MaterialShaderParameter.SetParameter 2
      (MaterialShaderParameter.applyWrites 2
        (MaterialShaderParameter.construct 2 5 9 orderedLayout none) []) ⟨2⟩
      (ShaderValue.color ⟨1, 2, 3, 4⟩)).2.GetRawBufferParameterData
        (some bookkeepingDescInstance) 1
      = (MaterialShaderParameter.applyWrites 2
          (MaterialShaderParameter.construct 2 5 9 orderedLayout none)
          []).GetRawBufferParameterData (some bookkeepingDescInstance) 1 ∧
    ∀ sizeofT,
      (MaterialShaderParameter.SetParameter 2
        (MaterialShaderParameter.applyWrites 2
          (MaterialShaderParameter.construct 2 5 9 orderedLayout none) []) ⟨2⟩
        (ShaderValue.color ⟨1, 2, 3, 4⟩)).2.GetShaderParameterData sizeofT ⟨1⟩ 1
        = (MaterialShaderParameter.applyWrites 2
            (MaterialShaderParameter.construct 2 5 9 orderedLayout none)
            []).GetShaderParameterData sizeofT ⟨1⟩ 1 :=
  (parameters_do_not_interfere 2 5 9 orderedLayout none [] ⟨2⟩ ⟨1⟩ bookkeepingDescColor
    bookkeepingDescInstance (ShaderValue.color ⟨1, 2, 3, 4⟩) [] none 1 rfl rfl
    (Or.inr (by decide))).1 rfl

/-! ## Lemmas on the assertions of the constructor -/

theorem any_range_const (count : Nat) (b : Bool) :
    (List.range count).any (fun _ => b) = (decide (0 < count) && b) := by
  induction count with
  | zero => rfl
  | succ n ih =>
    rw [List.range_succ, List.any_append, ih]
    cases b <;> simp

/-- When a `SetParameter` by name of a 4-byte value raises no assertion. -/
theorem SetParameterByNameAsserts_false_iff (deviceCount : Nat)
    (self : MaterialShaderParameter) (name : String) (bits : Nat) :
    MaterialShaderParameter.SetParameterByNameAsserts deviceCount self name
        (ShaderValue.plain (uint32Bytes bits)) = false ↔
      (self.m_layout.GetParameterIndex name).IsValid = true ∧
      (0 < deviceCount → ∀ desc,
        self.m_layout.GetDescriptor (self.m_layout.GetParameterIndex name) = some desc →
        desc.declaredSize = 4) := by
  unfold MaterialShaderParameter.SetParameterByNameAsserts
  by_cases hvalid : (self.m_layout.GetParameterIndex name).IsValid = true
  · simp only [hvalid, if_true, true_and]
    cases hdesc : self.m_layout.GetDescriptor (self.m_layout.GetParameterIndex name) with
    | none => simp
    | some desc =>
      simp only [SetStructuredBufferDataAsserts, any_range_const,
        SetStructuredBufferDataSizeAssert, ShaderValue.data, uint32Bytes_length]
      by_cases hcount : 0 < deviceCount
      · by_cases hsize : desc.declaredSize = 4
        · simp [hcount, hsize]
        · simp [hcount, hsize]
      · simp [hcount]
  · simp [hvalid]

/-- A name with a valid index in a layout has the index from an entry of the name map. -/
theorem GetParameterIndex_valid_mem (layout : MaterialShaderParameterLayout) (name : String)
    (hvalid : (layout.GetParameterIndex name).IsValid = true) :
    ∃ entry, entry ∈ layout.m_names ∧ entry.2 = layout.GetParameterIndex name := by
  unfold MaterialShaderParameterLayout.GetParameterIndex at hvalid ⊢
  cases hfind : layout.m_names.find? (fun entry => entry.1 == name) with
  | none =>
    rw [hfind] at hvalid
    exact absurd hvalid (by decide)
  | some entry => exact ⟨entry, List.mem_of_find?_eq_some hfind, rfl⟩

/-- C25. Construction asserts, for a store of at least one device and a layout whose name map
gives every name the index of a descriptor: constructing the store raises the "needs a layout"
assertion if and only if the layout has zero descriptors, in which case no device buffer is
created; and construction completes with no assertion at all if and only if the layout is
non-empty and contains both "m_materialType" and "m_materialInstance" as descriptors of 4
bytes. -/
theorem construction_asserts (deviceCount : Nat) (typeIndex instanceIndex : Int)
    (layout : MaterialShaderParameterLayout) (srg : Option ShaderResourceGroup)
    (hcount : 0 < deviceCount)
    (hnames : ∀ entry, entry ∈ layout.m_names →
      (layout.GetDescriptor entry.2).isSome = true) :
    (constructNeedsLayoutAssert layout = true ↔ layout.m_descriptors.length = 0) ∧
    (layout.m_descriptors.length = 0 →
      (MaterialShaderParameter.construct deviceCount typeIndex instanceIndex layout
        srg).m_structuredBufferData = []) ∧
    (MaterialShaderParameter.constructAsserts deviceCount typeIndex instanceIndex layout srg
        = false ↔
      layout.m_descriptors.length ≠ 0 ∧
      (∃ descType,
        layout.GetDescriptor (layout.GetParameterIndex "m_materialType") = some descType ∧
        descType.declaredSize = 4) ∧
      (∃ descInstance,
        layout.GetDescriptor (layout.GetParameterIndex "m_materialInstance")
          = some descInstance ∧
        descInstance.declaredSize = 4)) := by
  have hneeds : constructNeedsLayoutAssert layout = true ↔ layout.m_descriptors.length = 0 := by
    unfold constructNeedsLayoutAssert
    cases layout.m_descriptors <;> simp
  have hframe := constructSized_frame deviceCount typeIndex instanceIndex layout srg
  have hexists : ∀ name, (layout.GetParameterIndex name).IsValid = true →
      ∃ desc, layout.GetDescriptor (layout.GetParameterIndex name) = some desc := by
    intro name hvalid
    obtain ⟨entry, hmem, hentry⟩ := GetParameterIndex_valid_mem layout name hvalid
    have hsome := hnames entry hmem
    rw [hentry] at hsome
    exact Option.isSome_iff_exists.mp hsome
  have hiff : MaterialShaderParameter.constructAsserts deviceCount typeIndex instanceIndex
      layout srg = false ↔
      layout.m_descriptors.length ≠ 0 ∧
      (layout.GetParameterIndex "m_materialType").IsValid = true ∧
      (layout.GetParameterIndex "m_materialInstance").IsValid = true ∧
      (0 < deviceCount → ∀ desc,
        layout.GetDescriptor (layout.GetParameterIndex "m_materialType") = some desc →
        desc.declaredSize = 4) ∧
      (0 < deviceCount → ∀ desc,
        layout.GetDescriptor (layout.GetParameterIndex "m_materialInstance") = some desc →
        desc.declaredSize = 4) := by
    have h1 := SetParameterByNameAsserts_false_iff deviceCount
      (MaterialShaderParameter.constructSized deviceCount typeIndex instanceIndex layout srg)
      "m_materialType"
      (int32Bits (MaterialShaderParameter.constructSized deviceCount typeIndex instanceIndex
        layout srg).m_materialTypeIndex)
    have h2 := SetParameterByNameAsserts_false_iff deviceCount
      (MaterialShaderParameter.SetParameterByName deviceCount
        (MaterialShaderParameter.constructSized deviceCount typeIndex instanceIndex layout srg)
        "m_materialType"
        (ShaderValue.plain (uint32Bytes (int32Bits
          (MaterialShaderParameter.constructSized deviceCount typeIndex instanceIndex layout
            srg).m_materialTypeIndex)))).2
      "m_materialInstance"
      (int32Bits (MaterialShaderParameter.SetParameterByName deviceCount
        (MaterialShaderParameter.constructSized deviceCount typeIndex instanceIndex layout srg)
        "m_materialType"
        (ShaderValue.plain (uint32Bytes (int32Bits
          (MaterialShaderParameter.constructSized deviceCount typeIndex instanceIndex layout
            srg).m_materialTypeIndex)))).2.m_materialInstanceIndex)
    rw [name_and_index_agree_aux, SetParameter_layout, hframe.1] at h2
    rw [hframe.1] at h1
    have hneeds2 : constructNeedsLayoutAssert layout = false ↔
        layout.m_descriptors.length ≠ 0 := by
      unfold constructNeedsLayoutAssert
      cases layout.m_descriptors <;> simp
    simp only [MaterialShaderParameter.constructAsserts, Bool.or_eq_false_iff]
    rw [name_and_index_agree_aux, hframe.1, h1, h2, hneeds2]
    constructor
    · rintro ⟨⟨ha, hb1, hc1⟩, hb2, hc2⟩
      exact ⟨ha, hb1, hb2, hc1, hc2⟩
    · rintro ⟨ha, hb1, hb2, hc1, hc2⟩
      exact ⟨⟨ha, hb1, hc1⟩, hb2, hc2⟩
  refine ⟨hneeds, ?_, ?_⟩
  · intro hempty
    have hnil : layout.m_descriptors = [] := List.length_eq_zero.mp hempty
    have hnone : ∀ index, layout.GetDescriptor index = none := by
      intro index
      unfold MaterialShaderParameterLayout.GetDescriptor
      rw [hnil]
      split <;> rfl
    have hsized : MaterialShaderParameter.constructSized deviceCount typeIndex instanceIndex
        layout srg =
        { m_layout := layout, m_structuredBufferData := [], m_shaderResourceGroup := srg,
          m_materialTypeIndex := typeIndex, m_materialInstanceIndex := instanceIndex } := by
      simp only [MaterialShaderParameter.constructSized, hnil, List.getLast?_nil]
    have hinner := SetParameter_none deviceCount
      { m_layout := layout, m_structuredBufferData := [], m_shaderResourceGroup := srg,
        m_materialTypeIndex := typeIndex, m_materialInstanceIndex := instanceIndex }
      (layout.GetParameterIndex "m_materialType")
      (ShaderValue.plain (uint32Bytes (int32Bits typeIndex))) (hnone _)
    rw [construct_eq, hsized, hinner, SetParameter_none _ _ _ _ (hnone _)]
  · rw [hiff]
    constructor
    · rintro ⟨hnonempty, hTvalid, hIvalid, hTsize, hIsize⟩
      obtain ⟨descType, hT⟩ := hexists "m_materialType" hTvalid
      obtain ⟨descInstance, hI⟩ := hexists "m_materialInstance" hIvalid
      exact ⟨hnonempty, ⟨descType, hT, hTsize hcount descType hT⟩,
        ⟨descInstance, hI, hIsize hcount descInstance hI⟩⟩
    · rintro ⟨hnonempty, ⟨descType, hT, hTsize⟩, ⟨descInstance, hI, hIsize⟩⟩
      refine ⟨hnonempty, GetDescriptor_IsValid _ _ _ hT, GetDescriptor_IsValid _ _ _ hI, ?_, ?_⟩
      · intro _ desc hdesc
        rw [hT] at hdesc
        cases hdesc
        exact hTsize
      · intro _ desc hdesc
        rw [hI] at hdesc
        cases hdesc
        exact hIsize

/-- The store of two devices constructed against `orderedLayout`, which holds both bookkeeping
fields with 4 bytes, raises no assertion; the one constructed against `emptyLayout` gets no
device buffer. -/
theorem construction_asserts_witness :
    MaterialShaderParameter.constructAsserts 2 5 9 orderedLayout none = false ∧
    (MaterialShaderParameter.construct 2 5 9 emptyLayout none).m_structuredBufferData = [] :=
  ⟨(construction_asserts 2 5 9 orderedLayout none (by decide) (by decide)).2.2.mpr
      ⟨by decide, ⟨bookkeepingDescType, rfl, rfl⟩, ⟨bookkeepingDescInstance, rfl, rfl⟩⟩,
    (construction_asserts 2 5 9 emptyLayout none (by decide) (by decide)).2.1 rfl⟩

end AZ.RPI
